import Mathlib

/-!
# PipeWire native protocol: marshalers, demarshalers and the POD codec

A shallow embedding of `pipewire/modules/module-protocol-native/protocol-native.c`
and, in a section of its own, of the DBus handlers of `src/server/pv-client.c`.

* Bytes are natural numbers (below 256 in every payload a marshaler writes).
* 32-bit and 64-bit fields are modelled by their bit patterns as natural numbers.
* The POD builder and iterator (`spa/pod-builder.h`, `spa/pod-iter.h`), the
  connection (`pw_connection_begin_write`, `pw_connection_end_write`), the type
  map and the opcode constants are not part of the sources at hand; they are
  modelled from the specification and marked as such.
* A demarshaler that reads a count from the wire allocates an array of that many
  elements with `alloca` before it reads the elements. Each such demarshaler has
  two definitions: the plain one gives its result when it runs to its end, the
  one named `_stack` follows the source through the allocations on a stack of
  bounded size (`Platform`, `Outcome`).
* The write buffer is flat memory: `write_pod` copies to `data + ref` whatever
  the capacity last requested from the connection is; the capacity is tracked
  in `builder.size`.
-/

namespace PipeWire

/-! ## Data model -/

/-- The bytes of a C string, the terminating NUL excluded. -/
abbrev CStr := List Nat

/-- Modelled from the spec: tag of an `Int32` record (`SPA_POD_TYPE_INT`). -/
def SPA_POD_TYPE_INT : Nat := 1

/-- Modelled from the spec: tag of an `Int64` record (`SPA_POD_TYPE_LONG`). -/
def SPA_POD_TYPE_LONG : Nat := 2

/-- Modelled from the spec: tag of a `String` record (`SPA_POD_TYPE_STRING`). -/
def SPA_POD_TYPE_STRING : Nat := 3

/-- Modelled from the spec: tag of an `Object` record (`SPA_POD_TYPE_OBJECT`). -/
def SPA_POD_TYPE_OBJECT : Nat := 4

/-- Modelled from the spec: tag of a `Struct` record (`SPA_POD_TYPE_STRUCT`). -/
def SPA_POD_TYPE_STRUCT : Nat := 5

/-- Modelled from the spec: the macro `SPA_ROUND_UP_N` of `spa/defs.h`, the least
multiple of `align` that is at least `num`. -/
def SPA_ROUND_UP_N (num align : Nat) : Nat := (num + (align - 1)) / align * align

/-- Modelled from the spec: a 32-bit value as four little-endian bytes. -/
def le32 (v : Nat) : List Nat :=
  [v % 256, v / 256 % 256, v / 65536 % 256, v / 16777216 % 256]

/-- Modelled from the spec: the 32-bit little-endian value at the head of a byte list. -/
def rd32 : List Nat → Nat
  | a :: b :: c :: d :: _ => a + 256 * b + 65536 * c + 16777216 * d
  | _ => 0

/-- Modelled from the spec: a 64-bit value as eight little-endian bytes. -/
def le64 (v : Nat) : List Nat := le32 (v % 4294967296) ++ le32 (v / 4294967296)

/-- Modelled from the spec: the 64-bit little-endian value at the head of a byte list. -/
def rd64 (bs : List Nat) : Nat := rd32 bs + 4294967296 * rd32 (bs.drop 4)

/-- The bit pattern of a C `int` (two's complement, 32 bits). -/
def ofInt32 (v : Int) : Nat := (v % 4294967296).toNat

/-- The C `int` with the given 32-bit pattern. -/
def toInt32 (v : Nat) : Int := if v < 2147483648 then (v : Int) else (v : Int) - 4294967296

/-- A format (`struct spa_format`): an `Object` pod, opaque to this layer; `body` is
what follows its 8-byte pod header. -/
structure spa_format where
  body : List Nat
deriving DecidableEq, Repr

/-- One item of a property dictionary (`struct spa_dict_item`). -/
structure spa_dict_item where
  key : CStr
  value : CStr
deriving DecidableEq, Repr

/-- A property dictionary (`struct spa_dict`): `n_items` and the array `items`. -/
structure spa_dict where
  n_items : Nat
  items : List spa_dict_item
deriving DecidableEq, Repr

/-- Modelled from the spec: the POD records that occur inside a top-level struct. -/
inductive Pod where
  | int (v : Nat)
  | long (v : Nat)
  | string (s : CStr)
  | object (body : List Nat)
deriving DecidableEq, Repr

/-- Modelled from the spec: the tag of a record. -/
def Pod.tag : Pod → Nat
  | .int _ => SPA_POD_TYPE_INT
  | .long _ => SPA_POD_TYPE_LONG
  | .string _ => SPA_POD_TYPE_STRING
  | .object _ => SPA_POD_TYPE_OBJECT

/-- Modelled from the spec: the payload of a record; a string carries its NUL
terminator inside the payload. -/
def Pod.body : Pod → List Nat
  | .int v => le32 v
  | .long v => le64 v
  | .string s => s ++ [0]
  | .object body => body

/-- Modelled from the spec: the zero bytes that pad a payload of `n` bytes to a
4-byte boundary. -/
def padding (n : Nat) : List Nat := List.replicate (SPA_ROUND_UP_N n 4 - n) 0

/-- Modelled from the spec: a record on the wire, `u32 size, u32 tag, payload, pad`;
the size excludes the 8-byte header and the padding. -/
def record (tag : Nat) (body : List Nat) : List Nat :=
  le32 body.length ++ le32 tag ++ body ++ padding body.length

/-- Modelled from the spec: the wire bytes of one record. -/
def Pod.encode (p : Pod) : List Nat := record p.tag p.body

/-- Modelled from the spec: the concatenation of the wire bytes of a list of records. -/
def encodeAll : List Pod → List Nat
  | [] => []
  | p :: ps => p.encode ++ encodeAll ps

/-- Modelled from the spec: a top-level `Struct` whose payload is the concatenation
of its child records. -/
def encodeStruct (ps : List Pod) : List Nat :=
  le32 (encodeAll ps).length ++ le32 SPA_POD_TYPE_STRUCT ++ encodeAll ps

/-- The records of a property dictionary's items: key and value strings, in order. -/
def dictPods : List spa_dict_item → List Pod
  | [] => []
  | i :: is => Pod.string i.key :: Pod.string i.value :: dictPods is

/-! ## The connection (message framer) -/

/-- A connection handle (`struct pw_connection *`, non-NULL). -/
structure pw_connection where
  fd : Nat
deriving DecidableEq, Repr

/-- Modelled from the spec: a call into the message framer. `begin_write` asks for a
writable region of at least `size` bytes; `end_write` finalizes the current
outbound message with header `(dest_id, opcode, size)`, `payload` being the first
`size` bytes of the region at that moment. The connection argument is recorded as
passed (`none` is NULL). -/
inductive FramerCall where
  | begin_write (conn : Option pw_connection) (size : Nat)
  | end_write (conn : Option pw_connection) (dest_id opcode size : Nat) (payload : List Nat)
deriving DecidableEq, Repr

/-! ## The POD builder -/

/-- The `struct builder` of the source together with its `struct spa_pod_builder`:
`data`, `size` (capacity) and `offset` of the pod builder and the `connection`;
`calls` collects the framer calls issued through the builder. -/
structure builder where
  data : List Nat
  size : Nat
  offset : Nat
  connection : Option pw_connection
  calls : List FramerCall
deriving DecidableEq, Repr

/-- Flat-memory `memcpy (mem + ref, src, src.length)`. -/
def memcpy (mem : List Nat) (ref : Nat) (src : List Nat) : List Nat :=
  mem.take ref ++ List.replicate (ref - mem.length) 0 ++ src ++ mem.drop (ref + src.length)

/-- Modelled from the spec: `pw_connection_begin_write` yields the writable region;
what was written before is preserved. -/
def pw_connection_begin_write (region : List Nat) (_size : Nat) : List Nat := region

/-- The function `write_pod` of the source: `ref = -1` (all ones) means the current
offset; the region is re-requested only when `b->size <= b->offset`. -/
def write_pod (b : builder) (ref : Nat) (data : List Nat) (size : Nat) : builder × Nat :=
  let ref := if ref = 4294967295 then b.offset else ref
  let b :=
    if b.size ≤ b.offset then
      let size' := SPA_ROUND_UP_N ((b.offset + size) % 4294967296) 4096 % 4294967296
      { b with
        size := size'
        data := pw_connection_begin_write b.data size'
        calls := b.calls ++ [FramerCall.begin_write b.connection size'] }
    else b
  ({ b with data := memcpy b.data ref (data.take size) }, ref)

/-- Modelled from the spec: append raw bytes at the current write position through
the builder's write callback and advance the offset. -/
def spa_pod_builder_raw (b : builder) (data : List Nat) : builder :=
  let b := (write_pod b 4294967295 data data.length).1
  { b with offset := b.offset + data.length }

/-- Modelled from the spec: the `struct spa_pod_frame` of an open struct, where its
length placeholder was written. -/
structure spa_pod_frame where
  ref : Nat
deriving DecidableEq, Repr

/-- The arguments of the variadic `spa_pod_builder_add`: a tag and its value.
`STRUCT` is `SPA_POD_TYPE_STRUCT, &f`; `END_STRUCT` is `-SPA_POD_TYPE_STRUCT, &f`;
`POD none` is a NULL pod pointer. -/
inductive BuilderArg where
  | STRUCT
  | INT (v : Nat)
  | LONG (v : Nat)
  | STRING (s : CStr)
  | POD (p : Option spa_format)
  | END_STRUCT
deriving DecidableEq, Repr

/-- Modelled from the spec: one step of `spa_pod_builder_add`. Opening a struct
records a length placeholder, closing it back-patches the header; an absent
(NULL) object is omitted. -/
def spa_pod_builder_add1 (bf : builder × spa_pod_frame) : BuilderArg → builder × spa_pod_frame
  | .STRUCT =>
      (spa_pod_builder_raw bf.1 (le32 0 ++ le32 SPA_POD_TYPE_STRUCT), ⟨bf.1.offset⟩)
  | .INT v => (spa_pod_builder_raw bf.1 (Pod.int v).encode, bf.2)
  | .LONG v => (spa_pod_builder_raw bf.1 (Pod.long v).encode, bf.2)
  | .STRING s => (spa_pod_builder_raw bf.1 (Pod.string s).encode, bf.2)
  | .POD none => bf
  | .POD (some p) => (spa_pod_builder_raw bf.1 (Pod.object p.body).encode, bf.2)
  | .END_STRUCT =>
      ((write_pod bf.1 bf.2.ref
          (le32 (bf.1.offset - (bf.2.ref + 8)) ++ le32 SPA_POD_TYPE_STRUCT) 8).1, bf.2)

/-- Modelled from the spec: `spa_pod_builder_add (&b, ..., 0)`, the arguments in order. -/
def spa_pod_builder_add (bf : builder × spa_pod_frame) (args : List BuilderArg) :
    builder × spa_pod_frame :=
  args.foldl spa_pod_builder_add1 bf

/-- Modelled from the spec: `spa_pod_builder_struct (&b, &f, ...)`, a struct around
the arguments. -/
def spa_pod_builder_struct (bf : builder × spa_pod_frame) (args : List BuilderArg) :
    builder × spa_pod_frame :=
  spa_pod_builder_add bf ([BuilderArg.STRUCT] ++ args ++ [BuilderArg.END_STRUCT])

/-- The initializer `{ {NULL, 0, 0, NULL, write_pod}, connection }` and the
uninitialized frame `f`. -/
def builder_init (connection : Option pw_connection) : builder × spa_pod_frame :=
  (⟨[], 0, 0, connection, []⟩, ⟨0⟩)

/-! ## The POD iterator -/

/-- Modelled from the spec: the `struct spa_pod_iter`, the memory it reads, the end of
the struct it iterates and the current offset. -/
structure spa_pod_iter where
  data : List Nat
  size : Nat
  offset : Nat
deriving DecidableEq, Repr

/-- Modelled from the spec: `spa_pod_iter_struct` positions the iterator at the first
inner record; it fails when the payload is shorter than a header, its tag is not
`Struct`, or the struct does not fit in `size` bytes. -/
def spa_pod_iter_struct (data : List Nat) (size : Nat) : Option spa_pod_iter :=
  if size < 8 then none
  else if rd32 (data.drop 4) ≠ SPA_POD_TYPE_STRUCT then none
  else if size < 8 + rd32 data then none
  else some ⟨data, 8 + rd32 data, 8⟩

/-- Modelled from the spec: the next record of the iterator, as tag, payload and the
advanced iterator; fails when the header or the padded payload does not fit. -/
def spa_pod_iter_next (it : spa_pod_iter) : Option (Nat × List Nat × spa_pod_iter) :=
  if it.size < it.offset + 8 then none
  else
    let rest := it.data.drop it.offset
    let psize := rd32 rest
    let total := 8 + SPA_ROUND_UP_N psize 4
    if it.size < it.offset + total then none
    else some (rd32 (rest.drop 4), (rest.drop 8).take psize,
               { it with offset := it.offset + total })

/-- Modelled from the spec: read an `Int32`; fails on another tag or size. -/
def spa_pod_iter_get_int (it : spa_pod_iter) : Option (Nat × spa_pod_iter) :=
  match spa_pod_iter_next it with
  | some (tag, body, it') =>
      if tag = SPA_POD_TYPE_INT ∧ body.length = 4 then some (rd32 body, it') else none
  | none => none

/-- Modelled from the spec: read an `Int64`; fails on another tag or size. -/
def spa_pod_iter_get_long (it : spa_pod_iter) : Option (Nat × spa_pod_iter) :=
  match spa_pod_iter_next it with
  | some (tag, body, it') =>
      if tag = SPA_POD_TYPE_LONG ∧ body.length = 8 then some (rd64 body, it') else none
  | none => none

/-- Modelled from the spec: read a `String`, the bytes before the NUL terminator;
fails on another tag or when the payload holds no terminator. -/
def spa_pod_iter_get_string (it : spa_pod_iter) : Option (CStr × spa_pod_iter) :=
  match spa_pod_iter_next it with
  | some (tag, body, it') =>
      if tag = SPA_POD_TYPE_STRING ∧ 0 ∈ body then some (body.takeWhile (· ≠ 0), it') else none
  | none => none

/-- Modelled from the spec: read an `Object`; fails on another tag. -/
def spa_pod_iter_get_object (it : spa_pod_iter) : Option (spa_format × spa_pod_iter) :=
  match spa_pod_iter_next it with
  | some (tag, body, it') =>
      if tag = SPA_POD_TYPE_OBJECT then some (⟨body⟩, it') else none
  | none => none

/-- Modelled from the spec: read an optional object (`-SPA_POD_TYPE_OBJECT`); if the
next record is not an object it is treated as absent without consuming bytes. -/
def spa_pod_iter_get_opt_object (it : spa_pod_iter) : Option spa_format × spa_pod_iter :=
  match spa_pod_iter_get_object it with
  | some (f, it') => (some f, it')
  | none => (none, it)

/-- The loop of the demarshalers that reads `n` (key, value) string pairs; it fails
as soon as one read fails. -/
def demarshal_dict_items : Nat → spa_pod_iter → Option (List spa_dict_item × spa_pod_iter)
  | 0, it => some ([], it)
  | n + 1, it =>
    match spa_pod_iter_get_string it with
    | none => none
    | some (key, it) =>
      match spa_pod_iter_get_string it with
      | none => none
      | some (value, it) =>
        match demarshal_dict_items n it with
        | none => none
        | some (items, it) => some (⟨key, value⟩ :: items, it)

/-- The loop of the `update_types` demarshalers that reads `n` strings. -/
def demarshal_types : Nat → spa_pod_iter → Option (List CStr × spa_pod_iter)
  | 0, it => some ([], it)
  | n + 1, it =>
    match spa_pod_iter_get_string it with
    | none => none
    | some (t, it) =>
      match demarshal_types n it with
      | none => none
      | some (types, it) => some (t :: types, it)

/-- The loop of `node_demarshal_info` that reads `n` format objects. -/
def demarshal_formats : Nat → spa_pod_iter → Option (List spa_format × spa_pod_iter)
  | 0, it => some ([], it)
  | n + 1, it =>
    match spa_pod_iter_get_object it with
    | none => none
    | some (f, it) =>
      match demarshal_formats n it with
      | none => none
      | some (formats, it) => some (f :: formats, it)

/-! ## Opcodes -/

/-- Modelled from the spec: opcode of the Core method `update_types`. -/
def PW_CORE_METHOD_UPDATE_TYPES : Nat := 0
/-- Modelled from the spec: opcode of the Core method `sync`. -/
def PW_CORE_METHOD_SYNC : Nat := 1
/-- Modelled from the spec: opcode of the Core method `get_registry`. -/
def PW_CORE_METHOD_GET_REGISTRY : Nat := 2
/-- Modelled from the spec: opcode of the Core method `client_update`. -/
def PW_CORE_METHOD_CLIENT_UPDATE : Nat := 3
/-- Modelled from the spec: opcode of the Core method `create_node`. -/
def PW_CORE_METHOD_CREATE_NODE : Nat := 4
/-- Modelled from the spec: opcode of the Core method `create_link`. -/
def PW_CORE_METHOD_CREATE_LINK : Nat := 5
/-- Modelled from the spec: opcode of the Core event `update_types`. -/
def PW_CORE_EVENT_UPDATE_TYPES : Nat := 0
/-- Modelled from the spec: opcode of the Core event `done`. -/
def PW_CORE_EVENT_DONE : Nat := 1
/-- Modelled from the spec: opcode of the Core event `error`. -/
def PW_CORE_EVENT_ERROR : Nat := 2
/-- Modelled from the spec: opcode of the Core event `remove_id`. -/
def PW_CORE_EVENT_REMOVE_ID : Nat := 3
/-- Modelled from the spec: opcode of the Core event `info`. -/
def PW_CORE_EVENT_INFO : Nat := 4
/-- Modelled from the spec: opcode of the Registry method `bind`. -/
def PW_REGISTRY_METHOD_BIND : Nat := 0
/-- Modelled from the spec: opcode of the Registry event `global`. -/
def PW_REGISTRY_EVENT_GLOBAL : Nat := 0
/-- Modelled from the spec: opcode of the Registry event `global_remove`. -/
def PW_REGISTRY_EVENT_GLOBAL_REMOVE : Nat := 1
/-- Modelled from the spec: opcode of the Module event `info`. -/
def PW_MODULE_EVENT_INFO : Nat := 0
/-- Modelled from the spec: opcode of the Node event `info`. -/
def PW_NODE_EVENT_INFO : Nat := 0
/-- Modelled from the spec: opcode of the Client event `info`. -/
def PW_CLIENT_EVENT_INFO : Nat := 0
/-- Modelled from the spec: opcode of the Link event `info`. -/
def PW_LINK_EVENT_INFO : Nat := 0

/-! ## Objects, contexts and info structures -/

/-- A proxy (`struct pw_proxy`): its id; its context is the `pw_context` threaded
through the marshalers. -/
structure pw_proxy where
  id : Nat
deriving DecidableEq, Repr

/-- A resource (`struct pw_resource`): its id; its client is the `pw_client` threaded
through the marshalers. -/
structure pw_resource where
  id : Nat
deriving DecidableEq, Repr

/-- The fields of `struct pw_context` the marshalers use: the connection
(`protocol_private`, `none` is NULL), the sent high-water mark `n_types`, the type
map (`type.map`, the URI of type id `i` at index `i`) and the core proxy; `framer`
is the sequence of calls made so far into the message framer, oldest first. -/
structure pw_context where
  protocol_private : Option pw_connection
  n_types : Nat
  type_map : List CStr
  core_proxy : pw_proxy
  framer : List FramerCall
deriving DecidableEq, Repr

/-- The fields of `struct pw_core` the marshalers use: the type map. -/
structure pw_core where
  type_map : List CStr
deriving DecidableEq, Repr

/-- The fields of `struct pw_client` the marshalers use; `framer` as in `pw_context`. -/
structure pw_client where
  protocol_private : Option pw_connection
  n_types : Nat
  core : pw_core
  core_resource : pw_resource
  framer : List FramerCall
deriving DecidableEq, Repr

/-- The `struct pw_core_info` as the marshaler and the demarshaler use it. -/
structure pw_core_info where
  id : Nat
  change_mask : Nat
  user_name : CStr
  host_name : CStr
  version : CStr
  name : CStr
  cookie : Nat
  props : Option spa_dict
deriving DecidableEq, Repr

/-- The `struct pw_module_info` as the marshaler and the demarshaler use it. -/
structure pw_module_info where
  id : Nat
  change_mask : Nat
  name : CStr
  filename : CStr
  args : CStr
  props : Option spa_dict
deriving DecidableEq, Repr

/-- The `struct pw_node_info` as the marshaler and the demarshaler use it; the
entries of the format arrays are format objects. -/
structure pw_node_info where
  id : Nat
  change_mask : Nat
  name : CStr
  max_input_ports : Nat
  n_input_ports : Nat
  n_input_formats : Nat
  input_formats : List spa_format
  max_output_ports : Nat
  n_output_ports : Nat
  n_output_formats : Nat
  output_formats : List spa_format
  state : Nat
  error : CStr
  props : Option spa_dict
deriving DecidableEq, Repr

/-- The `struct pw_client_info` as the marshaler and the demarshaler use it. -/
structure pw_client_info where
  id : Nat
  change_mask : Nat
  props : Option spa_dict
deriving DecidableEq, Repr

/-- The `struct pw_link_info` as the marshaler and the demarshaler use it. -/
structure pw_link_info where
  id : Nat
  change_mask : Nat
  output_node_id : Nat
  output_port_id : Nat
  input_node_id : Nat
  input_port_id : Nat
  format : Option spa_format
deriving DecidableEq, Repr

/-- An invocation of a handler installed in an object's `implementation`, with the
arguments it receives. -/
inductive HandlerCall where
  | core_methods_update_types (first_id n_types : Nat) (types : List CStr)
  | core_methods_sync (seq : Nat)
  | core_methods_get_registry (new_id : Nat)
  | core_methods_client_update (props : spa_dict)
  | core_methods_create_node (factory_name name : CStr) (props : spa_dict) (new_id : Nat)
  | core_methods_create_link (output_node_id output_port_id input_node_id input_port_id : Nat)
      (filter : Option spa_format) (props : spa_dict) (new_id : Nat)
  | core_events_update_types (first_id n_types : Nat) (types : List CStr)
  | core_events_done (seq : Nat)
  | core_events_error (id : Nat) (res : Int) (error : CStr)
  | core_events_remove_id (id : Nat)
  | core_events_info (info : pw_core_info)
  | registry_methods_bind (id version new_id : Nat)
  | registry_events_global (id : Nat) (type : CStr) (version : Nat)
  | registry_events_global_remove (id : Nat)
  | module_events_info (info : pw_module_info)
  | node_events_info (info : pw_node_info)
  | client_events_info (info : pw_client_info)
  | link_events_info (info : pw_link_info)
deriving DecidableEq, Repr

/-- What a demarshaler did: its return value and the handler invocations it made. -/
structure Demarshaled where
  ret : Bool
  calls : List HandlerCall
deriving DecidableEq, Repr

/-- The common shape of the demarshalers: when reading the arguments fails they
return false before the handler is reached; otherwise they invoke the handler
once and return true. -/
def demarshaled : Option HandlerCall → Demarshaled
  | none => ⟨false, []⟩
  | some call => ⟨true, [call]⟩

/-- Modelled from the spec: `spa_type_map_get_size`, the number of registered types. -/
def spa_type_map_get_size (map : List CStr) : Nat := map.length

/-- Modelled from the spec: `spa_type_map_get_type`, the URI of a type id. -/
def spa_type_map_get_type (map : List CStr) (id : Nat) : CStr := map.getD id []

/-- Modelled from the spec: `pw_connection_end_write` finalizes the message written
through the builder `b`; the framer calls of the builder precede it. -/
def pw_connection_end_write (framer : List FramerCall) (b : builder)
    (connection : Option pw_connection) (dest_id opcode size : Nat) : List FramerCall :=
  framer ++ b.calls ++ [FramerCall.end_write connection dest_id opcode size (b.data.take size)]

/-- The number of items the marshalers write: `props ? props->n_items : 0`. -/
def props_n_items (props : Option spa_dict) : Nat :=
  match props with
  | some d => d.n_items
  | none => 0

/-- The loop `for (i = 0; i < n_items; i++)` of the marshalers over `props->items`. -/
def marshal_dict_items (bf : builder × spa_pod_frame) (props : Option spa_dict) (n_items : Nat) :
    builder × spa_pod_frame :=
  match props with
  | some d =>
      (d.items.take n_items).foldl
        (fun bf item => spa_pod_builder_add bf [.STRING item.key, .STRING item.value]) bf
  | none => bf

/-! ## Client-side marshalers (methods) -/

/-- The function `core_marshal_update_types_client` of the source. -/
def core_marshal_update_types_client (context : pw_context) (proxy : pw_proxy)
    (first_id n_types : Nat) (types : List CStr) : pw_context :=
  match context.protocol_private with
  | none => context
  | some connection =>
    let bf := builder_init (some connection)
    let bf := spa_pod_builder_add bf [.STRUCT, .INT first_id, .INT n_types]
    let bf := (types.take n_types).foldl (fun bf t => spa_pod_builder_add bf [.STRING t]) bf
    let bf := spa_pod_builder_add bf [.END_STRUCT]
    { context with
      framer := pw_connection_end_write context.framer bf.1 (some connection) proxy.id
        PW_CORE_METHOD_UPDATE_TYPES bf.1.offset }

/-- The function `core_update_map_client` of the source; `pw_core_do_update_types`
calls the `update_types` method of the core proxy, which is
`core_marshal_update_types_client`. The subtraction and the addition are 32-bit. -/
def core_update_map_client (context : pw_context) : pw_context :=
  let base := context.n_types
  let diff := (spa_type_map_get_size context.type_map + 4294967296 - base) % 4294967296
  if diff = 0 then context
  else
    let types := (List.range diff).map
      (fun i => spa_type_map_get_type context.type_map (base + i))
    let context :=
      core_marshal_update_types_client context context.core_proxy context.n_types diff types
    { context with n_types := (context.n_types + diff) % 4294967296 }

/-- The function `core_marshal_client_update` of the source; here `i` and `n_items`
are declared `int`: the count is written with its 32-bit pattern and the loop runs
while `i < n_items` as signed values. -/
def core_marshal_client_update (context : pw_context) (proxy : pw_proxy)
    (props : Option spa_dict) : pw_context :=
  match context.protocol_private with
  | none => context
  | some connection =>
    let bf := builder_init (some connection)
    let context := core_update_map_client context
    let n_items : Int := toInt32 (props_n_items props)
    let bf := spa_pod_builder_add bf [.STRUCT, .INT (ofInt32 n_items)]
    let bf := marshal_dict_items bf props n_items.toNat
    let bf := spa_pod_builder_add bf [.END_STRUCT]
    { context with
      framer := pw_connection_end_write context.framer bf.1 (some connection) proxy.id
        PW_CORE_METHOD_CLIENT_UPDATE bf.1.offset }

/-- The function `core_marshal_sync` of the source. -/
def core_marshal_sync (context : pw_context) (proxy : pw_proxy) (seq : Nat) : pw_context :=
  match context.protocol_private with
  | none => context
  | some connection =>
    let bf := builder_init (some connection)
    let context := core_update_map_client context
    let bf := spa_pod_builder_struct bf [.INT seq]
    { context with
      framer := pw_connection_end_write context.framer bf.1 (some connection) proxy.id
        PW_CORE_METHOD_SYNC bf.1.offset }

/-- The function `core_marshal_get_registry` of the source. -/
def core_marshal_get_registry (context : pw_context) (proxy : pw_proxy) (new_id : Nat) :
    pw_context :=
  match context.protocol_private with
  | none => context
  | some connection =>
    let bf := builder_init (some connection)
    let context := core_update_map_client context
    let bf := spa_pod_builder_struct bf [.INT new_id]
    { context with
      framer := pw_connection_end_write context.framer bf.1 (some connection) proxy.id
        PW_CORE_METHOD_GET_REGISTRY bf.1.offset }

/-- The function `core_marshal_create_node` of the source. -/
def core_marshal_create_node (context : pw_context) (proxy : pw_proxy)
    (factory_name name : CStr) (props : Option spa_dict) (new_id : Nat) : pw_context :=
  match context.protocol_private with
  | none => context
  | some connection =>
    let bf := builder_init (some connection)
    let context := core_update_map_client context
    let n_items := props_n_items props
    let bf := spa_pod_builder_add bf
      [.STRUCT, .STRING factory_name, .STRING name, .INT n_items]
    let bf := marshal_dict_items bf props n_items
    let bf := spa_pod_builder_add bf [.INT new_id, .END_STRUCT]
    { context with
      framer := pw_connection_end_write context.framer bf.1 (some connection) proxy.id
        PW_CORE_METHOD_CREATE_NODE bf.1.offset }

/-- The function `core_marshal_create_link` of the source. -/
def core_marshal_create_link (context : pw_context) (proxy : pw_proxy)
    (output_node_id output_port_id input_node_id input_port_id : Nat)
    (filter : Option spa_format) (props : Option spa_dict) (new_id : Nat) : pw_context :=
  match context.protocol_private with
  | none => context
  | some connection =>
    let bf := builder_init (some connection)
    let context := core_update_map_client context
    let n_items := props_n_items props
    let bf := spa_pod_builder_add bf
      [.STRUCT, .INT output_node_id, .INT output_port_id, .INT input_node_id,
       .INT input_port_id, .POD filter, .INT n_items]
    let bf := marshal_dict_items bf props n_items
    let bf := spa_pod_builder_add bf [.INT new_id, .END_STRUCT]
    { context with
      framer := pw_connection_end_write context.framer bf.1 (some connection) proxy.id
        PW_CORE_METHOD_CREATE_LINK bf.1.offset }

/-- The function `registry_marshal_bind` of the source. -/
def registry_marshal_bind (context : pw_context) (proxy : pw_proxy)
    (id version new_id : Nat) : pw_context :=
  match context.protocol_private with
  | none => context
  | some connection =>
    let bf := builder_init (some connection)
    let context := core_update_map_client context
    let bf := spa_pod_builder_struct bf [.INT id, .INT version, .INT new_id]
    { context with
      framer := pw_connection_end_write context.framer bf.1 (some connection) proxy.id
        PW_REGISTRY_METHOD_BIND bf.1.offset }

/-! ## Server-side marshalers (events) -/

/-- The function `core_marshal_update_types_server` of the source. -/
def core_marshal_update_types_server (client : pw_client) (resource : pw_resource)
    (first_id n_types : Nat) (types : List CStr) : pw_client :=
  let connection := client.protocol_private
  let bf := builder_init connection
  let bf := spa_pod_builder_add bf [.STRUCT, .INT first_id, .INT n_types]
  let bf := (types.take n_types).foldl (fun bf t => spa_pod_builder_add bf [.STRING t]) bf
  let bf := spa_pod_builder_add bf [.END_STRUCT]
  { client with
    framer := pw_connection_end_write client.framer bf.1 connection resource.id
      PW_CORE_EVENT_UPDATE_TYPES bf.1.offset }

/-- The function `core_update_map_server` of the source; `pw_core_notify_update_types`
calls the `update_types` event of the core resource, which is
`core_marshal_update_types_server`. The subtraction and the addition are 32-bit. -/
def core_update_map_server (client : pw_client) : pw_client :=
  let base := client.n_types
  let diff := (spa_type_map_get_size client.core.type_map + 4294967296 - base) % 4294967296
  if diff = 0 then client
  else
    let types := (List.range diff).map
      (fun i => spa_type_map_get_type client.core.type_map (base + i))
    let client :=
      core_marshal_update_types_server client client.core_resource client.n_types diff types
    { client with n_types := (client.n_types + diff) % 4294967296 }

/-- The function `core_marshal_info` of the source. -/
def core_marshal_info (client : pw_client) (resource : pw_resource) (info : pw_core_info) :
    pw_client :=
  let connection := client.protocol_private
  let bf := builder_init connection
  let client := core_update_map_server client
  let n_items := props_n_items info.props
  let bf := spa_pod_builder_add bf
    [.STRUCT, .INT info.id, .LONG info.change_mask, .STRING info.user_name,
     .STRING info.host_name, .STRING info.version, .STRING info.name, .INT info.cookie,
     .INT n_items]
  let bf := marshal_dict_items bf info.props n_items
  let bf := spa_pod_builder_add bf [.END_STRUCT]
  { client with
    framer := pw_connection_end_write client.framer bf.1 connection resource.id
      PW_CORE_EVENT_INFO bf.1.offset }

/-- The function `core_marshal_done` of the source. -/
def core_marshal_done (client : pw_client) (resource : pw_resource) (seq : Nat) : pw_client :=
  let connection := client.protocol_private
  let bf := builder_init connection
  let client := core_update_map_server client
  let bf := spa_pod_builder_struct bf [.INT seq]
  { client with
    framer := pw_connection_end_write client.framer bf.1 connection resource.id
      PW_CORE_EVENT_DONE bf.1.offset }

/-- The C library's `vsnprintf (buffer, size, ...)`: of the formatted text at most
`size - 1` bytes are stored, followed by a NUL. -/
def vsnprintf (size : Nat) (formatted : CStr) : CStr := formatted.take (size - 1)

/-- The function `core_marshal_error` of the source; `error` is the text the format
and its arguments expand to. -/
def core_marshal_error (client : pw_client) (resource : pw_resource) (id : Nat) (res : Int)
    (error : CStr) : pw_client :=
  let connection := client.protocol_private
  let bf := builder_init connection
  let client := core_update_map_server client
  let buffer := vsnprintf 128 error
  let bf := spa_pod_builder_struct bf [.INT id, .INT (ofInt32 res), .STRING buffer]
  { client with
    framer := pw_connection_end_write client.framer bf.1 connection resource.id
      PW_CORE_EVENT_ERROR bf.1.offset }

/-- The function `core_marshal_remove_id` of the source. -/
def core_marshal_remove_id (client : pw_client) (resource : pw_resource) (id : Nat) :
    pw_client :=
  let connection := client.protocol_private
  let bf := builder_init connection
  let client := core_update_map_server client
  let bf := spa_pod_builder_struct bf [.INT id]
  { client with
    framer := pw_connection_end_write client.framer bf.1 connection resource.id
      PW_CORE_EVENT_REMOVE_ID bf.1.offset }

/-- The function `registry_marshal_global` of the source. -/
def registry_marshal_global (client : pw_client) (resource : pw_resource) (id : Nat)
    (type : CStr) (version : Nat) : pw_client :=
  let connection := client.protocol_private
  let bf := builder_init connection
  let client := core_update_map_server client
  let bf := spa_pod_builder_struct bf [.INT id, .STRING type, .INT version]
  { client with
    framer := pw_connection_end_write client.framer bf.1 connection resource.id
      PW_REGISTRY_EVENT_GLOBAL bf.1.offset }

/-- The function `registry_marshal_global_remove` of the source. -/
def registry_marshal_global_remove (client : pw_client) (resource : pw_resource) (id : Nat) :
    pw_client :=
  let connection := client.protocol_private
  let bf := builder_init connection
  let client := core_update_map_server client
  let bf := spa_pod_builder_struct bf [.INT id]
  { client with
    framer := pw_connection_end_write client.framer bf.1 connection resource.id
      PW_REGISTRY_EVENT_GLOBAL_REMOVE bf.1.offset }

/-- The function `module_marshal_info` of the source. -/
def module_marshal_info (client : pw_client) (resource : pw_resource) (info : pw_module_info) :
    pw_client :=
  let connection := client.protocol_private
  let bf := builder_init connection
  let client := core_update_map_server client
  let n_items := props_n_items info.props
  let bf := spa_pod_builder_add bf
    [.STRUCT, .INT info.id, .LONG info.change_mask, .STRING info.name,
     .STRING info.filename, .STRING info.args, .INT n_items]
  let bf := marshal_dict_items bf info.props n_items
  let bf := spa_pod_builder_add bf [.END_STRUCT]
  { client with
    framer := pw_connection_end_write client.framer bf.1 connection resource.id
      PW_MODULE_EVENT_INFO bf.1.offset }

/-- The loops of `node_marshal_info` over the first `n` entries of a format array. -/
def marshal_formats (bf : builder × spa_pod_frame) (formats : List spa_format) (n : Nat) :
    builder × spa_pod_frame :=
  (formats.take n).foldl (fun bf f => spa_pod_builder_add bf [.POD (some f)]) bf

/-- The function `node_marshal_info` of the source. -/
def node_marshal_info (client : pw_client) (resource : pw_resource) (info : pw_node_info) :
    pw_client :=
  let connection := client.protocol_private
  let bf := builder_init connection
  let client := core_update_map_server client
  let bf := spa_pod_builder_add bf
    [.STRUCT, .INT info.id, .LONG info.change_mask, .STRING info.name,
     .INT info.max_input_ports, .INT info.n_input_ports, .INT info.n_input_formats]
  let bf := marshal_formats bf info.input_formats info.n_input_formats
  let bf := spa_pod_builder_add bf
    [.INT info.max_output_ports, .INT info.n_output_ports, .INT info.n_output_formats]
  let bf := marshal_formats bf info.output_formats info.n_output_formats
  let n_items := props_n_items info.props
  let bf := spa_pod_builder_add bf [.INT info.state, .STRING info.error, .INT n_items]
  let bf := marshal_dict_items bf info.props n_items
  let bf := spa_pod_builder_add bf [.END_STRUCT]
  { client with
    framer := pw_connection_end_write client.framer bf.1 connection resource.id
      PW_NODE_EVENT_INFO bf.1.offset }

/-- The function `client_marshal_info` of the source. -/
def client_marshal_info (client : pw_client) (resource : pw_resource) (info : pw_client_info) :
    pw_client :=
  let connection := client.protocol_private
  let bf := builder_init connection
  let client := core_update_map_server client
  let n_items := props_n_items info.props
  let bf := spa_pod_builder_add bf [.STRUCT, .INT info.id, .LONG info.change_mask, .INT n_items]
  let bf := marshal_dict_items bf info.props n_items
  let bf := spa_pod_builder_add bf [.END_STRUCT]
  { client with
    framer := pw_connection_end_write client.framer bf.1 connection resource.id
      PW_CLIENT_EVENT_INFO bf.1.offset }

/-- The function `link_marshal_info` of the source. -/
def link_marshal_info (client : pw_client) (resource : pw_resource) (info : pw_link_info) :
    pw_client :=
  let connection := client.protocol_private
  let bf := builder_init connection
  let client := core_update_map_server client
  let bf := spa_pod_builder_struct bf
    [.INT info.id, .LONG info.change_mask, .INT info.output_node_id, .INT info.output_port_id,
     .INT info.input_node_id, .INT info.input_port_id, .POD info.format]
  { client with
    framer := pw_connection_end_write client.framer bf.1 connection resource.id
      PW_LINK_EVENT_INFO bf.1.offset }

/-! ## Demarshalers

`pw_pod_remap_data (type, data, size, types)` is not part of the sources at hand; the
demarshalers that call it take it as a parameter: it yields the payload rewritten
in place, or `none` when it returns false. -/

/-- The function `core_demarshal_info` of the source. This is what the
function returns when it runs to its end; its `alloca` is followed in
`core_demarshal_info_stack`. -/
def core_demarshal_info (data : List Nat) (size : Nat) : Demarshaled :=
  demarshaled do
    let it ← spa_pod_iter_struct data size
    let (id, it) ← spa_pod_iter_get_int it
    let (change_mask, it) ← spa_pod_iter_get_long it
    let (user_name, it) ← spa_pod_iter_get_string it
    let (host_name, it) ← spa_pod_iter_get_string it
    let (version, it) ← spa_pod_iter_get_string it
    let (name, it) ← spa_pod_iter_get_string it
    let (cookie, it) ← spa_pod_iter_get_int it
    let (n_items, it) ← spa_pod_iter_get_int it
    let (items, _) ← demarshal_dict_items n_items it
    pure (HandlerCall.core_events_info
      ⟨id, change_mask, user_name, host_name, version, name, cookie, some ⟨n_items, items⟩⟩)

/-- The function `core_demarshal_done` of the source. -/
def core_demarshal_done (data : List Nat) (size : Nat) : Demarshaled :=
  demarshaled do
    let it ← spa_pod_iter_struct data size
    let (seq, _) ← spa_pod_iter_get_int it
    pure (HandlerCall.core_events_done seq)

/-- The function `core_demarshal_error` of the source; `res` is read as a 32-bit
pattern and handed to the handler as an `int`. -/
def core_demarshal_error (data : List Nat) (size : Nat) : Demarshaled :=
  demarshaled do
    let it ← spa_pod_iter_struct data size
    let (id, it) ← spa_pod_iter_get_int it
    let (res, it) ← spa_pod_iter_get_int it
    let (error, _) ← spa_pod_iter_get_string it
    pure (HandlerCall.core_events_error id (toInt32 res) error)

/-- The function `core_demarshal_remove_id` of the source. -/
def core_demarshal_remove_id (data : List Nat) (size : Nat) : Demarshaled :=
  demarshaled do
    let it ← spa_pod_iter_struct data size
    let (id, _) ← spa_pod_iter_get_int it
    pure (HandlerCall.core_events_remove_id id)

/-- The function `core_demarshal_update_types_client` of the source. This is what the
function returns when it runs to its end; its `alloca` is followed in
`core_demarshal_update_types_client_stack`. -/
def core_demarshal_update_types_client (data : List Nat) (size : Nat) : Demarshaled :=
  demarshaled do
    let it ← spa_pod_iter_struct data size
    let (first_id, it) ← spa_pod_iter_get_int it
    let (n_types, it) ← spa_pod_iter_get_int it
    let (types, _) ← demarshal_types n_types it
    pure (HandlerCall.core_events_update_types first_id n_types types)

/-- The function `core_demarshal_client_update` of the source. This is what the
function returns when it runs to its end; its `alloca` is followed in
`core_demarshal_client_update_stack`. -/
def core_demarshal_client_update (data : List Nat) (size : Nat) : Demarshaled :=
  demarshaled do
    let it ← spa_pod_iter_struct data size
    let (n_items, it) ← spa_pod_iter_get_int it
    let (items, _) ← demarshal_dict_items n_items it
    pure (HandlerCall.core_methods_client_update ⟨n_items, items⟩)

/-- The function `core_demarshal_sync` of the source. -/
def core_demarshal_sync (data : List Nat) (size : Nat) : Demarshaled :=
  demarshaled do
    let it ← spa_pod_iter_struct data size
    let (seq, _) ← spa_pod_iter_get_int it
    pure (HandlerCall.core_methods_sync seq)

/-- The function `core_demarshal_get_registry` of the source. -/
def core_demarshal_get_registry (data : List Nat) (size : Nat) : Demarshaled :=
  demarshaled do
    let it ← spa_pod_iter_struct data size
    let (new_id, _) ← spa_pod_iter_get_int it
    pure (HandlerCall.core_methods_get_registry new_id)

/-- The function `core_demarshal_create_node` of the source. This is what the
function returns when it runs to its end; its `alloca` is followed in
`core_demarshal_create_node_stack`. -/
def core_demarshal_create_node (data : List Nat) (size : Nat) : Demarshaled :=
  demarshaled do
    let it ← spa_pod_iter_struct data size
    let (factory_name, it) ← spa_pod_iter_get_string it
    let (name, it) ← spa_pod_iter_get_string it
    let (n_items, it) ← spa_pod_iter_get_int it
    let (items, it) ← demarshal_dict_items n_items it
    let (new_id, _) ← spa_pod_iter_get_int it
    pure (HandlerCall.core_methods_create_node factory_name name ⟨n_items, items⟩ new_id)

/-- The function `core_demarshal_create_link` of the source. This is what the
function returns when it runs to its end; its `alloca` is followed in
`core_demarshal_create_link_stack`. -/
def core_demarshal_create_link (pw_pod_remap_data : Nat → List Nat → Nat → Option (List Nat))
    (data : List Nat) (size : Nat) : Demarshaled :=
  demarshaled do
    let it ← spa_pod_iter_struct data size
    let data ← pw_pod_remap_data SPA_POD_TYPE_STRUCT data size
    let it := { it with data := data }
    let (output_node_id, it) ← spa_pod_iter_get_int it
    let (output_port_id, it) ← spa_pod_iter_get_int it
    let (input_node_id, it) ← spa_pod_iter_get_int it
    let (input_port_id, it) ← spa_pod_iter_get_int it
    let (filter, it) := spa_pod_iter_get_opt_object it
    let (n_items, it) ← spa_pod_iter_get_int it
    let (items, it) ← demarshal_dict_items n_items it
    let (new_id, _) ← spa_pod_iter_get_int it
    pure (HandlerCall.core_methods_create_link output_node_id output_port_id input_node_id
      input_port_id filter ⟨n_items, items⟩ new_id)

/-- The function `core_demarshal_update_types_server` of the source. This is what the
function returns when it runs to its end; its `alloca` is followed in
`core_demarshal_update_types_server_stack`. -/
def core_demarshal_update_types_server (data : List Nat) (size : Nat) : Demarshaled :=
  demarshaled do
    let it ← spa_pod_iter_struct data size
    let (first_id, it) ← spa_pod_iter_get_int it
    let (n_types, it) ← spa_pod_iter_get_int it
    let (types, _) ← demarshal_types n_types it
    pure (HandlerCall.core_methods_update_types first_id n_types types)

/-- The function `registry_demarshal_bind` of the source. -/
def registry_demarshal_bind (data : List Nat) (size : Nat) : Demarshaled :=
  demarshaled do
    let it ← spa_pod_iter_struct data size
    let (id, it) ← spa_pod_iter_get_int it
    let (version, it) ← spa_pod_iter_get_int it
    let (new_id, _) ← spa_pod_iter_get_int it
    pure (HandlerCall.registry_methods_bind id version new_id)

/-- The function `module_demarshal_info` of the source. This is what the
function returns when it runs to its end; its `alloca` is followed in
`module_demarshal_info_stack`. -/
def module_demarshal_info (data : List Nat) (size : Nat) : Demarshaled :=
  demarshaled do
    let it ← spa_pod_iter_struct data size
    let (id, it) ← spa_pod_iter_get_int it
    let (change_mask, it) ← spa_pod_iter_get_long it
    let (name, it) ← spa_pod_iter_get_string it
    let (filename, it) ← spa_pod_iter_get_string it
    let (args, it) ← spa_pod_iter_get_string it
    let (n_items, it) ← spa_pod_iter_get_int it
    let (items, _) ← demarshal_dict_items n_items it
    pure (HandlerCall.module_events_info
      ⟨id, change_mask, name, filename, args, some ⟨n_items, items⟩⟩)

/-- The first `spa_pod_iter_get` call of `node_demarshal_info`: id, change_mask, name,
max_input_ports, n_input_ports, n_input_formats. -/
def node_demarshal_info_get1 (it : spa_pod_iter) :
    Option ((Nat × Nat × CStr × Nat × Nat × Nat) × spa_pod_iter) := do
  let (id, it) ← spa_pod_iter_get_int it
  let (change_mask, it) ← spa_pod_iter_get_long it
  let (name, it) ← spa_pod_iter_get_string it
  let (max_input_ports, it) ← spa_pod_iter_get_int it
  let (n_input_ports, it) ← spa_pod_iter_get_int it
  let (n_input_formats, it) ← spa_pod_iter_get_int it
  pure ((id, change_mask, name, max_input_ports, n_input_ports, n_input_formats), it)

/-- The second `spa_pod_iter_get` call of `node_demarshal_info`: max_output_ports,
n_output_ports, n_output_formats. -/
def node_demarshal_info_get2 (it : spa_pod_iter) : Option ((Nat × Nat × Nat) × spa_pod_iter) := do
  let (max_output_ports, it) ← spa_pod_iter_get_int it
  let (n_output_ports, it) ← spa_pod_iter_get_int it
  let (n_output_formats, it) ← spa_pod_iter_get_int it
  pure ((max_output_ports, n_output_ports, n_output_formats), it)

/-- The third `spa_pod_iter_get` call of `node_demarshal_info`: state, error and the
number of property items. -/
def node_demarshal_info_get3 (it : spa_pod_iter) : Option ((Nat × CStr × Nat) × spa_pod_iter) := do
  let (state, it) ← spa_pod_iter_get_int it
  let (error, it) ← spa_pod_iter_get_string it
  let (n_items, it) ← spa_pod_iter_get_int it
  pure ((state, error, n_items), it)

/-- The function `node_demarshal_info` of the source. This is what the
function returns when it runs to its end; its `alloca` is followed in
`node_demarshal_info_stack`. -/
def node_demarshal_info (pw_pod_remap_data : Nat → List Nat → Nat → Option (List Nat))
    (data : List Nat) (size : Nat) : Demarshaled :=
  demarshaled do
    let it ← spa_pod_iter_struct data size
    let data ← pw_pod_remap_data SPA_POD_TYPE_STRUCT data size
    let it := { it with data := data }
    let ((id, change_mask, name, max_input_ports, n_input_ports, n_input_formats), it) ←
      node_demarshal_info_get1 it
    let (input_formats, it) ← demarshal_formats n_input_formats it
    let ((max_output_ports, n_output_ports, n_output_formats), it) ←
      node_demarshal_info_get2 it
    let (output_formats, it) ← demarshal_formats n_output_formats it
    let ((state, error, n_items), it) ← node_demarshal_info_get3 it
    let (items, _) ← demarshal_dict_items n_items it
    pure (HandlerCall.node_events_info
      ⟨id, change_mask, name, max_input_ports, n_input_ports, n_input_formats, input_formats,
       max_output_ports, n_output_ports, n_output_formats, output_formats, state, error,
       some ⟨n_items, items⟩⟩)

/-- The function `client_demarshal_info` of the source. This is what the
function returns when it runs to its end; its `alloca` is followed in
`client_demarshal_info_stack`. -/
def client_demarshal_info (data : List Nat) (size : Nat) : Demarshaled :=
  demarshaled do
    let it ← spa_pod_iter_struct data size
    let (id, it) ← spa_pod_iter_get_int it
    let (change_mask, it) ← spa_pod_iter_get_long it
    let (n_items, it) ← spa_pod_iter_get_int it
    let (items, _) ← demarshal_dict_items n_items it
    pure (HandlerCall.client_events_info ⟨id, change_mask, some ⟨n_items, items⟩⟩)

/-- The function `link_demarshal_info` of the source; `info` starts zeroed, so an
absent format stays NULL. -/
def link_demarshal_info (pw_pod_remap_data : Nat → List Nat → Nat → Option (List Nat))
    (data : List Nat) (size : Nat) : Demarshaled :=
  demarshaled do
    let it ← spa_pod_iter_struct data size
    let data ← pw_pod_remap_data SPA_POD_TYPE_STRUCT data size
    let it := { it with data := data }
    let (id, it) ← spa_pod_iter_get_int it
    let (change_mask, it) ← spa_pod_iter_get_long it
    let (output_node_id, it) ← spa_pod_iter_get_int it
    let (output_port_id, it) ← spa_pod_iter_get_int it
    let (input_node_id, it) ← spa_pod_iter_get_int it
    let (input_port_id, it) ← spa_pod_iter_get_int it
    let (format, _) := spa_pod_iter_get_opt_object it
    pure (HandlerCall.link_events_info
      ⟨id, change_mask, output_node_id, output_port_id, input_node_id, input_port_id, format⟩)

/-- The function `registry_demarshal_global` of the source. -/
def registry_demarshal_global (data : List Nat) (size : Nat) : Demarshaled :=
  demarshaled do
    let it ← spa_pod_iter_struct data size
    let (id, it) ← spa_pod_iter_get_int it
    let (type, it) ← spa_pod_iter_get_string it
    let (version, _) ← spa_pod_iter_get_int it
    pure (HandlerCall.registry_events_global id type version)

/-- The function `registry_demarshal_global_remove` of the source. -/
def registry_demarshal_global_remove (data : List Nat) (size : Nat) : Demarshaled :=
  demarshaled do
    let it ← spa_pod_iter_struct data size
    let (id, _) ← spa_pod_iter_get_int it
    pure (HandlerCall.registry_events_global_remove id)

/-- An identity id remap: `pw_pod_remap_data` succeeds and leaves the payload as it is. -/
def remap_identity (_type : Nat) (data : List Nat) (_size : Nat) : Option (List Nat) := some data

/-- The iterator that has read the bytes `pre` and has the records `rs` left to read
before the end of its struct; `post` is what follows the struct in memory. -/
def itAt (pre : List Nat) (rs : List Pod) (post : List Nat) : spa_pod_iter :=
  ⟨pre ++ (encodeAll rs ++ post), pre.length + (encodeAll rs).length, pre.length⟩

/-- A record whose fields fit their width: 32-bit and 64-bit values, a string
without NUL bytes, and a payload length that fits the 32-bit size field. -/
def Pod.wf : Pod → Prop
  | .int v => v < 4294967296
  | .long v => v < 18446744073709551616
  | .string s => 0 ∉ s ∧ s.length + 1 < 4294967296
  | .object body => body.length < 4294967296

/-- The records a value argument of `spa_pod_builder_add` appends. -/
def argPods : BuilderArg → List Pod
  | .INT v => [Pod.int v]
  | .LONG v => [Pod.long v]
  | .STRING s => [Pod.string s]
  | .POD (some p) => [Pod.object p.body]
  | _ => []

/-- The records a list of value arguments appends, in order. -/
def argsPods : List BuilderArg → List Pod
  | [] => []
  | a :: as => argPods a ++ argsPods as

/-- A value argument: neither the opening nor the closing of a struct. -/
def isValue : BuilderArg → Bool
  | .STRUCT => false
  | .END_STRUCT => false
  | _ => true

/-- The builder state inside the top-level struct, after the records `rs`: the
placeholder header and the records are in memory, the frame is at offset 0. -/
def Built (bf : builder × spa_pod_frame) (rs : List Pod) : Prop :=
  bf.1.data = le32 0 ++ le32 SPA_POD_TYPE_STRUCT ++ encodeAll rs ∧
  bf.1.offset = 8 + (encodeAll rs).length ∧ bf.2.ref = 0

/-- The builder state after the top-level struct around the records `rs` is closed. -/
def Closed (bf : builder × spa_pod_frame) (rs : List Pod) : Prop :=
  bf.1.data = encodeStruct rs ∧ bf.1.offset = (encodeStruct rs).length

/-- The last call into the framer is the `end_write` that finalizes, on the
connection `conn`, the message with header `(dest_id, opcode, payload.length)` and
the given payload. -/
def Finalized (framer : List FramerCall) (conn : Option pw_connection) (dest_id opcode : Nat)
    (payload : List Nat) : Prop :=
  framer.getLast? = some (FramerCall.end_write conn dest_id opcode payload.length payload)

/-- A marshaler and its demarshaler round-trip: the marshaler's last framer call
finalizes on `conn` the message `(dest_id, opcode)` whose payload is the struct of
the records `rs`, and the demarshaler applied to that payload returns true and
invokes the handler exactly once, with `call`. -/
def RoundTrip (framer : List FramerCall) (conn : Option pw_connection) (dest_id opcode : Nat)
    (rs : List Pod) (demarshal : List Nat → Nat → Demarshaled) (call : HandlerCall) : Prop :=
  Finalized framer conn dest_id opcode (encodeStruct rs) ∧
  demarshal (encodeStruct rs) (encodeStruct rs).length = ⟨true, [call]⟩

/-- A C string that fits a string record: no NUL byte inside, and its length with
the terminator fits the 32-bit size field. -/
def cstr_ok (s : CStr) : Prop := 0 ∉ s ∧ s.length + 1 < 4294967296

/-- The items the marshalers write for a dictionary pointer; none for NULL. -/
def props_items : Option spa_dict → List spa_dict_item
  | some d => d.items
  | none => []

/-- A dictionary pointer whose `n_items` is the length of its `items` array. -/
def props_wf (props : Option spa_dict) : Prop :=
  ∀ d, props = some d → d.n_items = d.items.length

/-- The record of an optional format; none for NULL. -/
def formatPods : Option spa_format → List Pod
  | some f => [Pod.object f.body]
  | none => []

/-- Catalog: the payload of Core `create_link`. -/
def create_link_pods (output_node_id output_port_id input_node_id input_port_id : Nat)
    (filter : Option spa_format) (props : Option spa_dict) (new_id : Nat) : List Pod :=
  [Pod.int output_node_id, Pod.int output_port_id, Pod.int input_node_id,
   Pod.int input_port_id] ++ formatPods filter ++ [Pod.int (props_n_items props)]
    ++ dictPods (props_items props) ++ [Pod.int new_id]

/-- Catalog: the payload of `update_types`, a type_list. -/
def update_types_pods (first_id n_types : Nat) (types : List CStr) : List Pod :=
  [Pod.int first_id, Pod.int n_types] ++ types.map Pod.string

/-- Catalog: the payload of Core `error`; the message is capped by the 128-byte buffer. -/
def error_pods (id : Nat) (res : Int) (error : CStr) : List Pod :=
  [Pod.int id, Pod.int (ofInt32 res), Pod.string (vsnprintf 128 error)]

/-- Catalog: the payload of Link `info`. -/
def link_info_pods (info : pw_link_info) : List Pod :=
  [Pod.int info.id, Pod.long info.change_mask, Pod.int info.output_node_id,
   Pod.int info.output_port_id, Pod.int info.input_node_id, Pod.int info.input_port_id]
    ++ formatPods info.format

/-- The payload that is the struct of the records `rs` fits the 32-bit length fields. -/
def fits (rs : List Pod) : Prop := (encodeStruct rs).length < 4294967296

/-- A well-formed dictionary: `n_items` is a 32-bit value and the length of `items`,
and the keys and values are C strings (no NUL byte inside). -/
def spa_dict.wf (d : spa_dict) : Prop :=
  d.n_items = d.items.length ∧ d.n_items < 4294967296 ∧
  ∀ i ∈ d.items, 0 ∉ i.key ∧ 0 ∉ i.value

/-- The scalar fields of a core info are well-formed: 32-bit and 64-bit values and C
strings. -/
def pw_core_info.wf (info : pw_core_info) : Prop :=
  info.id < 4294967296 ∧ info.change_mask < 18446744073709551616 ∧ 0 ∉ info.user_name ∧
  0 ∉ info.host_name ∧ 0 ∉ info.version ∧ 0 ∉ info.name ∧ info.cookie < 4294967296

/-- The scalar fields of a module info are well-formed. -/
def pw_module_info.wf (info : pw_module_info) : Prop :=
  info.id < 4294967296 ∧ info.change_mask < 18446744073709551616 ∧ 0 ∉ info.name ∧
  0 ∉ info.filename ∧ 0 ∉ info.args

/-- The scalar fields of a client info are well-formed. -/
def pw_client_info.wf (info : pw_client_info) : Prop :=
  info.id < 4294967296 ∧ info.change_mask < 18446744073709551616

/-- The fields of a node info are well-formed: 32-bit and 64-bit values, C strings,
and format counts that are the lengths of the format arrays. -/
def pw_node_info.wf (info : pw_node_info) : Prop :=
  info.id < 4294967296 ∧ info.change_mask < 18446744073709551616 ∧ 0 ∉ info.name ∧
  info.max_input_ports < 4294967296 ∧ info.n_input_ports < 4294967296 ∧
  info.n_input_formats < 4294967296 ∧ info.n_input_formats = info.input_formats.length ∧
  info.max_output_ports < 4294967296 ∧ info.n_output_ports < 4294967296 ∧
  info.n_output_formats < 4294967296 ∧ info.n_output_formats = info.output_formats.length ∧
  info.state < 4294967296 ∧ 0 ∉ info.error

/-- The scalar fields of a link info are well-formed. -/
def pw_link_info.wf (info : pw_link_info) : Prop :=
  info.id < 4294967296 ∧ info.change_mask < 18446744073709551616 ∧
  info.output_node_id < 4294967296 ∧ info.output_port_id < 4294967296 ∧
  info.input_node_id < 4294967296 ∧ info.input_port_id < 4294967296

/-- The string "app.name". -/
def str_app_name : CStr := [97, 112, 112, 46, 110, 97, 109, 101]

/-- The string "poppy". -/
def str_poppy : CStr := [112, 111, 112, 112, 121]

/-- The dictionary with the one item "app.name" = "poppy". -/
def dict_example : spa_dict := ⟨1, [⟨str_app_name, str_poppy⟩]⟩

/-- An example format object with a 6-byte body. -/
def format_example : spa_format := ⟨[1, 0, 0, 0, 7, 9]⟩

/-- The empty dictionary `{}`. -/
def dict_empty : spa_dict := ⟨0, []⟩

/-- An example node info: two input formats, one output format, state -1 (all
ones), the example dictionary. -/
def node_info_example : pw_node_info :=
  ⟨5, 4294967297, [110, 111, 100, 101], 8, 2, 2, [format_example, ⟨[]⟩], 4, 1, 1,
   [⟨[2, 0, 0, 0]⟩], 4294967295, [], some dict_example⟩

/-- An example link info without a format (NULL). -/
def link_info_example : pw_link_info := ⟨6, 1, 3, 0, 4, 1, none⟩

/-- The string "invalid argument". -/
def str_invalid_argument : CStr :=
  [105, 110, 118, 97, 108, 105, 100, 32, 97, 114, 103, 117, 109, 101, 110, 116]

/-- A finalized outbound message: the connection it was finalized on, its header
`(dest_id, opcode, size)` and its payload. -/
structure Message where
  conn : Option pw_connection
  dest_id : Nat
  opcode : Nat
  size : Nat
  payload : List Nat
deriving DecidableEq, Repr

/-- The messages finalized by a sequence of framer calls, oldest first: one for each
`end_write`. -/
def finalized : List FramerCall → List Message
  | [] => []
  | FramerCall.begin_write _ _ :: cs => finalized cs
  | FramerCall.end_write conn dest_id opcode size payload :: cs =>
      ⟨conn, dest_id, opcode, size, payload⟩ :: finalized cs

/-- A call of a client-side marshaler with its arguments: the entries of
`pw_protocol_native_client_core_methods` and
`pw_protocol_native_client_registry_methods`. -/
inductive Method where
  | core_update_types (first_id n_types : Nat) (types : List CStr)
  | core_sync (seq : Nat)
  | core_get_registry (new_id : Nat)
  | core_client_update (props : Option spa_dict)
  | core_create_node (factory_name name : CStr) (props : Option spa_dict) (new_id : Nat)
  | core_create_link (output_node_id output_port_id input_node_id input_port_id : Nat)
      (filter : Option spa_format) (props : Option spa_dict) (new_id : Nat)
  | registry_bind (id version new_id : Nat)
deriving DecidableEq, Repr

/-- The marshaler a method call runs, on the proxy `proxy` of `context`. -/
def marshal_method (context : pw_context) (proxy : pw_proxy) : Method → pw_context
  | .core_update_types first_id n_types types =>
      core_marshal_update_types_client context proxy first_id n_types types
  | .core_sync seq => core_marshal_sync context proxy seq
  | .core_get_registry new_id => core_marshal_get_registry context proxy new_id
  | .core_client_update props => core_marshal_client_update context proxy props
  | .core_create_node factory_name name props new_id =>
      core_marshal_create_node context proxy factory_name name props new_id
  | .core_create_link output_node_id output_port_id input_node_id input_port_id filter props
      new_id =>
      core_marshal_create_link context proxy output_node_id output_port_id input_node_id
        input_port_id filter props new_id
  | .registry_bind id version new_id => registry_marshal_bind context proxy id version new_id

/-- The opcode the marshaler of a method call passes to `pw_connection_end_write`. -/
def Method.opcode : Method → Nat
  | .core_update_types _ _ _ => PW_CORE_METHOD_UPDATE_TYPES
  | .core_sync _ => PW_CORE_METHOD_SYNC
  | .core_get_registry _ => PW_CORE_METHOD_GET_REGISTRY
  | .core_client_update _ => PW_CORE_METHOD_CLIENT_UPDATE
  | .core_create_node _ _ _ _ => PW_CORE_METHOD_CREATE_NODE
  | .core_create_link _ _ _ _ _ _ _ => PW_CORE_METHOD_CREATE_LINK
  | .registry_bind _ _ _ => PW_REGISTRY_METHOD_BIND

/-- Whether the method call is `update_types`. -/
def Method.is_update_types : Method → Bool
  | .core_update_types _ _ _ => true
  | _ => false

/-- A call of a server-side marshaler with its arguments: the entries of
`pw_protocol_native_server_core_events`, `..._registry_events`, `..._module_events`,
`..._node_events`, `..._client_events` and `..._link_events`. -/
inductive Event where
  | core_update_types (first_id n_types : Nat) (types : List CStr)
  | core_done (seq : Nat)
  | core_error (id : Nat) (res : Int) (error : CStr)
  | core_remove_id (id : Nat)
  | core_info (info : pw_core_info)
  | registry_global (id : Nat) (type : CStr) (version : Nat)
  | registry_global_remove (id : Nat)
  | module_info (info : pw_module_info)
  | node_info (info : pw_node_info)
  | client_info (info : pw_client_info)
  | link_info (info : pw_link_info)
deriving DecidableEq, Repr

/-- The marshaler an event call runs, on the resource `resource` of `client`. -/
def marshal_event (client : pw_client) (resource : pw_resource) : Event → pw_client
  | .core_update_types first_id n_types types =>
      core_marshal_update_types_server client resource first_id n_types types
  | .core_done seq => core_marshal_done client resource seq
  | .core_error id res error => core_marshal_error client resource id res error
  | .core_remove_id id => core_marshal_remove_id client resource id
  | .core_info info => core_marshal_info client resource info
  | .registry_global id type version => registry_marshal_global client resource id type version
  | .registry_global_remove id => registry_marshal_global_remove client resource id
  | .module_info info => module_marshal_info client resource info
  | .node_info info => node_marshal_info client resource info
  | .client_info info => client_marshal_info client resource info
  | .link_info info => link_marshal_info client resource info

/-- The opcode the marshaler of an event call passes to `pw_connection_end_write`. -/
def Event.opcode : Event → Nat
  | .core_update_types _ _ _ => PW_CORE_EVENT_UPDATE_TYPES
  | .core_done _ => PW_CORE_EVENT_DONE
  | .core_error _ _ _ => PW_CORE_EVENT_ERROR
  | .core_remove_id _ => PW_CORE_EVENT_REMOVE_ID
  | .core_info _ => PW_CORE_EVENT_INFO
  | .registry_global _ _ _ => PW_REGISTRY_EVENT_GLOBAL
  | .registry_global_remove _ => PW_REGISTRY_EVENT_GLOBAL_REMOVE
  | .module_info _ => PW_MODULE_EVENT_INFO
  | .node_info _ => PW_NODE_EVENT_INFO
  | .client_info _ => PW_CLIENT_EVENT_INFO
  | .link_info _ => PW_LINK_EVENT_INFO

/-- Whether the event call is `update_types`. -/
def Event.is_update_types : Event → Bool
  | .core_update_types _ _ _ => true
  | _ => false

/-- The `update_types` message that announces the types from the high-water mark
`h` up to the end of the type map `map`: `first_id = h`, the count, and the URIs of
the ids `h`, `h + 1`, ... in that order. -/
def missing_types_pods (h : Nat) (map : List CStr) : List Pod :=
  update_types_pods h (spa_type_map_get_size map - h) (map.drop h)

/-- A fresh context whose type map already holds one type: a live connection,
nothing announced, the core proxy with id 0, nothing sent yet. -/
def context_fresh : pw_context := ⟨some ⟨3⟩, 0, [[97]], ⟨0⟩, []⟩

/-- A fresh context with an empty type map. -/
def context_fresh_empty : pw_context := ⟨some ⟨3⟩, 0, [], ⟨0⟩, []⟩

/-- A context that has announced two of its four types. -/
def context_behind : pw_context := ⟨some ⟨3⟩, 2, [[97], [98], [99], [100]], ⟨0⟩, []⟩

/-- A client on the server side that has announced two of its four types. -/
def client_behind : pw_client := ⟨some ⟨3⟩, 2, ⟨[[97], [98], [99], [100]]⟩, ⟨0⟩, []⟩

/-- A disconnected context: no connection (NULL), two of its four types announced. -/
def context_disconnected : pw_context := ⟨none, 2, [[97], [98], [99], [100]], ⟨0⟩, []⟩

/-- A client on the server side whose `protocol_private` is NULL. -/
def client_disconnected : pw_client := ⟨none, 4, ⟨[[97], [98], [99], [100]]⟩, ⟨0⟩, []⟩

/-- A position of a message schema as a demarshaler reads it: a required record of a
given tag, an optional object (`-SPA_POD_TYPE_OBJECT`), or an Int32 count followed by
that many groups of records with the tags `per` (read by the loop after the count). -/
inductive Slot where
  | required (tag : Nat)
  | optional_object
  | counted (per : List Nat)
deriving DecidableEq, Repr

/-- Step over the next record of the iterator if it carries the tag `t`; `none` when
no whole record is left inside the struct or its tag differs from `t`. -/
def tagStep (t : Nat) (it : spa_pod_iter) : Option spa_pod_iter :=
  match spa_pod_iter_next it with
  | some (tag, _, it') => if tag = t then some it' else none
  | none => none

/-- Step over records carrying the tags `ts`, in order. -/
def readTags : List Nat → spa_pod_iter → Option spa_pod_iter
  | [], it => some it
  | t :: ts, it =>
    match tagStep t it with
    | some it' => readTags ts it'
    | none => none

/-- Step over `n` groups of records, each group carrying the tags `per`. -/
def readGroups : Nat → List Nat → spa_pod_iter → Option spa_pod_iter
  | 0, _, it => some it
  | n + 1, per, it =>
    match readTags per it with
    | some it' => readGroups n per it'
    | none => none

/-- Walk the records of a struct along a schema: `none` when at some position of the
schema the record is missing or cut short or carries another tag than the required
one, or when a declared count is larger than the number of groups that follow. -/
def walk : List Slot → spa_pod_iter → Option spa_pod_iter
  | [], it => some it
  | .required t :: ss, it =>
    match tagStep t it with
    | some it' => walk ss it'
    | none => none
  | .optional_object :: ss, it => walk ss (spa_pod_iter_get_opt_object it).2
  | .counted per :: ss, it =>
    match spa_pod_iter_get_int it with
    | some (n, it') =>
      match readGroups n per it' with
      | some it2 => walk ss it2
      | none => none
    | none => none

/-- The type `demarshal_func_t` of the source; the object gives access to the id
remap of its connection, through which `pw_pod_remap_data` works. -/
abbrev demarshal_func_t :=
  (Nat → List Nat → Nat → Option (List Nat)) → List Nat → Nat → Demarshaled

/-- The eighteen demarshalers of the source, each with whether it calls
`pw_pod_remap_data` and with its schema: the tags it passes to `spa_pod_iter_get`, in
order, the loops after a count being `counted`. -/
def demarshalers : List (demarshal_func_t × Bool × List Slot) :=
  [ (fun _ => core_demarshal_update_types_client, false,
      [.required SPA_POD_TYPE_INT, .counted [SPA_POD_TYPE_STRING]]),
    (fun _ => core_demarshal_done, false, [.required SPA_POD_TYPE_INT]),
    (fun _ => core_demarshal_error, false,
      [.required SPA_POD_TYPE_INT, .required SPA_POD_TYPE_INT, .required SPA_POD_TYPE_STRING]),
    (fun _ => core_demarshal_remove_id, false, [.required SPA_POD_TYPE_INT]),
    (fun _ => core_demarshal_info, false,
      [.required SPA_POD_TYPE_INT, .required SPA_POD_TYPE_LONG, .required SPA_POD_TYPE_STRING,
       .required SPA_POD_TYPE_STRING, .required SPA_POD_TYPE_STRING,
       .required SPA_POD_TYPE_STRING, .required SPA_POD_TYPE_INT,
       .counted [SPA_POD_TYPE_STRING, SPA_POD_TYPE_STRING]]),
    (fun _ => registry_demarshal_global, false,
      [.required SPA_POD_TYPE_INT, .required SPA_POD_TYPE_STRING, .required SPA_POD_TYPE_INT]),
    (fun _ => registry_demarshal_global_remove, false, [.required SPA_POD_TYPE_INT]),
    (fun _ => module_demarshal_info, false,
      [.required SPA_POD_TYPE_INT, .required SPA_POD_TYPE_LONG, .required SPA_POD_TYPE_STRING,
       .required SPA_POD_TYPE_STRING, .required SPA_POD_TYPE_STRING,
       .counted [SPA_POD_TYPE_STRING, SPA_POD_TYPE_STRING]]),
    (node_demarshal_info, true,
      [.required SPA_POD_TYPE_INT, .required SPA_POD_TYPE_LONG, .required SPA_POD_TYPE_STRING,
       .required SPA_POD_TYPE_INT, .required SPA_POD_TYPE_INT,
       .counted [SPA_POD_TYPE_OBJECT],
       .required SPA_POD_TYPE_INT, .required SPA_POD_TYPE_INT,
       .counted [SPA_POD_TYPE_OBJECT],
       .required SPA_POD_TYPE_INT, .required SPA_POD_TYPE_STRING,
       .counted [SPA_POD_TYPE_STRING, SPA_POD_TYPE_STRING]]),
    (fun _ => client_demarshal_info, false,
      [.required SPA_POD_TYPE_INT, .required SPA_POD_TYPE_LONG,
       .counted [SPA_POD_TYPE_STRING, SPA_POD_TYPE_STRING]]),
    (link_demarshal_info, true,
      [.required SPA_POD_TYPE_INT, .required SPA_POD_TYPE_LONG, .required SPA_POD_TYPE_INT,
       .required SPA_POD_TYPE_INT, .required SPA_POD_TYPE_INT, .required SPA_POD_TYPE_INT,
       .optional_object]),
    (fun _ => core_demarshal_update_types_server, false,
      [.required SPA_POD_TYPE_INT, .counted [SPA_POD_TYPE_STRING]]),
    (fun _ => core_demarshal_sync, false, [.required SPA_POD_TYPE_INT]),
    (fun _ => core_demarshal_get_registry, false, [.required SPA_POD_TYPE_INT]),
    (fun _ => core_demarshal_client_update, false,
      [.counted [SPA_POD_TYPE_STRING, SPA_POD_TYPE_STRING]]),
    (fun _ => core_demarshal_create_node, false,
      [.required SPA_POD_TYPE_STRING, .required SPA_POD_TYPE_STRING,
       .counted [SPA_POD_TYPE_STRING, SPA_POD_TYPE_STRING], .required SPA_POD_TYPE_INT]),
    (core_demarshal_create_link, true,
      [.required SPA_POD_TYPE_INT, .required SPA_POD_TYPE_INT, .required SPA_POD_TYPE_INT,
       .required SPA_POD_TYPE_INT, .optional_object,
       .counted [SPA_POD_TYPE_STRING, SPA_POD_TYPE_STRING], .required SPA_POD_TYPE_INT]),
    (fun _ => registry_demarshal_bind, false,
      [.required SPA_POD_TYPE_INT, .required SPA_POD_TYPE_INT, .required SPA_POD_TYPE_INT]) ]

/-- The payload is not a top-level Struct: the tag of its header is another one. -/
def NotStruct (data : List Nat) : Prop := rd32 (data.drop 4) ≠ SPA_POD_TYPE_STRUCT

/-- The payload is truncated: it is shorter than a header, or shorter than the
extent its top-level header declares. -/
def Truncated (data : List Nat) (size : Nat) : Prop := size < 8 ∨ size < 8 + rd32 data

/-- The memory the demarshaler reads its arguments from: the payload after
`pw_pod_remap_data` for a demarshaler that calls it, the payload itself otherwise. -/
def remapped (remaps : Bool) (pw_pod_remap_data : Nat → List Nat → Nat → Option (List Nat))
    (data : List Nat) (size : Nat) : Option (List Nat) :=
  if remaps then pw_pod_remap_data SPA_POD_TYPE_STRUCT data size else some data

/-- The payload is a whole top-level Struct, but walking its records along the
schema fails: at some schema position the record is missing, cut short or carries
another tag than the required one, or a declared count is larger than the number of
groups of records that follow. -/
def SchemaMismatch (remaps : Bool) (schema : List Slot)
    (pw_pod_remap_data : Nat → List Nat → Nat → Option (List Nat))
    (data : List Nat) (size : Nat) : Prop :=
  ∃ it data', spa_pod_iter_struct data size = some it ∧
    remapped remaps pw_pod_remap_data data size = some data' ∧
    walk schema { it with data := data' } = none

/-! ## The interface tables and their registration -/

/-- Modelled from the spec: `struct pw_core_methods`, the method table of Core; one
function pointer for each method, in opcode order. -/
structure pw_core_methods where
  update_types : pw_context → pw_proxy → Nat → Nat → List CStr → pw_context
  sync : pw_context → pw_proxy → Nat → pw_context
  get_registry : pw_context → pw_proxy → Nat → pw_context
  client_update : pw_context → pw_proxy → Option spa_dict → pw_context
  create_node : pw_context → pw_proxy → CStr → CStr → Option spa_dict → Nat → pw_context
  create_link : pw_context → pw_proxy → Nat → Nat → Nat → Nat → Option spa_format →
    Option spa_dict → Nat → pw_context

/-- Modelled from the spec: `struct pw_registry_methods`, the method table of Registry. -/
structure pw_registry_methods where
  bind : pw_context → pw_proxy → Nat → Nat → Nat → pw_context

/-- Modelled from the spec: `struct pw_core_events`, the event table of Core; one
function pointer for each event, in opcode order. -/
structure pw_core_events where
  update_types : pw_client → pw_resource → Nat → Nat → List CStr → pw_client
  done : pw_client → pw_resource → Nat → pw_client
  error : pw_client → pw_resource → Nat → Int → CStr → pw_client
  remove_id : pw_client → pw_resource → Nat → pw_client
  info : pw_client → pw_resource → pw_core_info → pw_client

/-- Modelled from the spec: `struct pw_registry_events`, the event table of Registry. -/
structure pw_registry_events where
  global : pw_client → pw_resource → Nat → CStr → Nat → pw_client
  global_remove : pw_client → pw_resource → Nat → pw_client

/-- Modelled from the spec: `struct pw_module_events`, the event table of Module. -/
structure pw_module_events where
  info : pw_client → pw_resource → pw_module_info → pw_client

/-- Modelled from the spec: `struct pw_node_events`, the event table of Node. -/
structure pw_node_events where
  info : pw_client → pw_resource → pw_node_info → pw_client

/-- Modelled from the spec: `struct pw_client_events`, the event table of Client. -/
structure pw_client_events where
  info : pw_client → pw_resource → pw_client_info → pw_client

/-- Modelled from the spec: `struct pw_link_events`, the event table of Link. -/
structure pw_link_events where
  info : pw_client → pw_resource → pw_link_info → pw_client

/-- The table `pw_protocol_native_client_core_methods` of the source. -/
def pw_protocol_native_client_core_methods : pw_core_methods :=
  ⟨core_marshal_update_types_client, core_marshal_sync, core_marshal_get_registry,
   core_marshal_client_update, core_marshal_create_node, core_marshal_create_link⟩

/-- The table `pw_protocol_native_client_core_demarshal` of the source. -/
def pw_protocol_native_client_core_demarshal : List demarshal_func_t :=
  [fun _ => core_demarshal_update_types_client, fun _ => core_demarshal_done,
   fun _ => core_demarshal_error, fun _ => core_demarshal_remove_id,
   fun _ => core_demarshal_info]

/-- The table `pw_protocol_native_client_registry_methods` of the source. -/
def pw_protocol_native_client_registry_methods : pw_registry_methods :=
  ⟨registry_marshal_bind⟩

/-- The table `pw_protocol_native_client_registry_demarshal` of the source. -/
def pw_protocol_native_client_registry_demarshal : List demarshal_func_t :=
  [fun _ => registry_demarshal_global, fun _ => registry_demarshal_global_remove]

/-- The table `pw_protocol_native_client_module_demarshal` of the source. -/
def pw_protocol_native_client_module_demarshal : List demarshal_func_t :=
  [fun _ => module_demarshal_info]

/-- The table `pw_protocol_native_client_node_demarshal` of the source. -/
def pw_protocol_native_client_node_demarshal : List demarshal_func_t :=
  [node_demarshal_info]

/-- The table `pw_protocol_native_client_client_demarshal` of the source. -/
def pw_protocol_native_client_client_demarshal : List demarshal_func_t :=
  [fun _ => client_demarshal_info]

/-- The table `pw_protocol_native_client_link_demarshal` of the source. -/
def pw_protocol_native_client_link_demarshal : List demarshal_func_t :=
  [link_demarshal_info]

/-- The table `pw_protocol_native_server_core_demarshal` of the source. -/
def pw_protocol_native_server_core_demarshal : List demarshal_func_t :=
  [fun _ => core_demarshal_update_types_server, fun _ => core_demarshal_sync,
   fun _ => core_demarshal_get_registry, fun _ => core_demarshal_client_update,
   fun _ => core_demarshal_create_node, core_demarshal_create_link]

/-- The table `pw_protocol_native_server_core_events` of the source. -/
def pw_protocol_native_server_core_events : pw_core_events :=
  ⟨core_marshal_update_types_server, core_marshal_done, core_marshal_error,
   core_marshal_remove_id, core_marshal_info⟩

/-- The table `pw_protocol_native_server_registry_demarshal` of the source. -/
def pw_protocol_native_server_registry_demarshal : List demarshal_func_t :=
  [fun _ => registry_demarshal_bind]

/-- The table `pw_protocol_native_server_registry_events` of the source. -/
def pw_protocol_native_server_registry_events : pw_registry_events :=
  ⟨registry_marshal_global, registry_marshal_global_remove⟩

/-- The table `pw_protocol_native_server_module_events` of the source. -/
def pw_protocol_native_server_module_events : pw_module_events := ⟨module_marshal_info⟩

/-- The table `pw_protocol_native_server_node_events` of the source. -/
def pw_protocol_native_server_node_events : pw_node_events := ⟨node_marshal_info⟩

/-- The table `pw_protocol_native_server_client_events` of the source. -/
def pw_protocol_native_server_client_events : pw_client_events := ⟨client_marshal_info⟩

/-- The table `pw_protocol_native_server_link_events` of the source. -/
def pw_protocol_native_server_link_events : pw_link_events := ⟨link_marshal_info⟩

/-- What the `const void *methods` and `const void *events` of a `struct pw_interface`
point to: nothing (NULL), one of the marshal tables, or a demarshal table. -/
inductive Table where
  | NULL
  | core_methods (t : pw_core_methods)
  | registry_methods (t : pw_registry_methods)
  | core_events (t : pw_core_events)
  | registry_events (t : pw_registry_events)
  | module_events (t : pw_module_events)
  | node_events (t : pw_node_events)
  | client_events (t : pw_client_events)
  | link_events (t : pw_link_events)
  | demarshal (fs : List demarshal_func_t)

/-- The number of entries of a table: the function pointers of a marshal table, the
entries of a demarshal table. -/
def Table.entries : Table → Nat
  | .NULL => 0
  | .core_methods _ => 6
  | .registry_methods _ => 1
  | .core_events _ => 5
  | .registry_events _ => 2
  | .module_events _ => 1
  | .node_events _ => 1
  | .client_events _ => 1
  | .link_events _ => 1
  | .demarshal fs => fs.length

/-- Modelled from the spec: `struct pw_interface`, the descriptor of one side of an
interface: type URI, version, and the method and event counts and tables. -/
structure pw_interface where
  type : CStr
  version : Nat
  n_methods : Nat
  methods : Table
  n_events : Nat
  events : Table

/-- The constants of the headers the descriptors name and whose values the sources at
hand do not give: the type URIs and the versions of the six interfaces, and the name
of the native protocol. They are taken as parameters. -/
structure interface_constants where
  PIPEWIRE_TYPE__Core : CStr
  PIPEWIRE_TYPE__Registry : CStr
  PIPEWIRE_TYPE__Module : CStr
  PIPEWIRE_TYPE__Node : CStr
  PIPEWIRE_TYPE__Client : CStr
  PIPEWIRE_TYPE__Link : CStr
  PW_VERSION_CORE : Nat
  PW_VERSION_REGISTRY : Nat
  PW_VERSION_MODULE : Nat
  PW_VERSION_NODE : Nat
  PW_VERSION_CLIENT : Nat
  PW_VERSION_LINK : Nat
  PW_TYPE_PROTOCOL__Native : CStr

/-- Modelled from the spec: the number of Core methods (opcodes 0..5). -/
def PW_CORE_METHOD_NUM : Nat := 6
/-- Modelled from the spec: the number of Core events (opcodes 0..4). -/
def PW_CORE_EVENT_NUM : Nat := 5
/-- Modelled from the spec: the number of Registry methods. -/
def PW_REGISTRY_METHOD_NUM : Nat := 1
/-- Modelled from the spec: the number of Registry events (opcodes 0..1). -/
def PW_REGISTRY_EVENT_NUM : Nat := 2
/-- Modelled from the spec: the number of Module events. -/
def PW_MODULE_EVENT_NUM : Nat := 1
/-- Modelled from the spec: the number of Node events. -/
def PW_NODE_EVENT_NUM : Nat := 1
/-- Modelled from the spec: the number of Client events. -/
def PW_CLIENT_EVENT_NUM : Nat := 1
/-- Modelled from the spec: the number of Link events. -/
def PW_LINK_EVENT_NUM : Nat := 1

/-- The descriptor `pw_protocol_native_client_core_interface` of the source. -/
def pw_protocol_native_client_core_interface (k : interface_constants) : pw_interface :=
  ⟨k.PIPEWIRE_TYPE__Core, k.PW_VERSION_CORE,
   PW_CORE_METHOD_NUM, .core_methods pw_protocol_native_client_core_methods,
   PW_CORE_EVENT_NUM, .demarshal pw_protocol_native_client_core_demarshal⟩

/-- The descriptor `pw_protocol_native_client_registry_interface` of the source. -/
def pw_protocol_native_client_registry_interface (k : interface_constants) : pw_interface :=
  ⟨k.PIPEWIRE_TYPE__Registry, k.PW_VERSION_REGISTRY,
   PW_REGISTRY_METHOD_NUM, .registry_methods pw_protocol_native_client_registry_methods,
   PW_REGISTRY_EVENT_NUM, .demarshal pw_protocol_native_client_registry_demarshal⟩

/-- The descriptor `pw_protocol_native_client_module_interface` of the source. -/
def pw_protocol_native_client_module_interface (k : interface_constants) : pw_interface :=
  ⟨k.PIPEWIRE_TYPE__Module, k.PW_VERSION_MODULE, 0, .NULL,
   PW_MODULE_EVENT_NUM, .demarshal pw_protocol_native_client_module_demarshal⟩

/-- The descriptor `pw_protocol_native_client_node_interface` of the source. -/
def pw_protocol_native_client_node_interface (k : interface_constants) : pw_interface :=
  ⟨k.PIPEWIRE_TYPE__Node, k.PW_VERSION_NODE, 0, .NULL,
   PW_NODE_EVENT_NUM, .demarshal pw_protocol_native_client_node_demarshal⟩

/-- The descriptor `pw_protocol_native_client_client_interface` of the source. -/
def pw_protocol_native_client_client_interface (k : interface_constants) : pw_interface :=
  ⟨k.PIPEWIRE_TYPE__Client, k.PW_VERSION_CLIENT, 0, .NULL,
   PW_CLIENT_EVENT_NUM, .demarshal pw_protocol_native_client_client_demarshal⟩

/-- The descriptor `pw_protocol_native_client_link_interface` of the source. -/
def pw_protocol_native_client_link_interface (k : interface_constants) : pw_interface :=
  ⟨k.PIPEWIRE_TYPE__Link, k.PW_VERSION_LINK, 0, .NULL,
   PW_LINK_EVENT_NUM, .demarshal pw_protocol_native_client_link_demarshal⟩

/-- The descriptor `pw_protocol_native_server_core_interface` of the source. -/
def pw_protocol_native_server_core_interface (k : interface_constants) : pw_interface :=
  ⟨k.PIPEWIRE_TYPE__Core, k.PW_VERSION_CORE,
   PW_CORE_METHOD_NUM, .demarshal pw_protocol_native_server_core_demarshal,
   PW_CORE_EVENT_NUM, .core_events pw_protocol_native_server_core_events⟩

/-- The descriptor `pw_protocol_native_server_registry_interface` of the source. -/
def pw_protocol_native_server_registry_interface (k : interface_constants) : pw_interface :=
  ⟨k.PIPEWIRE_TYPE__Registry, k.PW_VERSION_REGISTRY,
   PW_REGISTRY_METHOD_NUM, .demarshal pw_protocol_native_server_registry_demarshal,
   PW_REGISTRY_EVENT_NUM, .registry_events pw_protocol_native_server_registry_events⟩

/-- The descriptor `pw_protocol_native_server_module_interface` of the source. -/
def pw_protocol_native_server_module_interface (k : interface_constants) : pw_interface :=
  ⟨k.PIPEWIRE_TYPE__Module, k.PW_VERSION_MODULE, 0, .NULL,
   PW_MODULE_EVENT_NUM, .module_events pw_protocol_native_server_module_events⟩

/-- The descriptor `pw_protocol_native_server_node_interface` of the source. -/
def pw_protocol_native_server_node_interface (k : interface_constants) : pw_interface :=
  ⟨k.PIPEWIRE_TYPE__Node, k.PW_VERSION_NODE, 0, .NULL,
   PW_NODE_EVENT_NUM, .node_events pw_protocol_native_server_node_events⟩

/-- The descriptor `pw_protocol_native_server_client_interface` of the source. -/
def pw_protocol_native_server_client_interface (k : interface_constants) : pw_interface :=
  ⟨k.PIPEWIRE_TYPE__Client, k.PW_VERSION_CLIENT, 0, .NULL,
   PW_CLIENT_EVENT_NUM, .client_events pw_protocol_native_server_client_events⟩

/-- The descriptor `pw_protocol_native_server_link_interface` of the source. -/
def pw_protocol_native_server_link_interface (k : interface_constants) : pw_interface :=
  ⟨k.PIPEWIRE_TYPE__Link, k.PW_VERSION_LINK, 0, .NULL,
   PW_LINK_EVENT_NUM, .link_events pw_protocol_native_server_link_events⟩

/-- The state `pw_protocol_native_init` works on: its static flag `init`, and the
(client-side, server-side) pairs handed so far to `pw_protocol_add_interfaces` for the
native protocol, oldest first. -/
structure protocol_native_state where
  init : Bool
  interfaces : List (pw_interface × pw_interface)

/-- Modelled from the spec: `pw_protocol_add_interfaces` installs the pair of
descriptors into the protocol, after the ones installed before. -/
def pw_protocol_add_interfaces (s : protocol_native_state) (client server : pw_interface) :
    protocol_native_state :=
  { s with interfaces := s.interfaces ++ [(client, server)] }

/-- The function `pw_protocol_native_init` of the source; `pw_protocol_get`, which is
not part of the sources at hand, is a parameter: the protocol object of a name. -/
def pw_protocol_native_init {pw_protocol : Type} (k : interface_constants)
    (pw_protocol_get : CStr → pw_protocol) (s : protocol_native_state) :
    protocol_native_state × pw_protocol :=
  let protocol := pw_protocol_get k.PW_TYPE_PROTOCOL__Native
  if s.init then (s, protocol)
  else
    let s := pw_protocol_add_interfaces s (pw_protocol_native_client_core_interface k)
      (pw_protocol_native_server_core_interface k)
    let s := pw_protocol_add_interfaces s (pw_protocol_native_client_registry_interface k)
      (pw_protocol_native_server_registry_interface k)
    let s := pw_protocol_add_interfaces s (pw_protocol_native_client_module_interface k)
      (pw_protocol_native_server_module_interface k)
    let s := pw_protocol_add_interfaces s (pw_protocol_native_client_node_interface k)
      (pw_protocol_native_server_node_interface k)
    let s := pw_protocol_add_interfaces s (pw_protocol_native_client_client_interface k)
      (pw_protocol_native_server_client_interface k)
    let s := pw_protocol_add_interfaces s (pw_protocol_native_client_link_interface k)
      (pw_protocol_native_server_link_interface k)
    ({ s with init := true }, protocol)

/-- The state after `n` calls of `pw_protocol_native_init`. -/
def init_calls {pw_protocol : Type} (k : interface_constants)
    (pw_protocol_get : CStr → pw_protocol) : Nat → protocol_native_state →
    protocol_native_state
  | 0, s => s
  | n + 1, s => init_calls k pw_protocol_get n (pw_protocol_native_init k pw_protocol_get s).1

/-- The six (client-side, server-side) descriptor pairs, in the order Core, Registry,
Module, Node, Client, Link. -/
def native_interfaces (k : interface_constants) : List (pw_interface × pw_interface) :=
  [(pw_protocol_native_client_core_interface k, pw_protocol_native_server_core_interface k),
   (pw_protocol_native_client_registry_interface k,
    pw_protocol_native_server_registry_interface k),
   (pw_protocol_native_client_module_interface k,
    pw_protocol_native_server_module_interface k),
   (pw_protocol_native_client_node_interface k, pw_protocol_native_server_node_interface k),
   (pw_protocol_native_client_client_interface k,
    pw_protocol_native_server_client_interface k),
   (pw_protocol_native_client_link_interface k, pw_protocol_native_server_link_interface k)]

/-- Example header constants: the URIs "C", "R", "M", "N", "c", "L", version 0
throughout, and the protocol name "n". -/
def constants_example : interface_constants :=
  ⟨[67], [82], [77], [78], [99], [76], 0, 0, 0, 0, 0, 0, [110]⟩

/-- The size fields of the payload that is the struct of the records `rs`: the
payload length is a multiple of 4 and is 8 plus the size field of the top-level
header; the size field of every child record is the length of its payload without
padding, the record is padded to a multiple of 4, and for a String record the payload
is the string followed by the NUL terminator, which the size field counts. -/
def sizes_hold (rs : List Pod) : Prop :=
  (encodeStruct rs).length % 4 = 0 ∧
  (encodeStruct rs).length = 8 + rd32 (encodeStruct rs) ∧
  (encodeStruct rs).drop 8 = encodeAll rs ∧
  ∀ r ∈ rs, rd32 r.encode = r.body.length ∧
    r.encode.length = 8 + SPA_ROUND_UP_N r.body.length 4 ∧
    ∀ s, r = Pod.string s → r.body = s ++ [0] ∧ rd32 r.encode = s.length + 1

/-! ## Messages of the catalog: payload, well-formedness and what is received -/

/-- The arguments of a method call are well-formed: 32-bit values, C strings without
a NUL byte inside, counts that are the lengths of their arrays, and dictionaries that
are NULL or well-formed; the item count of `client_update` fits the `int` it is
declared as. -/
def Method.wf : Method → Prop
  | .core_update_types first_id n_types types =>
      n_types = types.length ∧ first_id < 4294967296 ∧ n_types < 4294967296 ∧
      ∀ t ∈ types, 0 ∉ t
  | .core_sync seq => seq < 4294967296
  | .core_get_registry new_id => new_id < 4294967296
  | .core_client_update props =>
      (∀ d, props = some d → d.wf) ∧ props_n_items props < 2147483648
  | .core_create_node factory_name name props new_id =>
      0 ∉ factory_name ∧ 0 ∉ name ∧ (∀ d, props = some d → d.wf) ∧ new_id < 4294967296
  | .core_create_link output_node_id output_port_id input_node_id input_port_id _ props
      new_id =>
      output_node_id < 4294967296 ∧ output_port_id < 4294967296 ∧
      input_node_id < 4294967296 ∧ input_port_id < 4294967296 ∧
      (∀ d, props = some d → d.wf) ∧ new_id < 4294967296
  | .registry_bind id version new_id =>
      id < 4294967296 ∧ version < 4294967296 ∧ new_id < 4294967296

/-- The demarshaler of a method call: the function of the source that reads the
message its marshaler writes. -/
def Method.demarshal : Method → demarshal_func_t
  | .core_update_types _ _ _ => fun _ => core_demarshal_update_types_server
  | .core_sync _ => fun _ => core_demarshal_sync
  | .core_get_registry _ => fun _ => core_demarshal_get_registry
  | .core_client_update _ => fun _ => core_demarshal_client_update
  | .core_create_node _ _ _ _ => fun _ => core_demarshal_create_node
  | .core_create_link _ _ _ _ _ _ _ => core_demarshal_create_link
  | .registry_bind _ _ _ => fun _ => registry_demarshal_bind

/-- The arguments of an event call are well-formed: 32-bit and 64-bit values, an
`int` result code, C strings without a NUL byte inside, counts that are the lengths
of their arrays, and dictionaries that are NULL or well-formed. -/
def Event.wf : Event → Prop
  | .core_update_types first_id n_types types =>
      n_types = types.length ∧ first_id < 4294967296 ∧ n_types < 4294967296 ∧
      ∀ t ∈ types, 0 ∉ t
  | .core_done seq => seq < 4294967296
  | .core_error id res error =>
      id < 4294967296 ∧ -2147483648 ≤ res ∧ res < 2147483648 ∧ 0 ∉ error
  | .core_remove_id id => id < 4294967296
  | .core_info info => info.wf ∧ ∀ d, info.props = some d → d.wf
  | .registry_global id type version =>
      id < 4294967296 ∧ 0 ∉ type ∧ version < 4294967296
  | .registry_global_remove id => id < 4294967296
  | .module_info info => info.wf ∧ ∀ d, info.props = some d → d.wf
  | .node_info info => info.wf ∧ ∀ d, info.props = some d → d.wf
  | .client_info info => info.wf ∧ ∀ d, info.props = some d → d.wf
  | .link_info info => info.wf

/-- The demarshaler of an event call: the function of the source that reads the
message its marshaler writes. -/
def Event.demarshal : Event → demarshal_func_t
  | .core_update_types _ _ _ => fun _ => core_demarshal_update_types_client
  | .core_done _ => fun _ => core_demarshal_done
  | .core_error _ _ _ => fun _ => core_demarshal_error
  | .core_remove_id _ => fun _ => core_demarshal_remove_id
  | .core_info _ => fun _ => core_demarshal_info
  | .registry_global _ _ _ => fun _ => registry_demarshal_global
  | .registry_global_remove _ => fun _ => registry_demarshal_global_remove
  | .module_info _ => fun _ => module_demarshal_info
  | .node_info _ => node_demarshal_info
  | .client_info _ => fun _ => client_demarshal_info
  | .link_info _ => link_demarshal_info

/-- One step on the client side of a connection: the local type map grows by the
types appended to it, or a method marshaler is called on a proxy. -/
inductive ClientOp where
  | grow (types : List CStr)
  | call (proxy : pw_proxy) (m : Method)
deriving DecidableEq, Repr

/-- The context after one step. -/
def client_step (context : pw_context) : ClientOp → pw_context
  | .grow types => { context with type_map := context.type_map ++ types }
  | .call proxy m => marshal_method context proxy m

/-- The context after a sequence of steps. -/
def client_run (context : pw_context) (ops : List ClientOp) : pw_context :=
  ops.foldl client_step context

/-- One step on the server side of a connection: the type map of the core grows, or
an event marshaler is called on a resource. -/
inductive ServerOp where
  | grow (types : List CStr)
  | call (resource : pw_resource) (e : Event)
deriving DecidableEq, Repr

/-- The client object after one step. -/
def server_step (client : pw_client) : ServerOp → pw_client
  | .grow types => { client with core := ⟨client.core.type_map ++ types⟩ }
  | .call resource e => marshal_event client resource e

/-- The client object after a sequence of steps. -/
def server_run (client : pw_client) (ops : List ServerOp) : pw_client :=
  ops.foldl server_step client

/-- The messages a marshaler call finalizes as a side effect: those added to the log
`before`, apart from the call's own message, which is the last one. -/
def side_effects (before after : List FramerCall) : List Message :=
  ((finalized after).drop (finalized before).length).dropLast

/-- The side-effect messages of a sequence of steps on the client side, oldest first. -/
def client_side_effects (context : pw_context) : List ClientOp → List Message
  | [] => []
  | op :: ops =>
    (match op with
      | .grow _ => []
      | .call proxy m => side_effects context.framer (marshal_method context proxy m).framer)
      ++ client_side_effects (client_step context op) ops

/-- The side-effect messages of a sequence of steps on the server side, oldest first. -/
def server_side_effects (client : pw_client) : List ServerOp → List Message
  | [] => []
  | op :: ops =>
    (match op with
      | .grow _ => []
      | .call resource e => side_effects client.framer (marshal_event client resource e).framer)
      ++ server_side_effects (server_step client op) ops

/-- The `first_id` of an update_types message: the value of the first record of its
payload. -/
def Message.first_id (m : Message) : Nat := rd32 (m.payload.drop 16)

/-- The count of an update_types message: the value of the second record of its
payload. -/
def Message.count (m : Message) : Nat := rd32 (m.payload.drop 28)

/-- The update_types messages `msgs` announce contiguous ranges from the mark `h` up
to the mark `h'`: the first one's `first_id` is `h`, each later one's `first_id` is
the previous one's `first_id + count`, and the last range ends at `h'` (`h' = h` when
there is none). -/
def Contiguous : Nat → List Message → Nat → Prop
  | h, [], h' => h' = h
  | h, m :: ms, h' => m.first_id = h ∧ 0 < m.count ∧ Contiguous (m.first_id + m.count) ms h'

/-- A client context with a live connection that has announced nothing, and an empty
type map. -/
def context_empty : pw_context := ⟨some ⟨3⟩, 0, [], ⟨0⟩, []⟩

/-- A server-side client object that has announced nothing, the core's type map empty. -/
def client_empty : pw_client := ⟨some ⟨3⟩, 0, ⟨[]⟩, ⟨0⟩, []⟩

/-! ## The tables seen through their indices -/

/-- The six interfaces of the catalog. -/
inductive Interface where
  | Core
  | Registry
  | Module
  | Node
  | Client
  | Link
deriving DecidableEq, Repr

/-- The interface a method belongs to. -/
def Method.interface : Method → Interface
  | .registry_bind _ _ _ => .Registry
  | _ => .Core

/-- The interface an event belongs to. -/
def Event.interface : Event → Interface
  | .registry_global _ _ _ => .Registry
  | .registry_global_remove _ => .Registry
  | .module_info _ => .Module
  | .node_info _ => .Node
  | .client_info _ => .Client
  | .link_info _ => .Link
  | _ => .Core

/-- A `PvDaemon` object. -/
structure PvDaemon where
  id : Nat
deriving DecidableEq, Repr

/-- A `PvSource` object. -/
structure PvSource where
  id : Nat
deriving DecidableEq, Repr

/-- A `PvSourceOutput` object. -/
structure PvSourceOutput where
  id : Nat
deriving DecidableEq, Repr

/-- A `PvCapture1` interface skeleton. -/
structure PvCapture1 where
  id : Nat
deriving DecidableEq, Repr

/-- A `GDBusMethodInvocation`. -/
structure GDBusMethodInvocation where
  id : Nat
deriving DecidableEq, Repr

/-- A `GVariant`. -/
structure GVariant where
  id : Nat
deriving DecidableEq, Repr

/-- GLib's `GHashTable` as `pv_client_init` creates it: string keys compared with
`g_str_equal`, values that are `PvSourceOutput` pointers (`none` is NULL), the entries
in the order they were inserted; a key occurs once. -/
structure GHashTable where
  entries : List (CStr × Option PvSourceOutput)
deriving DecidableEq, Repr

/-- The keys of a table. -/
def GHashTable.keys (t : GHashTable) : List CStr := t.entries.map (fun e => e.1)

/-- GLib's `g_hash_table_lookup`: the value stored under the key, NULL when the key is
not in the table (and when NULL is the value stored). -/
def g_hash_table_lookup (t : GHashTable) (key : CStr) : Option PvSourceOutput :=
  match t.entries.find? (fun e => e.1 = key) with
  | some e => e.2
  | none => none

/-- The calls that leave the client object: `pv_source_release_source_output (source,
output)`, the key and value destroy functions of the table (`g_free` and
`g_object_unref`, as given to `g_hash_table_new_full`), and the completions of the
two DBus methods; each log oldest first. -/
structure Effects where
  released : List (Option PvSource × PvSourceOutput)
  freed : List CStr
  unreffed : List (Option PvSourceOutput)
  completed_create : List (PvCapture1 × GDBusMethodInvocation × CStr)
  completed_remove : List (PvCapture1 × GDBusMethodInvocation)
deriving DecidableEq, Repr

/-- GLib's `g_hash_table_remove`: the entry of the key is removed and its key and
value are handed to the destroy functions; a table without the key is unchanged. -/
def g_hash_table_remove (t : GHashTable) (w : Effects) (key : CStr) : GHashTable × Effects :=
  (⟨t.entries.filter (fun e => e.1 ≠ key)⟩,
   { w with
     freed := w.freed ++ ((t.entries.filter (fun e => e.1 = key)).map (fun e => e.1))
     unreffed := w.unreffed ++ ((t.entries.filter (fun e => e.1 = key)).map (fun e => e.2)) })

/-- GLib's `g_hash_table_insert`: a new key is added with its value; for a key that
is in the table already the value is replaced, the old value and the key passed in
being handed to the destroy functions. -/
def g_hash_table_insert (t : GHashTable) (w : Effects) (key : CStr)
    (value : Option PvSourceOutput) : GHashTable × Effects :=
  match t.entries.find? (fun e => e.1 = key) with
  | some old =>
      (⟨t.entries.map (fun e => if e.1 = key then (e.1, value) else e)⟩,
       { w with freed := w.freed ++ [key], unreffed := w.unreffed ++ [old.2] })
  | none => (⟨t.entries ++ [(key, value)]⟩, w)

/-- The `struct _PvClientPrivate` of the source. -/
structure PvClientPrivate where
  daemon : PvDaemon
  object_path : Option CStr
  source : Option PvSource
  source_outputs : GHashTable
deriving DecidableEq, Repr

/-- A `PvClient` object: its private data. -/
structure PvClient where
  priv : PvClientPrivate
deriving DecidableEq, Repr

/-- The function `pv_client_init` of the source, on a client with the given daemon
and object path: an empty table of source outputs. -/
def pv_client_init (daemon : PvDaemon) (object_path : Option CStr) : PvClient :=
  ⟨⟨daemon, object_path, none, ⟨[]⟩⟩⟩

/-- The function `handle_create_source_output` of the source. The functions
`pv_daemon_get_source`, `pv_source_create_source_output` and
`pv_source_output_get_object_path` are not part of the sources at hand and are
parameters. When no output is created the source hands NULL on to
`pv_source_output_get_object_path`, whose behaviour on NULL the sources at hand do
not define: the result is `none`. -/
def handle_create_source_output
    (pv_daemon_get_source : PvDaemon → CStr → Option PvSource)
    (pv_source_create_source_output :
      Option PvSource → Option GVariant → Option CStr → Option PvSourceOutput)
    (pv_source_output_get_object_path : PvSourceOutput → CStr)
    (interface : PvCapture1) (invocation : GDBusMethodInvocation) (arg_source : CStr)
    (_arg_properties : Option GVariant) (client : PvClient) (w : Effects) :
    Option ((PvClient × Effects) × Bool) :=
  let priv := client.priv
  let daemon := priv.daemon
  let source := pv_daemon_get_source daemon arg_source
  match pv_source_create_source_output source none priv.object_path with
  | none => none
  | some output =>
    let object_path := pv_source_output_get_object_path output
    let (table, w) := g_hash_table_insert priv.source_outputs w object_path (some output)
    let w := { w with
      completed_create := w.completed_create ++ [(interface, invocation, object_path)] }
    some (({ client with priv := { priv with source_outputs := table } }, w), true)

/-- The function `handle_remove_source_output` of the source. -/
def handle_remove_source_output (interface : PvCapture1) (invocation : GDBusMethodInvocation)
    (arg_output : CStr) (client : PvClient) (w : Effects) : (PvClient × Effects) × Bool :=
  let priv := client.priv
  let output := g_hash_table_lookup priv.source_outputs arg_output
  let (client, w) :=
    match output with
    | some output =>
      let w := { w with released := w.released ++ [(priv.source, output)] }
      let (table, w) := g_hash_table_remove priv.source_outputs w arg_output
      (({ client with priv := { priv with source_outputs := table } } : PvClient), w)
    | none => (client, w)
  let w := { w with completed_remove := w.completed_remove ++ [(interface, invocation)] }
  ((client, w), true)

/-- The table of a client holds objects: no key is stored with a NULL value (the
values are the outputs `handle_create_source_output` created, and the table's value
destroy function is `g_object_unref`), and a key occurs once. -/
def PvClient.wf (client : PvClient) : Prop :=
  (∀ e ∈ client.priv.source_outputs.entries, e.2 ≠ none) ∧
  client.priv.source_outputs.keys.Nodup

/-- No call has left the client yet. -/
def effects_none : Effects := ⟨[], [], [], [], []⟩

/-- A client whose table holds the outputs 1 and 2 under the paths "a" and "b". -/
def pv_client_example : PvClient :=
  ⟨⟨⟨0⟩, some [112], none, ⟨[([97], some ⟨1⟩), ([98], some ⟨2⟩)]⟩⟩⟩

/-! ## The demarshalers on a bounded stack

The demarshalers that read a count from the wire size an array with it and allocate
the array with `alloca` before the loop that reads the elements. The definitions
above give what a demarshaler returns and which handler it invokes when it runs to
its end; the definitions of this section follow the source through its allocations
as well. -/

/-- The platform a demarshaler runs on, as far as its stack allocations go: the bytes
of stack left when the demarshaler is entered, and the sizes `sizeof (char *)`
(which is `sizeof (struct spa_format *)`) and `sizeof (struct spa_dict_item)`, whose
declarations are not part of the sources at hand. -/
structure Platform where
  stack : Nat
  sizeof_pointer : Nat
  sizeof_spa_dict_item : Nat
deriving DecidableEq, Repr

/-- How a call of a demarshaler ends: it returns, or an `alloca` does not fit in the
stack that is left; the behaviour of the program is then undefined (on the usual
platforms the next use of the stack kills the process). -/
inductive Outcome where
  | returned (d : Demarshaled)
  | stack_overflow
deriving DecidableEq, Repr

/-- The argument `count * sizeof (element)` of an `alloca` of the source: the product
of a `uint32_t` and a `size_t`, taken as a 64-bit `size_t`. -/
def alloca_size (count size : Nat) : Nat := (count * size) % 18446744073709551616

/-- The C library's `alloca (size)` with `stack` bytes of stack left, followed by the
rest of the function, which gets the bytes left after it. -/
def alloca (stack size : Nat) (rest : Nat → Outcome) : Outcome :=
  if size ≤ stack then rest (stack - size) else Outcome.stack_overflow

/-- A read of a demarshaler followed by the rest of the function: when the read
fails the demarshaler returns false. -/
def Outcome.read {α : Type} (o : Option α) (rest : α → Outcome) : Outcome :=
  match o with
  | none => Outcome.returned ⟨false, []⟩
  | some a => rest a

/-- The function `core_demarshal_info` of the source, with its stack allocation. -/
def core_demarshal_info_stack (p : Platform) (data : List Nat) (size : Nat) : Outcome :=
  Outcome.read (spa_pod_iter_struct data size) fun it =>
  Outcome.read (spa_pod_iter_get_int it) fun (id, it) =>
  Outcome.read (spa_pod_iter_get_long it) fun (change_mask, it) =>
  Outcome.read (spa_pod_iter_get_string it) fun (user_name, it) =>
  Outcome.read (spa_pod_iter_get_string it) fun (host_name, it) =>
  Outcome.read (spa_pod_iter_get_string it) fun (version, it) =>
  Outcome.read (spa_pod_iter_get_string it) fun (name, it) =>
  Outcome.read (spa_pod_iter_get_int it) fun (cookie, it) =>
  Outcome.read (spa_pod_iter_get_int it) fun (n_items, it) =>
  alloca p.stack (alloca_size n_items p.sizeof_spa_dict_item) fun _ =>
  Outcome.read (demarshal_dict_items n_items it) fun (items, _) =>
  Outcome.returned ⟨true, [HandlerCall.core_events_info
    ⟨id, change_mask, user_name, host_name, version, name, cookie, some ⟨n_items, items⟩⟩]⟩

/-- The function `core_demarshal_update_types_client` of the source, with its stack
allocation. -/
def core_demarshal_update_types_client_stack (p : Platform) (data : List Nat) (size : Nat) :
    Outcome :=
  Outcome.read (spa_pod_iter_struct data size) fun it =>
  Outcome.read (spa_pod_iter_get_int it) fun (first_id, it) =>
  Outcome.read (spa_pod_iter_get_int it) fun (n_types, it) =>
  alloca p.stack (alloca_size n_types p.sizeof_pointer) fun _ =>
  Outcome.read (demarshal_types n_types it) fun (types, _) =>
  Outcome.returned ⟨true, [HandlerCall.core_events_update_types first_id n_types types]⟩

/-- The function `core_demarshal_client_update` of the source, with its stack
allocation. -/
def core_demarshal_client_update_stack (p : Platform) (data : List Nat) (size : Nat) :
    Outcome :=
  Outcome.read (spa_pod_iter_struct data size) fun it =>
  Outcome.read (spa_pod_iter_get_int it) fun (n_items, it) =>
  alloca p.stack (alloca_size n_items p.sizeof_spa_dict_item) fun _ =>
  Outcome.read (demarshal_dict_items n_items it) fun (items, _) =>
  Outcome.returned ⟨true, [HandlerCall.core_methods_client_update ⟨n_items, items⟩]⟩

/-- The function `core_demarshal_create_node` of the source, with its stack
allocation. -/
def core_demarshal_create_node_stack (p : Platform) (data : List Nat) (size : Nat) : Outcome :=
  Outcome.read (spa_pod_iter_struct data size) fun it =>
  Outcome.read (spa_pod_iter_get_string it) fun (factory_name, it) =>
  Outcome.read (spa_pod_iter_get_string it) fun (name, it) =>
  Outcome.read (spa_pod_iter_get_int it) fun (n_items, it) =>
  alloca p.stack (alloca_size n_items p.sizeof_spa_dict_item) fun _ =>
  Outcome.read (demarshal_dict_items n_items it) fun (items, it) =>
  Outcome.read (spa_pod_iter_get_int it) fun (new_id, _) =>
  Outcome.returned
    ⟨true, [HandlerCall.core_methods_create_node factory_name name ⟨n_items, items⟩ new_id]⟩

/-- The function `core_demarshal_create_link` of the source, with its stack
allocation. -/
def core_demarshal_create_link_stack (p : Platform)
    (pw_pod_remap_data : Nat → List Nat → Nat → Option (List Nat))
    (data : List Nat) (size : Nat) : Outcome :=
  Outcome.read (spa_pod_iter_struct data size) fun it =>
  Outcome.read (pw_pod_remap_data SPA_POD_TYPE_STRUCT data size) fun data =>
  Outcome.read (spa_pod_iter_get_int { it with data := data }) fun (output_node_id, it) =>
  Outcome.read (spa_pod_iter_get_int it) fun (output_port_id, it) =>
  Outcome.read (spa_pod_iter_get_int it) fun (input_node_id, it) =>
  Outcome.read (spa_pod_iter_get_int it) fun (input_port_id, it) =>
  let (filter, it) := spa_pod_iter_get_opt_object it
  Outcome.read (spa_pod_iter_get_int it) fun (n_items, it) =>
  alloca p.stack (alloca_size n_items p.sizeof_spa_dict_item) fun _ =>
  Outcome.read (demarshal_dict_items n_items it) fun (items, it) =>
  Outcome.read (spa_pod_iter_get_int it) fun (new_id, _) =>
  Outcome.returned
    ⟨true, [HandlerCall.core_methods_create_link output_node_id output_port_id input_node_id
      input_port_id filter ⟨n_items, items⟩ new_id]⟩

/-- The function `core_demarshal_update_types_server` of the source, with its stack
allocation. -/
def core_demarshal_update_types_server_stack (p : Platform) (data : List Nat) (size : Nat) :
    Outcome :=
  Outcome.read (spa_pod_iter_struct data size) fun it =>
  Outcome.read (spa_pod_iter_get_int it) fun (first_id, it) =>
  Outcome.read (spa_pod_iter_get_int it) fun (n_types, it) =>
  alloca p.stack (alloca_size n_types p.sizeof_pointer) fun _ =>
  Outcome.read (demarshal_types n_types it) fun (types, _) =>
  Outcome.returned ⟨true, [HandlerCall.core_methods_update_types first_id n_types types]⟩

/-- The function `module_demarshal_info` of the source, with its stack allocation. -/
def module_demarshal_info_stack (p : Platform) (data : List Nat) (size : Nat) : Outcome :=
  Outcome.read (spa_pod_iter_struct data size) fun it =>
  Outcome.read (spa_pod_iter_get_int it) fun (id, it) =>
  Outcome.read (spa_pod_iter_get_long it) fun (change_mask, it) =>
  Outcome.read (spa_pod_iter_get_string it) fun (name, it) =>
  Outcome.read (spa_pod_iter_get_string it) fun (filename, it) =>
  Outcome.read (spa_pod_iter_get_string it) fun (args, it) =>
  Outcome.read (spa_pod_iter_get_int it) fun (n_items, it) =>
  alloca p.stack (alloca_size n_items p.sizeof_spa_dict_item) fun _ =>
  Outcome.read (demarshal_dict_items n_items it) fun (items, _) =>
  Outcome.returned ⟨true, [HandlerCall.module_events_info
    ⟨id, change_mask, name, filename, args, some ⟨n_items, items⟩⟩]⟩

/-- The function `node_demarshal_info` of the source, with its three stack
allocations, each taken from what the ones before have left. -/
def node_demarshal_info_stack (p : Platform)
    (pw_pod_remap_data : Nat → List Nat → Nat → Option (List Nat))
    (data : List Nat) (size : Nat) : Outcome :=
  Outcome.read (spa_pod_iter_struct data size) fun it =>
  Outcome.read (pw_pod_remap_data SPA_POD_TYPE_STRUCT data size) fun data =>
  Outcome.read (spa_pod_iter_get_int { it with data := data }) fun (id, it) =>
  Outcome.read (spa_pod_iter_get_long it) fun (change_mask, it) =>
  Outcome.read (spa_pod_iter_get_string it) fun (name, it) =>
  Outcome.read (spa_pod_iter_get_int it) fun (max_input_ports, it) =>
  Outcome.read (spa_pod_iter_get_int it) fun (n_input_ports, it) =>
  Outcome.read (spa_pod_iter_get_int it) fun (n_input_formats, it) =>
  alloca p.stack (alloca_size n_input_formats p.sizeof_pointer) fun stack =>
  Outcome.read (demarshal_formats n_input_formats it) fun (input_formats, it) =>
  Outcome.read (spa_pod_iter_get_int it) fun (max_output_ports, it) =>
  Outcome.read (spa_pod_iter_get_int it) fun (n_output_ports, it) =>
  Outcome.read (spa_pod_iter_get_int it) fun (n_output_formats, it) =>
  alloca stack (alloca_size n_output_formats p.sizeof_pointer) fun stack =>
  Outcome.read (demarshal_formats n_output_formats it) fun (output_formats, it) =>
  Outcome.read (spa_pod_iter_get_int it) fun (state, it) =>
  Outcome.read (spa_pod_iter_get_string it) fun (error, it) =>
  Outcome.read (spa_pod_iter_get_int it) fun (n_items, it) =>
  alloca stack (alloca_size n_items p.sizeof_spa_dict_item) fun _ =>
  Outcome.read (demarshal_dict_items n_items it) fun (items, _) =>
  Outcome.returned ⟨true, [HandlerCall.node_events_info
    ⟨id, change_mask, name, max_input_ports, n_input_ports, n_input_formats, input_formats,
     max_output_ports, n_output_ports, n_output_formats, output_formats, state, error,
     some ⟨n_items, items⟩⟩]⟩

/-- The function `client_demarshal_info` of the source, with its stack allocation. -/
def client_demarshal_info_stack (p : Platform) (data : List Nat) (size : Nat) : Outcome :=
  Outcome.read (spa_pod_iter_struct data size) fun it =>
  Outcome.read (spa_pod_iter_get_int it) fun (id, it) =>
  Outcome.read (spa_pod_iter_get_long it) fun (change_mask, it) =>
  Outcome.read (spa_pod_iter_get_int it) fun (n_items, it) =>
  alloca p.stack (alloca_size n_items p.sizeof_spa_dict_item) fun _ =>
  Outcome.read (demarshal_dict_items n_items it) fun (items, _) =>
  Outcome.returned ⟨true, [HandlerCall.client_events_info ⟨id, change_mask, some ⟨n_items, items⟩⟩]⟩

/-- A demarshaler of the source on a platform: the platform, the id remap of the
connection, the payload and its size. -/
abbrev demarshal_stack_t :=
  Platform → (Nat → List Nat → Nat → Option (List Nat)) → List Nat → Nat → Outcome

/-- The eighteen demarshalers of the source on a platform, in the order of
`demarshalers`; the nine that allocate nothing return what they return. -/
def demarshal_stack_functions : List demarshal_stack_t :=
  [ fun p _ => core_demarshal_update_types_client_stack p,
    fun _ _ data size => Outcome.returned (core_demarshal_done data size),
    fun _ _ data size => Outcome.returned (core_demarshal_error data size),
    fun _ _ data size => Outcome.returned (core_demarshal_remove_id data size),
    fun p _ => core_demarshal_info_stack p,
    fun _ _ data size => Outcome.returned (registry_demarshal_global data size),
    fun _ _ data size => Outcome.returned (registry_demarshal_global_remove data size),
    fun p _ => module_demarshal_info_stack p,
    node_demarshal_info_stack,
    fun p _ => client_demarshal_info_stack p,
    fun _ r data size => Outcome.returned (link_demarshal_info r data size),
    fun p _ => core_demarshal_update_types_server_stack p,
    fun _ _ data size => Outcome.returned (core_demarshal_sync data size),
    fun _ _ data size => Outcome.returned (core_demarshal_get_registry data size),
    fun p _ => core_demarshal_client_update_stack p,
    fun p _ => core_demarshal_create_node_stack p,
    core_demarshal_create_link_stack,
    fun _ _ data size => Outcome.returned (registry_demarshal_bind data size) ]

/-- The eighteen demarshalers on a platform, each with whether it calls
`pw_pod_remap_data` and with its schema, as in `demarshalers`. -/
def demarshalers_stack : List (demarshal_stack_t × Bool × List Slot) :=
  List.zipWith (fun f e => (f, e.2.1, e.2.2)) demarshal_stack_functions demarshalers

/-- The size of an element of the array a counted slot fills: a `struct
spa_dict_item` for (key, value) pairs, a pointer for type names and for formats. -/
def element_size (p : Platform) (per : List Nat) : Nat :=
  match per with
  | [_, _] => p.sizeof_spa_dict_item
  | _ => p.sizeof_pointer

/-- The bytes of stack the allocations for the declared counts take along a schema,
from the iterator on: each count read adds its array; the walk ends where a record is
missing or carries another tag. -/
def stack_use (p : Platform) : List Slot → spa_pod_iter → Nat
  | [], _ => 0
  | .required t :: ss, it =>
    match tagStep t it with
    | some it' => stack_use p ss it'
    | none => 0
  | .optional_object :: ss, it => stack_use p ss (spa_pod_iter_get_opt_object it).2
  | .counted per :: ss, it =>
    match spa_pod_iter_get_int it with
    | some (n, it') =>
      alloca_size n (element_size p per) +
        (match readGroups n per it' with
          | some it2 => stack_use p ss it2
          | none => 0)
    | none => 0

/-- The bytes of stack the allocations of a demarshaler take on a payload: none when
the struct does not open or the remap fails. -/
def stack_need (p : Platform) (remaps : Bool) (schema : List Slot)
    (pw_pod_remap_data : Nat → List Nat → Nat → Option (List Nat))
    (data : List Nat) (size : Nat) : Nat :=
  match spa_pod_iter_struct data size with
  | none => 0
  | some it =>
    if remaps then
      match pw_pod_remap_data SPA_POD_TYPE_STRUCT data size with
      | none => 0
      | some data' => stack_use p schema { it with data := data' }
    else stack_use p schema it

/-- A platform with 8 MiB of stack, 8-byte pointers and 16-byte dictionary items. -/
def platform_example : Platform := ⟨8388608, 8, 16⟩

/-- An example context: a live connection, four types registered and announced, the
core proxy with id 0, nothing sent yet. -/
def context_example : pw_context :=
  ⟨some ⟨3⟩, 4, [[97], [98], [99], [100]], ⟨0⟩, []⟩

/-- An example client on the server side: a live connection, four types registered
and announced, the core resource with id 0, nothing sent yet. -/
def client_example : pw_client :=
  ⟨some ⟨3⟩, 4, ⟨[[97], [98], [99], [100]]⟩, ⟨0⟩, []⟩

set_option maxRecDepth 8000

/-! ## The codec: reading back what was written -/

theorem length_le32 (v : Nat) : (le32 v).length = 4 := rfl

theorem rd32_le32 (v : Nat) (rest : List Nat) (h : v < 4294967296) :
    rd32 (le32 v ++ rest) = v := by
  simp only [le32, List.cons_append, List.nil_append, rd32]
  omega

theorem drop_le32 (v : Nat) (rest : List Nat) : (le32 v ++ rest).drop 4 = rest := by
  simp [le32]

theorem length_le64 (v : Nat) : (le64 v).length = 8 := rfl

theorem rd64_le64 (v : Nat) (h : v < 18446744073709551616) : rd64 (le64 v) = v := by
  have h1 : v % 4294967296 < 4294967296 := Nat.mod_lt _ (by norm_num)
  have h2 : v / 4294967296 < 4294967296 := by omega
  have e1 : rd32 (le64 v) = v % 4294967296 := rd32_le32 _ _ h1
  have e2 : rd32 ((le64 v).drop 4) = v / 4294967296 := by
    have := rd32_le32 (v / 4294967296) [] h2
    rw [le64, drop_le32]
    simpa using this
  rw [rd64, e1, e2]
  omega

theorem round_up_4_ge (n : Nat) : n ≤ SPA_ROUND_UP_N n 4 := by
  unfold SPA_ROUND_UP_N
  omega

theorem round_up_4_lt (n : Nat) : SPA_ROUND_UP_N n 4 < n + 4 := by
  unfold SPA_ROUND_UP_N
  omega

theorem round_up_4_mod (n : Nat) : SPA_ROUND_UP_N n 4 % 4 = 0 := by
  unfold SPA_ROUND_UP_N
  omega

theorem length_padding (n : Nat) : (padding n).length = SPA_ROUND_UP_N n 4 - n := by
  simp [padding]

theorem length_record (tag : Nat) (body : List Nat) :
    (record tag body).length = 8 + SPA_ROUND_UP_N body.length 4 := by
  have := round_up_4_ge body.length
  simp only [record, List.length_append, length_le32, length_padding]
  omega

theorem length_encode (p : Pod) : p.encode.length = 8 + SPA_ROUND_UP_N p.body.length 4 :=
  length_record _ _

theorem encodeAll_append (ps qs : List Pod) :
    encodeAll (ps ++ qs) = encodeAll ps ++ encodeAll qs := by
  induction ps with
  | nil => rfl
  | cons p ps ih => simp [encodeAll, ih]

theorem tag_lt (p : Pod) : p.tag < 4294967296 := by
  cases p <;> simp [Pod.tag, SPA_POD_TYPE_INT, SPA_POD_TYPE_LONG, SPA_POD_TYPE_STRING,
    SPA_POD_TYPE_OBJECT]

theorem body_length_lt (p : Pod) (h : p.wf) : p.body.length < 4294967296 := by
  cases p with
  | int v => simp [Pod.body, length_le32]
  | long v => simp [Pod.body, length_le64]
  | string s => simpa [Pod.body, Pod.wf] using h.2
  | object b => simpa [Pod.body, Pod.wf] using h

/-- The next record of an iterator standing before the record `p`. -/
theorem next_itAt (pre : List Nat) (p : Pod) (rs : List Pod) (post : List Nat)
    (h : p.body.length < 4294967296) :
    spa_pod_iter_next (itAt pre (p :: rs) post)
      = some (p.tag, p.body, itAt (pre ++ p.encode) rs post) := by
  have hlen := length_encode p
  have hge := round_up_4_ge p.body.length
  have hdrop : (pre ++ (encodeAll (p :: rs) ++ post)).drop pre.length
      = le32 p.body.length ++ (le32 p.tag ++ (p.body ++ (padding p.body.length
          ++ (encodeAll rs ++ post)))) := by
    rw [List.drop_left]
    simp [encodeAll, Pod.encode, record, List.append_assoc]
  have hsize : rd32 ((pre ++ (encodeAll (p :: rs) ++ post)).drop pre.length) = p.body.length := by
    rw [hdrop]; exact rd32_le32 _ _ h
  have htag : rd32 (((pre ++ (encodeAll (p :: rs) ++ post)).drop pre.length).drop 4) = p.tag := by
    rw [hdrop, drop_le32]; exact rd32_le32 _ _ (tag_lt p)
  have hbody : (((pre ++ (encodeAll (p :: rs) ++ post)).drop pre.length).drop 8).take
      p.body.length = p.body := by
    rw [hdrop]
    have : (le32 p.body.length ++ (le32 p.tag ++ (p.body ++ (padding p.body.length
          ++ (encodeAll rs ++ post))))).drop 8
        = p.body ++ (padding p.body.length ++ (encodeAll rs ++ post)) := by
      simp [le32]
    rw [this, List.take_left]
  have hall : (encodeAll (p :: rs)).length = p.encode.length + (encodeAll rs).length := by
    simp [encodeAll]
  unfold spa_pod_iter_next
  simp only [itAt] at *
  rw [hsize, htag, hbody]
  have c1 : ¬ (pre.length + (encodeAll (p :: rs)).length < pre.length + 8) := by omega
  have c2 : ¬ (pre.length + (encodeAll (p :: rs)).length
      < pre.length + (8 + SPA_ROUND_UP_N p.body.length 4)) := by omega
  rw [if_neg c1, if_neg c2]
  simp only [Option.some.injEq, Prod.mk.injEq, true_and, spa_pod_iter.mk.injEq]
  refine ⟨?_, ?_, ?_⟩
  · simp [encodeAll, List.append_assoc]
  · simp only [List.length_append]; omega
  · simp only [List.length_append]; omega

theorem takeWhile_nul (s : CStr) (h : 0 ∉ s) (rest : List Nat) :
    (s ++ 0 :: rest).takeWhile (· ≠ 0) = s := by
  induction s with
  | nil => simp
  | cons a s ih =>
    have ha : a ≠ 0 := fun e => h (by simp [e])
    have hs : 0 ∉ s := fun e => h (by simp [e])
    rw [List.cons_append, List.takeWhile_cons, if_pos (by simpa using ha), ih hs]

theorem get_int_itAt (pre : List Nat) (v : Nat) (rs : List Pod) (post : List Nat)
    (h : v < 4294967296) :
    spa_pod_iter_get_int (itAt pre (Pod.int v :: rs) post)
      = some (v, itAt (pre ++ (Pod.int v).encode) rs post) := by
  unfold spa_pod_iter_get_int
  rw [next_itAt pre (Pod.int v) rs post (by simp [Pod.body, length_le32])]
  have := rd32_le32 v [] h
  simp only [List.append_nil] at this
  simp [Pod.tag, Pod.body, length_le32, this]

theorem get_long_itAt (pre : List Nat) (v : Nat) (rs : List Pod) (post : List Nat)
    (h : v < 18446744073709551616) :
    spa_pod_iter_get_long (itAt pre (Pod.long v :: rs) post)
      = some (v, itAt (pre ++ (Pod.long v).encode) rs post) := by
  unfold spa_pod_iter_get_long
  rw [next_itAt pre (Pod.long v) rs post (by simp [Pod.body, length_le64])]
  simp [Pod.tag, Pod.body, length_le64, rd64_le64 v h]

theorem get_string_itAt (pre : List Nat) (s : CStr) (rs : List Pod) (post : List Nat)
    (h0 : 0 ∉ s) (hlen : s.length + 1 < 4294967296) :
    spa_pod_iter_get_string (itAt pre (Pod.string s :: rs) post)
      = some (s, itAt (pre ++ (Pod.string s).encode) rs post) := by
  unfold spa_pod_iter_get_string
  rw [next_itAt pre (Pod.string s) rs post (by simpa [Pod.body] using hlen)]
  simp only [Pod.tag, Pod.body]
  rw [if_pos ⟨trivial, by simp⟩, takeWhile_nul s h0 []]

theorem get_object_itAt (pre : List Nat) (body : List Nat) (rs : List Pod) (post : List Nat)
    (hlen : body.length < 4294967296) :
    spa_pod_iter_get_object (itAt pre (Pod.object body :: rs) post)
      = some (⟨body⟩, itAt (pre ++ (Pod.object body).encode) rs post) := by
  unfold spa_pod_iter_get_object
  rw [next_itAt pre (Pod.object body) rs post (by simpa [Pod.body] using hlen)]
  simp [Pod.tag, Pod.body]

theorem get_opt_object_itAt (pre : List Nat) (body : List Nat) (rs : List Pod) (post : List Nat)
    (hlen : body.length < 4294967296) :
    spa_pod_iter_get_opt_object (itAt pre (Pod.object body :: rs) post)
      = (some ⟨body⟩, itAt (pre ++ (Pod.object body).encode) rs post) := by
  unfold spa_pod_iter_get_opt_object
  rw [get_object_itAt pre body rs post hlen]

/-- An optional read before a record that is not an object consumes nothing. -/
theorem get_opt_object_itAt_other (pre : List Nat) (p : Pod) (rs : List Pod) (post : List Nat)
    (hlen : p.body.length < 4294967296) (htag : p.tag ≠ SPA_POD_TYPE_OBJECT) :
    spa_pod_iter_get_opt_object (itAt pre (p :: rs) post) = (none, itAt pre (p :: rs) post) := by
  unfold spa_pod_iter_get_opt_object spa_pod_iter_get_object
  rw [next_itAt pre p rs post hlen]
  simp [htag]

/-- An optional read at the end of the struct consumes nothing. -/
theorem get_opt_object_itAt_nil (pre : List Nat) (post : List Nat) :
    spa_pod_iter_get_opt_object (itAt pre [] post) = (none, itAt pre [] post) := by
  unfold spa_pod_iter_get_opt_object spa_pod_iter_get_object spa_pod_iter_next
  simp [itAt, encodeAll]

theorem iter_struct_encodeStruct (rs : List Pod) (h : (encodeAll rs).length < 4294967296) :
    spa_pod_iter_struct (encodeStruct rs) (encodeStruct rs).length
      = some (itAt (le32 (encodeAll rs).length ++ le32 SPA_POD_TYPE_STRUCT) rs []) := by
  have h1 : rd32 (encodeStruct rs) = (encodeAll rs).length := by
    unfold encodeStruct
    rw [List.append_assoc]
    exact rd32_le32 _ _ h
  have h2 : rd32 ((encodeStruct rs).drop 4) = SPA_POD_TYPE_STRUCT := by
    unfold encodeStruct
    rw [List.append_assoc, drop_le32]
    exact rd32_le32 _ _ (by simp [SPA_POD_TYPE_STRUCT])
  have h3 : (encodeStruct rs).length = 8 + (encodeAll rs).length := by
    simp [encodeStruct, length_le32]
    omega
  unfold spa_pod_iter_struct
  rw [h1, h2, h3]
  simp [itAt, encodeStruct, length_le32]

theorem itAt_rebase (rs : List Pod) :
    ({ itAt (le32 (encodeAll rs).length ++ le32 SPA_POD_TYPE_STRUCT) rs [] with
        data := encodeStruct rs } : spa_pod_iter)
      = itAt (le32 (encodeAll rs).length ++ le32 SPA_POD_TYPE_STRUCT) rs [] := by
  simp [itAt, encodeStruct]

theorem write_pod_data (b : builder) (ref : Nat) (d : List Nat) (n : Nat) :
    (write_pod b ref d n).1.data
      = memcpy b.data (if ref = 4294967295 then b.offset else ref) (d.take n) := by
  unfold write_pod pw_connection_begin_write
  by_cases h : b.size ≤ b.offset <;> simp [h]

theorem write_pod_offset (b : builder) (ref : Nat) (d : List Nat) (n : Nat) :
    (write_pod b ref d n).1.offset = b.offset := by
  unfold write_pod
  by_cases h : b.size ≤ b.offset <;> simp [h]

theorem memcpy_end (mem src : List Nat) : memcpy mem mem.length src = mem ++ src := by
  simp [memcpy]

theorem raw_data (b : builder) (bs : List Nat) (h : b.data.length = b.offset) :
    (spa_pod_builder_raw b bs).data = b.data ++ bs := by
  simp only [spa_pod_builder_raw, write_pod_data, if_true, List.take_length]
  rw [← h, memcpy_end]

theorem raw_offset (b : builder) (bs : List Nat) :
    (spa_pod_builder_raw b bs).offset = b.offset + bs.length := by
  simp only [spa_pod_builder_raw, write_pod_offset]

theorem Built.length {bf : builder × spa_pod_frame} {rs : List Pod} (h : Built bf rs) :
    bf.1.data.length = bf.1.offset := by
  rw [h.1, h.2.1]
  simp only [List.length_append, length_le32]

theorem built_raw (bf : builder × spa_pod_frame) (rs : List Pod) (p : Pod) (h : Built bf rs) :
    Built (spa_pod_builder_raw bf.1 p.encode, bf.2) (rs ++ [p]) := by
  refine ⟨?_, ?_, h.2.2⟩
  · show (spa_pod_builder_raw bf.1 p.encode).data = _
    rw [raw_data _ _ h.length, h.1, encodeAll_append]
    simp [encodeAll, List.append_assoc]
  · show (spa_pod_builder_raw bf.1 p.encode).offset = _
    rw [raw_offset, h.2.1, encodeAll_append]
    simp [encodeAll]
    omega

theorem built_add1 (bf : builder × spa_pod_frame) (rs : List Pod) (a : BuilderArg)
    (h : Built bf rs) (ha : isValue a = true) :
    Built (spa_pod_builder_add1 bf a) (rs ++ argPods a) := by
  cases a with
  | STRUCT => simp [isValue] at ha
  | END_STRUCT => simp [isValue] at ha
  | INT v => exact built_raw bf rs _ h
  | LONG v => exact built_raw bf rs _ h
  | STRING s => exact built_raw bf rs _ h
  | POD p =>
    cases p with
    | none => simpa [spa_pod_builder_add1, argPods] using h
    | some f => exact built_raw bf rs _ h

theorem built_add (args : List BuilderArg) (bf : builder × spa_pod_frame) (rs : List Pod)
    (h : Built bf rs) (ha : ∀ a ∈ args, isValue a = true) :
    Built (spa_pod_builder_add bf args) (rs ++ argsPods args) := by
  induction args generalizing bf rs with
  | nil => simpa [spa_pod_builder_add, argsPods] using h
  | cons a args ih =>
    have h1 := built_add1 bf rs a h (ha a (by simp))
    have h2 := ih (spa_pod_builder_add1 bf a) (rs ++ argPods a) h1
      (fun x hx => ha x (by simp [hx]))
    simpa [spa_pod_builder_add, argsPods, List.append_assoc] using h2

theorem built_open (connection : Option pw_connection) :
    Built (spa_pod_builder_add1 (builder_init connection) BuilderArg.STRUCT) [] := by
  refine ⟨?_, ?_, rfl⟩
  · show (spa_pod_builder_raw _ _).data = _
    rw [raw_data _ _ rfl]
    simp [builder_init, encodeAll]
  · show (spa_pod_builder_raw _ _).offset = _
    rw [raw_offset]
    simp [builder_init, encodeAll, length_le32]

/-- The builder after `spa_pod_builder_add (&b, SPA_POD_TYPE_STRUCT, &f, args..., 0)`. -/
theorem built_open_add (connection : Option pw_connection) (args : List BuilderArg)
    (ha : ∀ a ∈ args, isValue a = true) :
    Built (spa_pod_builder_add (builder_init connection) (BuilderArg.STRUCT :: args))
      (argsPods args) := by
  have := built_add args _ [] (built_open connection) ha
  simpa [spa_pod_builder_add] using this

theorem closed_pop (bf : builder × spa_pod_frame) (rs : List Pod) (h : Built bf rs) :
    Closed (spa_pod_builder_add1 bf BuilderArg.END_STRUCT) rs := by
  obtain ⟨hd, ho, hr⟩ := h
  have hne : ¬ ((0 : Nat) = 4294967295) := by decide
  refine ⟨?_, ?_⟩
  · show (write_pod _ _ _ _).1.data = _
    rw [write_pod_data, hr, if_neg hne, hd, ho]
    simp [memcpy, encodeStruct, le32]
  · show (write_pod _ _ _ _).1.offset = _
    rw [write_pod_offset, ho]
    simp [encodeStruct, length_le32]
    omega

/-- The builder after `spa_pod_builder_add (&b, args..., -SPA_POD_TYPE_STRUCT, &f, 0)`. -/
theorem closed_add (args : List BuilderArg) (bf : builder × spa_pod_frame) (rs : List Pod)
    (h : Built bf rs) (ha : ∀ a ∈ args, isValue a = true) :
    Closed (spa_pod_builder_add bf (args ++ [BuilderArg.END_STRUCT])) (rs ++ argsPods args) := by
  have h1 := closed_pop _ _ (built_add args bf rs h ha)
  simpa [spa_pod_builder_add, List.foldl_append] using h1

/-- The builder after `spa_pod_builder_struct (&b, &f, args...)`. -/
theorem closed_struct (connection : Option pw_connection) (args : List BuilderArg)
    (ha : ∀ a ∈ args, isValue a = true) :
    Closed (spa_pod_builder_struct (builder_init connection) args) (argsPods args) := by
  have h1 := closed_add args _ [] (built_open connection) ha
  simpa [spa_pod_builder_struct, spa_pod_builder_add, List.foldl_append] using h1

theorem built_dict_items (items : List spa_dict_item) (bf : builder × spa_pod_frame)
    (rs : List Pod) (h : Built bf rs) :
    Built (items.foldl
        (fun bf item => spa_pod_builder_add bf [.STRING item.key, .STRING item.value]) bf)
      (rs ++ dictPods items) := by
  induction items generalizing bf rs with
  | nil => simpa [dictPods] using h
  | cons i items ih =>
    have h1 := built_add [.STRING i.key, .STRING i.value] bf rs h (by simp [isValue])
    have h2 := ih _ _ h1
    simpa [dictPods, argsPods, argPods, List.append_assoc] using h2

theorem built_marshal_dict_items (d : spa_dict) (bf : builder × spa_pod_frame)
    (rs : List Pod) (h : Built bf rs) (hn : d.n_items = d.items.length) :
    Built (marshal_dict_items bf (some d) (props_n_items (some d))) (rs ++ dictPods d.items) := by
  simp only [marshal_dict_items, props_n_items, hn, List.take_length]
  exact built_dict_items d.items bf rs h

theorem built_types (types : List CStr) (bf : builder × spa_pod_frame)
    (rs : List Pod) (h : Built bf rs) :
    Built (types.foldl (fun bf t => spa_pod_builder_add bf [.STRING t]) bf)
      (rs ++ types.map Pod.string) := by
  induction types generalizing bf rs with
  | nil => simpa using h
  | cons t types ih =>
    have h1 := built_add [.STRING t] bf rs h (by simp [isValue])
    have h2 := ih _ _ h1
    simpa [argsPods, argPods, List.append_assoc] using h2

theorem built_marshal_formats (formats : List spa_format) (bf : builder × spa_pod_frame)
    (rs : List Pod) (h : Built bf rs) :
    Built (marshal_formats bf formats formats.length)
      (rs ++ formats.map (fun f => Pod.object f.body)) := by
  simp only [marshal_formats, List.take_length]
  induction formats generalizing bf rs with
  | nil => simpa using h
  | cons f formats ih =>
    have h1 := built_add [.POD (some f)] bf rs h (by simp [isValue])
    have h2 := ih _ _ h1
    simpa [argsPods, argPods, List.append_assoc] using h2

theorem finalized_end_write (framer : List FramerCall) (bf : builder × spa_pod_frame)
    (rs : List Pod) (conn : Option pw_connection) (dest_id opcode : Nat) (h : Closed bf rs) :
    Finalized (pw_connection_end_write framer bf.1 conn dest_id opcode bf.1.offset)
      conn dest_id opcode (encodeStruct rs) := by
  unfold Finalized pw_connection_end_write
  rw [List.getLast?_append, h.1, h.2]
  simp

theorem body_le_encodeAll (rs : List Pod) (p : Pod) (hp : p ∈ rs) :
    p.body.length + 8 ≤ (encodeAll rs).length := by
  induction rs with
  | nil => simp at hp
  | cons r rs ih =>
    have hr := length_encode r
    have hge := round_up_4_ge r.body.length
    simp only [encodeAll, List.length_append]
    rcases List.mem_cons.mp hp with e | e
    · subst e; omega
    · have := ih e; omega

/-! ## Fixed-arity messages -/

theorem core_marshal_sync_finalized (context : pw_context) (conn : pw_connection)
    (proxy : pw_proxy) (seq : Nat) (hc : context.protocol_private = some conn) :
    Finalized (core_marshal_sync context proxy seq).framer (some conn) proxy.id
      PW_CORE_METHOD_SYNC (encodeStruct [Pod.int seq]) := by
  unfold core_marshal_sync
  simp only [hc]
  exact finalized_end_write _ _ _ _ _ _ (closed_struct (some conn) [.INT seq] (by simp [isValue]))

theorem core_demarshal_sync_encode (seq : Nat) (h : seq < 4294967296) :
    core_demarshal_sync (encodeStruct [Pod.int seq]) (encodeStruct [Pod.int seq]).length
      = ⟨true, [HandlerCall.core_methods_sync seq]⟩ := by
  unfold core_demarshal_sync
  rw [iter_struct_encodeStruct _ (by simp [encodeAll, length_encode, Pod.body, length_le32, SPA_ROUND_UP_N])]
  simp [get_int_itAt, h, demarshaled]

theorem get_string_ok (pre : List Nat) (s : CStr) (rs : List Pod) (post : List Nat)
    (h : cstr_ok s) :
    spa_pod_iter_get_string (itAt pre (Pod.string s :: rs) post)
      = some (s, itAt (pre ++ (Pod.string s).encode) rs post) :=
  get_string_itAt pre s rs post h.1 h.2

/-- A string record of a payload that fits 32 bits holds a string that fits. -/
theorem cstr_ok_of_mem (rs : List Pod) (s : CStr) (hfit : (encodeAll rs).length < 4294967296)
    (hmem : Pod.string s ∈ rs) (h0 : 0 ∉ s) : cstr_ok s := by
  have := body_le_encodeAll rs _ hmem
  simp only [Pod.body, List.length_append, List.length_singleton] at this
  exact ⟨h0, by omega⟩

theorem fit_of_struct (rs : List Pod) (h : (encodeStruct rs).length < 4294967296) :
    (encodeAll rs).length < 4294967296 := by
  simp only [encodeStruct, List.length_append, length_le32] at h
  omega

theorem fit_ints1 (a : Nat) : (encodeAll [Pod.int a]).length < 4294967296 := by
  simp [encodeAll, length_encode, Pod.body, length_le32, SPA_ROUND_UP_N]

theorem fit_ints3 (a b c : Nat) :
    (encodeAll [Pod.int a, Pod.int b, Pod.int c]).length < 4294967296 := by
  simp [encodeAll, length_encode, Pod.body, length_le32, SPA_ROUND_UP_N]

theorem core_marshal_get_registry_finalized (context : pw_context) (conn : pw_connection)
    (proxy : pw_proxy) (new_id : Nat) (hc : context.protocol_private = some conn) :
    Finalized (core_marshal_get_registry context proxy new_id).framer (some conn) proxy.id
      PW_CORE_METHOD_GET_REGISTRY (encodeStruct [Pod.int new_id]) := by
  unfold core_marshal_get_registry
  simp only [hc]
  exact finalized_end_write _ _ _ _ _ _
    (closed_struct (some conn) [.INT new_id] (by simp [isValue]))

theorem core_demarshal_get_registry_encode (new_id : Nat) (h : new_id < 4294967296) :
    core_demarshal_get_registry (encodeStruct [Pod.int new_id])
        (encodeStruct [Pod.int new_id]).length
      = ⟨true, [HandlerCall.core_methods_get_registry new_id]⟩ := by
  unfold core_demarshal_get_registry
  rw [iter_struct_encodeStruct _ (fit_ints1 _)]
  simp [get_int_itAt, h, demarshaled]

theorem registry_marshal_bind_finalized (context : pw_context) (conn : pw_connection)
    (proxy : pw_proxy) (id version new_id : Nat) (hc : context.protocol_private = some conn) :
    Finalized (registry_marshal_bind context proxy id version new_id).framer (some conn) proxy.id
      PW_REGISTRY_METHOD_BIND (encodeStruct [Pod.int id, Pod.int version, Pod.int new_id]) := by
  unfold registry_marshal_bind
  simp only [hc]
  exact finalized_end_write _ _ _ _ _ _
    (closed_struct (some conn) [.INT id, .INT version, .INT new_id] (by simp [isValue]))

theorem registry_demarshal_bind_encode (id version new_id : Nat) (h1 : id < 4294967296)
    (h2 : version < 4294967296) (h3 : new_id < 4294967296) :
    registry_demarshal_bind (encodeStruct [Pod.int id, Pod.int version, Pod.int new_id])
        (encodeStruct [Pod.int id, Pod.int version, Pod.int new_id]).length
      = ⟨true, [HandlerCall.registry_methods_bind id version new_id]⟩ := by
  unfold registry_demarshal_bind
  rw [iter_struct_encodeStruct _ (fit_ints3 _ _ _)]
  simp [get_int_itAt, h1, h2, h3, demarshaled]

theorem core_marshal_done_finalized (client : pw_client) (resource : pw_resource) (seq : Nat) :
    Finalized (core_marshal_done client resource seq).framer client.protocol_private resource.id
      PW_CORE_EVENT_DONE (encodeStruct [Pod.int seq]) := by
  unfold core_marshal_done
  exact finalized_end_write _ _ _ _ _ _ (closed_struct _ [.INT seq] (by simp [isValue]))

theorem core_demarshal_done_encode (seq : Nat) (h : seq < 4294967296) :
    core_demarshal_done (encodeStruct [Pod.int seq]) (encodeStruct [Pod.int seq]).length
      = ⟨true, [HandlerCall.core_events_done seq]⟩ := by
  unfold core_demarshal_done
  rw [iter_struct_encodeStruct _ (fit_ints1 _)]
  simp [get_int_itAt, h, demarshaled]

theorem core_marshal_remove_id_finalized (client : pw_client) (resource : pw_resource)
    (id : Nat) :
    Finalized (core_marshal_remove_id client resource id).framer client.protocol_private
      resource.id PW_CORE_EVENT_REMOVE_ID (encodeStruct [Pod.int id]) := by
  unfold core_marshal_remove_id
  exact finalized_end_write _ _ _ _ _ _ (closed_struct _ [.INT id] (by simp [isValue]))

theorem core_demarshal_remove_id_encode (id : Nat) (h : id < 4294967296) :
    core_demarshal_remove_id (encodeStruct [Pod.int id]) (encodeStruct [Pod.int id]).length
      = ⟨true, [HandlerCall.core_events_remove_id id]⟩ := by
  unfold core_demarshal_remove_id
  rw [iter_struct_encodeStruct _ (fit_ints1 _)]
  simp [get_int_itAt, h, demarshaled]

theorem registry_marshal_global_finalized (client : pw_client) (resource : pw_resource)
    (id : Nat) (type : CStr) (version : Nat) :
    Finalized (registry_marshal_global client resource id type version).framer
      client.protocol_private resource.id PW_REGISTRY_EVENT_GLOBAL
      (encodeStruct [Pod.int id, Pod.string type, Pod.int version]) := by
  unfold registry_marshal_global
  exact finalized_end_write _ _ _ _ _ _
    (closed_struct _ [.INT id, .STRING type, .INT version] (by simp [isValue]))

theorem registry_demarshal_global_encode (id : Nat) (type : CStr) (version : Nat)
    (h1 : id < 4294967296) (h2 : version < 4294967296) (h0 : 0 ∉ type)
    (hfit : (encodeStruct [Pod.int id, Pod.string type, Pod.int version]).length
      < 4294967296) :
    registry_demarshal_global (encodeStruct [Pod.int id, Pod.string type, Pod.int version])
        (encodeStruct [Pod.int id, Pod.string type, Pod.int version]).length
      = ⟨true, [HandlerCall.registry_events_global id type version]⟩ := by
  have hf := fit_of_struct _ hfit
  have hs : cstr_ok type := cstr_ok_of_mem _ type hf (by simp) h0
  unfold registry_demarshal_global
  rw [iter_struct_encodeStruct _ hf]
  simp [get_int_itAt, get_string_ok, hs, h1, h2, demarshaled]

theorem registry_marshal_global_remove_finalized (client : pw_client) (resource : pw_resource)
    (id : Nat) :
    Finalized (registry_marshal_global_remove client resource id).framer
      client.protocol_private resource.id PW_REGISTRY_EVENT_GLOBAL_REMOVE
      (encodeStruct [Pod.int id]) := by
  unfold registry_marshal_global_remove
  exact finalized_end_write _ _ _ _ _ _ (closed_struct _ [.INT id] (by simp [isValue]))

theorem registry_demarshal_global_remove_encode (id : Nat) (h : id < 4294967296) :
    registry_demarshal_global_remove (encodeStruct [Pod.int id])
        (encodeStruct [Pod.int id]).length
      = ⟨true, [HandlerCall.registry_events_global_remove id]⟩ := by
  unfold registry_demarshal_global_remove
  rw [iter_struct_encodeStruct _ (fit_ints1 _)]
  simp [get_int_itAt, h, demarshaled]

/-! ## C1 -/

/-- C1: for every message of fixed integer/string arity (core.sync, core.get_registry,
registry.bind, core.done, core.remove_id, registry.global, registry.global_remove)
and all 32-bit argument values and NUL-free strings that fit a record, the payload
the marshaler finalizes is the struct of the arguments' records, and the matching
demarshaler applied to it returns true and invokes the handler exactly once with the
caller's arguments. -/
theorem C1_fixed_arity_round_trip (context : pw_context) (conn : pw_connection)
    (proxy : pw_proxy) (client : pw_client) (resource : pw_resource)
    (seq new_id id version : Nat) (type : CStr)
    (hc : context.protocol_private = some conn)
    (hseq : seq < 4294967296) (hnew : new_id < 4294967296) (hid : id < 4294967296)
    (hver : version < 4294967296) (htype : 0 ∉ type)
    (hfit : (encodeStruct [Pod.int id, Pod.string type, Pod.int version]).length
      < 4294967296) :
    RoundTrip (core_marshal_sync context proxy seq).framer (some conn) proxy.id
      PW_CORE_METHOD_SYNC [Pod.int seq] core_demarshal_sync
      (HandlerCall.core_methods_sync seq) ∧
    RoundTrip (core_marshal_get_registry context proxy new_id).framer (some conn) proxy.id
      PW_CORE_METHOD_GET_REGISTRY [Pod.int new_id] core_demarshal_get_registry
      (HandlerCall.core_methods_get_registry new_id) ∧
    RoundTrip (registry_marshal_bind context proxy id version new_id).framer (some conn)
      proxy.id PW_REGISTRY_METHOD_BIND [Pod.int id, Pod.int version, Pod.int new_id]
      registry_demarshal_bind (HandlerCall.registry_methods_bind id version new_id) ∧
    RoundTrip (core_marshal_done client resource seq).framer client.protocol_private
      resource.id PW_CORE_EVENT_DONE [Pod.int seq] core_demarshal_done
      (HandlerCall.core_events_done seq) ∧
    RoundTrip (core_marshal_remove_id client resource id).framer client.protocol_private
      resource.id PW_CORE_EVENT_REMOVE_ID [Pod.int id] core_demarshal_remove_id
      (HandlerCall.core_events_remove_id id) ∧
    RoundTrip (registry_marshal_global client resource id type version).framer
      client.protocol_private resource.id PW_REGISTRY_EVENT_GLOBAL
      [Pod.int id, Pod.string type, Pod.int version] registry_demarshal_global
      (HandlerCall.registry_events_global id type version) ∧
    RoundTrip (registry_marshal_global_remove client resource id).framer
      client.protocol_private resource.id PW_REGISTRY_EVENT_GLOBAL_REMOVE [Pod.int id]
      registry_demarshal_global_remove (HandlerCall.registry_events_global_remove id) :=
  ⟨⟨core_marshal_sync_finalized context conn proxy seq hc, core_demarshal_sync_encode seq hseq⟩,
   ⟨core_marshal_get_registry_finalized context conn proxy new_id hc,
    core_demarshal_get_registry_encode new_id hnew⟩,
   ⟨registry_marshal_bind_finalized context conn proxy id version new_id hc,
    registry_demarshal_bind_encode id version new_id hid hver hnew⟩,
   ⟨core_marshal_done_finalized client resource seq, core_demarshal_done_encode seq hseq⟩,
   ⟨core_marshal_remove_id_finalized client resource id, core_demarshal_remove_id_encode id hid⟩,
   ⟨registry_marshal_global_finalized client resource id type version,
    registry_demarshal_global_encode id type version hid hver htype hfit⟩,
   ⟨registry_marshal_global_remove_finalized client resource id,
    registry_demarshal_global_remove_encode id hid⟩⟩

/-- C1 at bind(5, 0, 12), sync(7) and global(5, "a", 0): the server's bind handler
sees (5, 0, 12). -/
theorem C1_fixed_arity_round_trip_witness :
    (context_example.protocol_private = some ⟨3⟩ ∧ 7 < 4294967296 ∧ 12 < 4294967296 ∧
      5 < 4294967296 ∧ 0 < 4294967296 ∧ 0 ∉ ([97] : CStr) ∧
      (encodeStruct [Pod.int 5, Pod.string [97], Pod.int 0]).length < 4294967296) ∧
    RoundTrip (registry_marshal_bind context_example ⟨1⟩ 5 0 12).framer (some ⟨3⟩) 1
      PW_REGISTRY_METHOD_BIND [Pod.int 5, Pod.int 0, Pod.int 12] registry_demarshal_bind
      (HandlerCall.registry_methods_bind 5 0 12) :=
  ⟨⟨rfl, by decide, by decide, by decide, by decide, by decide, by decide⟩,
   (C1_fixed_arity_round_trip context_example ⟨3⟩ ⟨1⟩ client_example ⟨2⟩ 7 12 5 0 [97] rfl
      (by decide) (by decide) (by decide) (by decide) (by decide) (by decide)).2.2.1⟩

/-! ## Messages that carry a property dictionary -/

theorem closed_end (bf : builder × spa_pod_frame) (rs : List Pod) (h : Built bf rs) :
    Closed (spa_pod_builder_add bf [BuilderArg.END_STRUCT]) rs := by
  have := closed_add [] bf rs h (by simp)
  simpa [argsPods] using this

theorem built_marshal_props (props : Option spa_dict) (bf : builder × spa_pod_frame)
    (rs : List Pod) (h : Built bf rs) (hn : props_wf props) :
    Built (marshal_dict_items bf props (props_n_items props))
      (rs ++ dictPods (props_items props)) := by
  cases props with
  | none => simpa [marshal_dict_items, props_items, dictPods] using h
  | some d => exact built_marshal_dict_items d bf rs h (hn d rfl)

theorem core_marshal_create_link_finalized (context : pw_context) (conn : pw_connection)
    (proxy : pw_proxy) (output_node_id output_port_id input_node_id input_port_id : Nat)
    (filter : Option spa_format) (props : Option spa_dict) (new_id : Nat)
    (hc : context.protocol_private = some conn) (hn : props_wf props) :
    Finalized (core_marshal_create_link context proxy output_node_id output_port_id
        input_node_id input_port_id filter props new_id).framer
      (some conn) proxy.id PW_CORE_METHOD_CREATE_LINK
      (encodeStruct (create_link_pods output_node_id output_port_id input_node_id
        input_port_id filter props new_id)) := by
  unfold core_marshal_create_link
  simp only [hc]
  cases filter with
  | none =>
    exact finalized_end_write _ _ _ _ _ _ (closed_add [.INT new_id] _ _
      (built_marshal_props props _ _
        (built_open_add (some conn)
          [.INT output_node_id, .INT output_port_id, .INT input_node_id, .INT input_port_id,
           .POD none, .INT (props_n_items props)]
          (by simp [isValue])) hn) (by simp [isValue]))
  | some f =>
    exact finalized_end_write _ _ _ _ _ _ (closed_add [.INT new_id] _ _
      (built_marshal_props props _ _
        (built_open_add (some conn)
          [.INT output_node_id, .INT output_port_id, .INT input_node_id, .INT input_port_id,
           .POD (some f), .INT (props_n_items props)]
          (by simp [isValue])) hn) (by simp [isValue]))

/-- C4: for every core.create_link call with an absent (NULL) filter, the payload is
the struct of exactly the records Int32 out_node, Int32 out_port, Int32 in_node,
Int32 in_port, Int32 n_items, the (key, value) strings and Int32 new_id: no record of
any kind is written between the in_port record and the property-count record. -/
theorem C4_create_link_absent_filter (context : pw_context) (conn : pw_connection)
    (proxy : pw_proxy) (output_node_id output_port_id input_node_id input_port_id : Nat)
    (props : Option spa_dict) (new_id : Nat)
    (hc : context.protocol_private = some conn) (hp : props_wf props) :
    Finalized (core_marshal_create_link context proxy output_node_id output_port_id
        input_node_id input_port_id none props new_id).framer
      (some conn) proxy.id PW_CORE_METHOD_CREATE_LINK
      (encodeStruct ([Pod.int output_node_id, Pod.int output_port_id, Pod.int input_node_id,
        Pod.int input_port_id, Pod.int (props_n_items props)] ++ dictPods (props_items props)
        ++ [Pod.int new_id])) :=
  core_marshal_create_link_finalized context conn proxy output_node_id output_port_id
    input_node_id input_port_id none props new_id hc hp

/-- C4 at create_link(3, 0, 4, 1, filter absent, props {}, new_id 20): the payload is
the struct of Int32(3), Int32(0), Int32(4), Int32(1), Int32(0), Int32(20). -/
theorem C4_create_link_absent_filter_witness :
    (context_example.protocol_private = some ⟨3⟩ ∧ props_wf (some dict_empty)) ∧
    Finalized (core_marshal_create_link context_example ⟨0⟩ 3 0 4 1 none (some dict_empty)
        20).framer
      (some ⟨3⟩) 0 PW_CORE_METHOD_CREATE_LINK
      (encodeStruct [Pod.int 3, Pod.int 0, Pod.int 4, Pod.int 1, Pod.int 0, Pod.int 20]) :=
  ⟨⟨rfl, fun _ h => by cases h; rfl⟩,
   C4_create_link_absent_filter context_example ⟨3⟩ ⟨0⟩ 3 0 4 1 (some dict_empty) 20 rfl
     (fun _ h => by cases h; rfl)⟩

theorem link_marshal_info_finalized (client : pw_client) (resource : pw_resource)
    (info : pw_link_info) :
    Finalized (link_marshal_info client resource info).framer client.protocol_private
      resource.id PW_LINK_EVENT_INFO (encodeStruct (link_info_pods info)) := by
  unfold link_marshal_info
  obtain ⟨id, mask, a, b, c, d, format⟩ := info
  cases format with
  | none =>
    exact finalized_end_write _ _ _ _ _ _ (closed_struct _
      [.INT id, .LONG mask, .INT a, .INT b, .INT c, .INT d, .POD none] (by simp [isValue]))
  | some f =>
    exact finalized_end_write _ _ _ _ _ _ (closed_struct _
      [.INT id, .LONG mask, .INT a, .INT b, .INT c, .INT d, .POD (some f)]
      (by simp [isValue]))

theorem link_demarshal_info_encode (info : pw_link_info) (hi : info.wf)
    (hfit : fits (link_info_pods info)) :
    link_demarshal_info remap_identity (encodeStruct (link_info_pods info))
        (encodeStruct (link_info_pods info)).length
      = ⟨true, [HandlerCall.link_events_info info]⟩ := by
  obtain ⟨id, mask, a, b, c, d, format⟩ := info
  obtain ⟨h1, h2, h3, h4, h5, h6⟩ := hi
  simp only at h1 h2 h3 h4 h5 h6
  have hf := fit_of_struct _ hfit
  unfold link_demarshal_info
  rw [iter_struct_encodeStruct _ hf]
  cases format with
  | none =>
    simp [remap_identity, itAt_rebase, link_info_pods, formatPods, get_int_itAt, get_long_itAt,
      get_opt_object_itAt_nil, h1, h2, h3, h4, h5, h6, demarshaled]
  | some f =>
    have hfl : f.body.length < 4294967296 := by
      have := body_le_encodeAll _ (Pod.object f.body)
        (by simp [link_info_pods, formatPods]) |>.trans_lt hf
      simp only [Pod.body] at this
      omega
    simp [remap_identity, itAt_rebase, link_info_pods, formatPods, get_int_itAt, get_long_itAt,
      get_opt_object_itAt, hfl, h1, h2, h3, h4, h5, h6, demarshaled]

/-! ## C6, C7 -/

/-- C7: for every well-formed link info whose payload fits the 32-bit length fields,
link_demarshal_info (with an identity id remap) applied to the payload written by
link_marshal_info returns true and invokes the info handler once with equal id,
change_mask, out_node, out_port, in_node, in_port and format; when the format is
absent the handler sees an absent format. -/
theorem C7_link_info_round_trip (client : pw_client) (resource : pw_resource)
    (info : pw_link_info) (hi : info.wf) (hfit : fits (link_info_pods info)) :
    RoundTrip (link_marshal_info client resource info).framer client.protocol_private
      resource.id PW_LINK_EVENT_INFO (link_info_pods info)
      (link_demarshal_info remap_identity) (HandlerCall.link_events_info info) :=
  ⟨link_marshal_info_finalized client resource info, link_demarshal_info_encode info hi hfit⟩

/-- C7 at a link info whose format is absent: the payload holds six records and the
handler sees the absent format. -/
theorem C7_link_info_round_trip_witness :
    (link_info_example.wf ∧ fits (link_info_pods link_info_example)) ∧
    link_info_example.format = none ∧
    link_info_pods link_info_example
      = [Pod.int 6, Pod.long 1, Pod.int 3, Pod.int 0, Pod.int 4, Pod.int 1] ∧
    RoundTrip (link_marshal_info client_example ⟨8⟩ link_info_example).framer
      client_example.protocol_private 8 PW_LINK_EVENT_INFO (link_info_pods link_info_example)
      (link_demarshal_info remap_identity) (HandlerCall.link_events_info link_info_example) :=
  ⟨⟨by unfold pw_link_info.wf; decide, by unfold fits; decide⟩, rfl, rfl,
   C7_link_info_round_trip client_example ⟨8⟩ link_info_example
     (by unfold pw_link_info.wf; decide) (by unfold fits; decide)⟩

/-! ## update_types and error -/

theorem ofInt32_lt (v : Int) : ofInt32 v < 4294967296 := by
  unfold ofInt32
  omega

theorem toInt32_ofInt32 (v : Int) (h1 : -2147483648 ≤ v) (h2 : v < 2147483648) :
    toInt32 (ofInt32 v) = v := by
  unfold toInt32 ofInt32
  split <;> omega

theorem vsnprintf_short (error : CStr) (h : error.length < 128) : vsnprintf 128 error = error := by
  unfold vsnprintf
  exact List.take_of_length_le (by omega)

theorem core_marshal_error_finalized (client : pw_client) (resource : pw_resource) (id : Nat)
    (res : Int) (error : CStr) :
    Finalized (core_marshal_error client resource id res error).framer client.protocol_private
      resource.id PW_CORE_EVENT_ERROR (encodeStruct (error_pods id res error)) := by
  unfold core_marshal_error
  exact finalized_end_write _ _ _ _ _ _ (closed_struct _
    [.INT id, .INT (ofInt32 res), .STRING (vsnprintf 128 error)] (by simp [isValue]))

theorem core_demarshal_error_encode (id : Nat) (res : Int) (error : CStr)
    (hid : id < 4294967296) (h1 : -2147483648 ≤ res) (h2 : res < 2147483648)
    (h0 : 0 ∉ error) (hlen : error.length < 128) :
    core_demarshal_error (encodeStruct (error_pods id res error))
        (encodeStruct (error_pods id res error)).length
      = ⟨true, [HandlerCall.core_events_error id res error]⟩ := by
  have hs : cstr_ok error := ⟨h0, by omega⟩
  have hf : (encodeAll (error_pods id res error)).length < 4294967296 := by
    have := round_up_4_lt (error.length + 1)
    simp only [error_pods, vsnprintf_short error hlen, encodeAll, List.length_append,
      length_encode, Pod.body, length_le32, List.length_singleton, List.length_nil]
    have e4 : SPA_ROUND_UP_N 4 4 = 4 := by decide
    omega
  unfold core_demarshal_error
  rw [iter_struct_encodeStruct _ hf]
  simp [error_pods, vsnprintf_short error hlen, get_int_itAt, get_string_ok, hs, hid,
    ofInt32_lt, toInt32_ofInt32 res h1 h2, demarshaled]

/-! ## C8, C9 -/

/-- C9: for every 32-bit id, every C `int` res (negative values included) and every
pre-formatted NUL-free message shorter than 128 bytes, core_demarshal_error applied to
the payload written by core_marshal_error returns true and the error handler
receives exactly the same id, res and message. -/
theorem C9_error_round_trip (client : pw_client) (resource : pw_resource) (id : Nat)
    (res : Int) (error : CStr) (hid : id < 4294967296) (hlo : -2147483648 ≤ res)
    (hhi : res < 2147483648) (h0 : 0 ∉ error) (hlen : error.length < 128) :
    RoundTrip (core_marshal_error client resource id res error).framer
      client.protocol_private resource.id PW_CORE_EVENT_ERROR (error_pods id res error)
      core_demarshal_error (HandlerCall.core_events_error id res error) :=
  ⟨core_marshal_error_finalized client resource id res error,
   core_demarshal_error_encode id res error hid hlo hhi h0 hlen⟩

/-- C9 at core.error(id = 12, res = -22, message = "invalid argument"). -/
theorem C9_error_round_trip_witness :
    ((12 : Nat) < 4294967296 ∧ (-2147483648 : Int) ≤ -22 ∧ (-22 : Int) < 2147483648 ∧
      0 ∉ str_invalid_argument ∧ str_invalid_argument.length < 128) ∧
    RoundTrip (core_marshal_error client_example ⟨0⟩ 12 (-22) str_invalid_argument).framer
      client_example.protocol_private 0 PW_CORE_EVENT_ERROR
      (error_pods 12 (-22) str_invalid_argument)
      core_demarshal_error (HandlerCall.core_events_error 12 (-22) str_invalid_argument) :=
  ⟨⟨by decide, by decide, by decide, by decide, by decide⟩,
   C9_error_round_trip client_example ⟨0⟩ 12 (-22) str_invalid_argument (by decide)
     (by decide) (by decide) (by decide) (by decide)⟩

/-! ## C10 -/

theorem finalized_append (xs ys : List FramerCall) :
    finalized (xs ++ ys) = finalized xs ++ finalized ys := by
  induction xs with
  | nil => rfl
  | cons c xs ih => cases c <;> simp [finalized, ih]

theorem core_update_map_client_up_to_date (context : pw_context)
    (h : spa_type_map_get_size context.type_map = context.n_types) :
    core_update_map_client context = context := by
  unfold core_update_map_client
  simp [h]

theorem sync_payload_length (seq : Nat) : (encodeStruct [Pod.int seq]).length = 20 := by
  simp [encodeStruct, encodeAll, length_encode, Pod.body, length_le32, SPA_ROUND_UP_N]

theorem sync_builder_calls (c : Option pw_connection) (seq : Nat) :
    (spa_pod_builder_struct (builder_init c) [.INT seq]).1.calls
      = [FramerCall.begin_write c 4096] := by
  simp [spa_pod_builder_struct, spa_pod_builder_add, spa_pod_builder_add1, spa_pod_builder_raw,
    write_pod, builder_init, length_encode, Pod.body, length_le32, SPA_ROUND_UP_N,
    SPA_POD_TYPE_STRUCT, pw_connection_begin_write]

/-- The framer calls of core.sync with an up-to-date type map: the region is requested
once and one message is finalized. -/
theorem core_marshal_sync_framer (context : pw_context) (conn : pw_connection)
    (proxy : pw_proxy) (seq : Nat) (hc : context.protocol_private = some conn)
    (hup : spa_type_map_get_size context.type_map = context.n_types) :
    (core_marshal_sync context proxy seq).framer
      = context.framer ++ [FramerCall.begin_write (some conn) 4096,
          FramerCall.end_write (some conn) proxy.id PW_CORE_METHOD_SYNC 20
            (encodeStruct [Pod.int seq])] := by
  have hclosed := closed_struct (some conn) [.INT seq] (by simp [isValue])
  have hcalls := sync_builder_calls (some conn) seq
  have hlen := sync_payload_length seq
  unfold core_marshal_sync
  simp only [hc, core_update_map_client_up_to_date context hup, pw_connection_end_write]
  rw [hcalls, hclosed.2, hclosed.1]
  simp [argsPods, argPods, hlen]

/-- C10, as stated, fails: core.sync(seq = 7) on the core proxy (id 0) with an
up-to-date type map does not finalize a message of payload length 16. -/
theorem C10_sync_size_16_counterexample :
    ¬ ∃ payload, finalized (core_marshal_sync context_example ⟨0⟩ 7).framer
        = [⟨some ⟨3⟩, 0, 1, 16, payload⟩] := by
  rintro ⟨payload, h⟩
  rw [core_marshal_sync_framer context_example ⟨3⟩ ⟨0⟩ 7 rfl rfl] at h
  simp [finalized, context_example] at h

/-- C10, amended: core.sync(seq) on a proxy with a live connection and an up-to-date
type map finalizes exactly one message; its header is target_id = the proxy's id,
opcode = 1 and payload length = 20 (the 8-byte struct header, the 8-byte header of the
Int32 record and its 4-byte value), and its payload is the struct of the one record
Int32(seq). -/
theorem C10_sync_message (context : pw_context) (conn : pw_connection) (proxy : pw_proxy)
    (seq : Nat) (hc : context.protocol_private = some conn)
    (hup : spa_type_map_get_size context.type_map = context.n_types) :
    finalized (core_marshal_sync context proxy seq).framer
      = finalized context.framer ++ [⟨some conn, proxy.id, 1, 20, encodeStruct [Pod.int seq]⟩] ∧
    (encodeStruct [Pod.int seq]).length = 20 := by
  rw [core_marshal_sync_framer context conn proxy seq hc hup, finalized_append]
  exact ⟨by simp [finalized, PW_CORE_METHOD_SYNC], sync_payload_length seq⟩

/-- C10, amended, at core.sync(seq = 7) on the core proxy (id 0) of a fresh up-to-date
context: exactly one message, header (0, 1, 20), payload the struct of Int32(7). -/
theorem C10_sync_message_witness :
    (context_example.protocol_private = some ⟨3⟩ ∧
      spa_type_map_get_size context_example.type_map = context_example.n_types) ∧
    finalized (core_marshal_sync context_example ⟨0⟩ 7).framer
      = [⟨some ⟨3⟩, 0, 1, 20, encodeStruct [Pod.int 7]⟩] :=
  ⟨⟨rfl, rfl⟩, (C10_sync_message context_example ⟨3⟩ ⟨0⟩ 7 rfl rfl).1⟩

/-! ## The type-map update and the messages a marshaler finalizes -/

theorem finalized_calls_write_pod (b : builder) (ref : Nat) (data : List Nat) (size : Nat) :
    finalized (write_pod b ref data size).1.calls = finalized b.calls := by
  unfold write_pod
  by_cases h : b.size ≤ b.offset
  · simp [h, finalized_append, finalized]
  · simp [h]

theorem finalized_calls_raw (b : builder) (data : List Nat) :
    finalized (spa_pod_builder_raw b data).calls = finalized b.calls := by
  show finalized (write_pod b 4294967295 data data.length).1.calls = _
  exact finalized_calls_write_pod b _ _ _

theorem finalized_calls_add1 (bf : builder × spa_pod_frame) (a : BuilderArg) :
    finalized (spa_pod_builder_add1 bf a).1.calls = finalized bf.1.calls := by
  cases a with
  | POD p => cases p <;> simp [spa_pod_builder_add1, finalized_calls_raw]
  | END_STRUCT => simp [spa_pod_builder_add1, finalized_calls_write_pod]
  | _ => simp [spa_pod_builder_add1, finalized_calls_raw]

theorem finalized_calls_add (args : List BuilderArg) (bf : builder × spa_pod_frame) :
    finalized (spa_pod_builder_add bf args).1.calls = finalized bf.1.calls := by
  induction args generalizing bf with
  | nil => rfl
  | cons a args ih =>
    have := ih (spa_pod_builder_add1 bf a)
    simp only [spa_pod_builder_add, List.foldl_cons] at this ⊢
    rw [this, finalized_calls_add1]

theorem finalized_calls_struct (args : List BuilderArg) (bf : builder × spa_pod_frame) :
    finalized (spa_pod_builder_struct bf args).1.calls = finalized bf.1.calls :=
  finalized_calls_add _ bf

theorem finalized_calls_foldl {α : Type} (f : builder × spa_pod_frame → α → builder × spa_pod_frame)
    (hf : ∀ bf a, finalized (f bf a).1.calls = finalized bf.1.calls)
    (xs : List α) (bf : builder × spa_pod_frame) :
    finalized (xs.foldl f bf).1.calls = finalized bf.1.calls := by
  induction xs generalizing bf with
  | nil => rfl
  | cons x xs ih => rw [List.foldl_cons, ih, hf]

theorem finalized_calls_dict_items (bf : builder × spa_pod_frame) (props : Option spa_dict)
    (n : Nat) : finalized (marshal_dict_items bf props n).1.calls = finalized bf.1.calls := by
  cases props with
  | none => rfl
  | some d =>
    exact finalized_calls_foldl _ (fun bf _ => finalized_calls_add _ bf) _ bf

theorem finalized_calls_formats (bf : builder × spa_pod_frame) (formats : List spa_format)
    (n : Nat) : finalized (marshal_formats bf formats n).1.calls = finalized bf.1.calls :=
  finalized_calls_foldl _ (fun bf _ => finalized_calls_add _ bf) _ bf

theorem finalized_calls_types (bf : builder × spa_pod_frame) (types : List CStr) :
    finalized (types.foldl (fun bf t => spa_pod_builder_add bf [.STRING t]) bf).1.calls
      = finalized bf.1.calls :=
  finalized_calls_foldl _ (fun bf _ => finalized_calls_add _ bf) _ bf

theorem finalized_calls_init (c : Option pw_connection) :
    finalized (builder_init c).1.calls = [] := rfl

/-- The messages after `pw_connection_end_write`: the ones before and the new one. -/
theorem finalized_end_write_msg (framer : List FramerCall) (b : builder)
    (c : Option pw_connection) (dest_id opcode size : Nat) (hq : finalized b.calls = []) :
    finalized (pw_connection_end_write framer b c dest_id opcode size)
      = finalized framer ++ [⟨c, dest_id, opcode, size, b.data.take size⟩] := by
  simp [pw_connection_end_write, finalized_append, hq, finalized]


theorem range_map_getD (map : List CStr) (h : Nat) (hle : h ≤ map.length) :
    (List.range (map.length - h)).map (fun i => spa_type_map_get_type map (h + i))
      = map.drop h := by
  apply List.ext_getElem
  · simp
  · intro i h1 h2
    simp only [List.length_map, List.length_range] at h1
    simp [spa_type_map_get_type, List.getD_eq_getElem?_getD, List.getElem?_eq_getElem (show h + i < map.length by omega)]

theorem finalized_end_write_closed (framer : List FramerCall) (bf : builder × spa_pod_frame)
    (rs : List Pod) (c : Option pw_connection) (dest_id opcode : Nat) (h : Closed bf rs)
    (hq : finalized bf.1.calls = []) :
    finalized (pw_connection_end_write framer bf.1 c dest_id opcode bf.1.offset)
      = finalized framer
        ++ [⟨c, dest_id, opcode, (encodeStruct rs).length, encodeStruct rs⟩] := by
  rw [finalized_end_write_msg _ _ _ _ _ _ hq, h.2, h.1]
  simp

/-- The update_types method finalizes exactly one message and touches nothing else. -/
theorem update_types_client_messages (context : pw_context) (conn : pw_connection)
    (proxy : pw_proxy) (first_id n_types : Nat) (types : List CStr)
    (hc : context.protocol_private = some conn) :
    ∃ size payload,
      core_marshal_update_types_client context proxy first_id n_types types
        = { context with framer := (core_marshal_update_types_client context proxy first_id
              n_types types).framer } ∧
      finalized (core_marshal_update_types_client context proxy first_id n_types types).framer
        = finalized context.framer
          ++ [⟨some conn, proxy.id, PW_CORE_METHOD_UPDATE_TYPES, size, payload⟩] := by
  unfold core_marshal_update_types_client
  simp only [hc]
  exact ⟨_, _, trivial, finalized_end_write_msg _ _ _ _ _ _
    (by simp [finalized_calls_add, finalized_calls_types, finalized_calls_init])⟩

theorem update_types_client_payload (context : pw_context) (conn : pw_connection)
    (proxy : pw_proxy) (first_id n_types : Nat) (types : List CStr)
    (hc : context.protocol_private = some conn) (hn : n_types = types.length) :
    finalized (core_marshal_update_types_client context proxy first_id n_types types).framer
      = finalized context.framer
        ++ [⟨some conn, proxy.id, PW_CORE_METHOD_UPDATE_TYPES,
            (encodeStruct (update_types_pods first_id n_types types)).length,
            encodeStruct (update_types_pods first_id n_types types)⟩] := by
  unfold core_marshal_update_types_client
  simp only [hc, hn, List.take_length]
  exact finalized_end_write_closed _ _ _ _ _ _ (closed_end _ _ (built_types types _ _
    (built_open_add (some conn) [.INT first_id, .INT types.length] (by simp [isValue]))))
    (by simp [finalized_calls_add, finalized_calls_types, finalized_calls_init])

theorem update_types_client_fields (context : pw_context) (proxy : pw_proxy)
    (first_id n_types : Nat) (types : List CStr) :
    (core_marshal_update_types_client context proxy first_id n_types types).n_types
      = context.n_types ∧
    (core_marshal_update_types_client context proxy first_id n_types types).type_map
      = context.type_map ∧
    (core_marshal_update_types_client context proxy first_id n_types types).protocol_private
      = context.protocol_private ∧
    (core_marshal_update_types_client context proxy first_id n_types types).core_proxy
      = context.core_proxy := by
  unfold core_marshal_update_types_client
  rcases h : context.protocol_private with _ | c <;> simp [h]

theorem core_update_map_client_behind (context : pw_context)
    (hlt : context.n_types < spa_type_map_get_size context.type_map)
    (h32 : spa_type_map_get_size context.type_map < 4294967296) :
    core_update_map_client context
      = { core_marshal_update_types_client context context.core_proxy context.n_types
            (spa_type_map_get_size context.type_map - context.n_types)
            (context.type_map.drop context.n_types) with
          n_types := spa_type_map_get_size context.type_map } := by
  unfold core_update_map_client
  unfold spa_type_map_get_size at hlt h32 ⊢
  have hd : (context.type_map.length + 4294967296 - context.n_types) % 4294967296
      = context.type_map.length - context.n_types := by omega
  have hne : context.type_map.length - context.n_types ≠ 0 := by omega
  simp only [hd, if_neg hne, range_map_getD context.type_map context.n_types (by omega)]
  rw [(update_types_client_fields _ _ _ _ _).1]
  congr 1
  omega

/-- What `core_update_map_client` does when the type map is ahead of the mark. -/
theorem core_update_map_client_messages (context : pw_context) (conn : pw_connection)
    (hc : context.protocol_private = some conn)
    (hlt : context.n_types < spa_type_map_get_size context.type_map)
    (h32 : spa_type_map_get_size context.type_map < 4294967296) :
    finalized (core_update_map_client context).framer
      = finalized context.framer
        ++ [⟨some conn, context.core_proxy.id, PW_CORE_METHOD_UPDATE_TYPES,
            (encodeStruct (missing_types_pods context.n_types context.type_map)).length,
            encodeStruct (missing_types_pods context.n_types context.type_map)⟩] := by
  rw [core_update_map_client_behind context hlt h32]
  exact update_types_client_payload context conn _ _ _ _ hc
    (by unfold spa_type_map_get_size; simp)

theorem core_update_map_client_fields (context : pw_context) :
    (core_update_map_client context).type_map = context.type_map ∧
    (core_update_map_client context).protocol_private = context.protocol_private ∧
    (core_update_map_client context).core_proxy = context.core_proxy := by
  unfold core_update_map_client
  have h := update_types_client_fields context context.core_proxy context.n_types
  by_cases hd : (spa_type_map_get_size context.type_map + 4294967296 - context.n_types)
      % 4294967296 = 0
  · simp [hd]
  · simp [hd, (h _ _).2]

theorem core_update_map_client_n_types (context : pw_context)
    (hn : context.n_types < 4294967296)
    (h32 : spa_type_map_get_size context.type_map < 4294967296) :
    (core_update_map_client context).n_types = spa_type_map_get_size context.type_map := by
  unfold core_update_map_client
  have h := update_types_client_fields context context.core_proxy context.n_types
  by_cases hd : (spa_type_map_get_size context.type_map + 4294967296 - context.n_types)
      % 4294967296 = 0
  · simp only [hd, if_true]
    omega
  · simp only [hd, if_false, (h _ _).1]
    omega

/-- Every method marshaler other than update_types, on a live connection: it brings
the type map up to date and then finalizes one message of its own. -/
theorem marshal_method_shape (context : pw_context) (conn : pw_connection) (proxy : pw_proxy)
    (m : Method) (hc : context.protocol_private = some conn)
    (hm : m.is_update_types = false) :
    ∃ size payload,
      marshal_method context proxy m
        = { core_update_map_client context with
            framer := (marshal_method context proxy m).framer } ∧
      finalized (marshal_method context proxy m).framer
        = finalized (core_update_map_client context).framer
          ++ [⟨some conn, proxy.id, m.opcode, size, payload⟩] := by
  cases m with
  | core_update_types first_id n_types types => simp [Method.is_update_types] at hm
  | core_sync seq =>
    simp only [marshal_method, core_marshal_sync, hc, Method.opcode]
    exact ⟨_, _, trivial, finalized_end_write_msg _ _ _ _ _ _
      (by simp [finalized_calls_struct, finalized_calls_init])⟩
  | core_get_registry new_id =>
    simp only [marshal_method, core_marshal_get_registry, hc, Method.opcode]
    exact ⟨_, _, trivial, finalized_end_write_msg _ _ _ _ _ _
      (by simp [finalized_calls_struct, finalized_calls_init])⟩
  | core_client_update props =>
    simp only [marshal_method, core_marshal_client_update, hc, Method.opcode]
    exact ⟨_, _, trivial, finalized_end_write_msg _ _ _ _ _ _
      (by simp [finalized_calls_add, finalized_calls_dict_items, finalized_calls_init])⟩
  | core_create_node factory_name name props new_id =>
    simp only [marshal_method, core_marshal_create_node, hc, Method.opcode]
    exact ⟨_, _, trivial, finalized_end_write_msg _ _ _ _ _ _
      (by simp [finalized_calls_add, finalized_calls_dict_items, finalized_calls_init])⟩
  | core_create_link a b c d filter props new_id =>
    simp only [marshal_method, core_marshal_create_link, hc, Method.opcode]
    exact ⟨_, _, trivial, finalized_end_write_msg _ _ _ _ _ _
      (by simp [finalized_calls_add, finalized_calls_dict_items, finalized_calls_init])⟩
  | registry_bind id version new_id =>
    simp only [marshal_method, registry_marshal_bind, hc, Method.opcode]
    exact ⟨_, _, trivial, finalized_end_write_msg _ _ _ _ _ _
      (by simp [finalized_calls_struct, finalized_calls_init])⟩

theorem update_types_server_messages (client : pw_client) (resource : pw_resource)
    (first_id n_types : Nat) (types : List CStr) :
    ∃ size payload,
      core_marshal_update_types_server client resource first_id n_types types
        = { client with framer := (core_marshal_update_types_server client resource first_id
              n_types types).framer } ∧
      finalized (core_marshal_update_types_server client resource first_id n_types types).framer
        = finalized client.framer
          ++ [⟨client.protocol_private, resource.id, PW_CORE_EVENT_UPDATE_TYPES, size,
              payload⟩] := by
  unfold core_marshal_update_types_server
  exact ⟨_, _, rfl, finalized_end_write_msg _ _ _ _ _ _
    (by simp [finalized_calls_add, finalized_calls_types, finalized_calls_init])⟩

theorem update_types_server_payload (client : pw_client) (resource : pw_resource)
    (first_id n_types : Nat) (types : List CStr) (hn : n_types = types.length) :
    finalized (core_marshal_update_types_server client resource first_id n_types types).framer
      = finalized client.framer
        ++ [⟨client.protocol_private, resource.id, PW_CORE_EVENT_UPDATE_TYPES,
            (encodeStruct (update_types_pods first_id n_types types)).length,
            encodeStruct (update_types_pods first_id n_types types)⟩] := by
  unfold core_marshal_update_types_server
  simp only [hn, List.take_length]
  exact finalized_end_write_closed _ _ _ _ _ _ (closed_end _ _ (built_types types _ _
    (built_open_add _ [.INT first_id, .INT types.length] (by simp [isValue]))))
    (by simp [finalized_calls_add, finalized_calls_types, finalized_calls_init])

theorem update_types_server_fields (client : pw_client) (resource : pw_resource)
    (first_id n_types : Nat) (types : List CStr) :
    (core_marshal_update_types_server client resource first_id n_types types).n_types
      = client.n_types ∧
    (core_marshal_update_types_server client resource first_id n_types types).core
      = client.core ∧
    (core_marshal_update_types_server client resource first_id n_types types).protocol_private
      = client.protocol_private ∧
    (core_marshal_update_types_server client resource first_id n_types types).core_resource
      = client.core_resource := by
  unfold core_marshal_update_types_server
  simp

theorem core_update_map_server_up_to_date (client : pw_client)
    (h : spa_type_map_get_size client.core.type_map = client.n_types) :
    core_update_map_server client = client := by
  unfold core_update_map_server
  simp [h]

theorem core_update_map_server_behind (client : pw_client)
    (hlt : client.n_types < spa_type_map_get_size client.core.type_map)
    (h32 : spa_type_map_get_size client.core.type_map < 4294967296) :
    core_update_map_server client
      = { core_marshal_update_types_server client client.core_resource client.n_types
            (spa_type_map_get_size client.core.type_map - client.n_types)
            (client.core.type_map.drop client.n_types) with
          n_types := spa_type_map_get_size client.core.type_map } := by
  unfold core_update_map_server
  unfold spa_type_map_get_size at hlt h32 ⊢
  have hd : (client.core.type_map.length + 4294967296 - client.n_types) % 4294967296
      = client.core.type_map.length - client.n_types := by omega
  have hne : client.core.type_map.length - client.n_types ≠ 0 := by omega
  simp only [hd, if_neg hne, range_map_getD client.core.type_map client.n_types (by omega)]
  rw [(update_types_server_fields _ _ _ _ _).1]
  congr 1
  omega

/-- What `core_update_map_server` does when the type map is ahead of the mark. -/
theorem core_update_map_server_messages (client : pw_client)
    (hlt : client.n_types < spa_type_map_get_size client.core.type_map)
    (h32 : spa_type_map_get_size client.core.type_map < 4294967296) :
    finalized (core_update_map_server client).framer
      = finalized client.framer
        ++ [⟨client.protocol_private, client.core_resource.id, PW_CORE_EVENT_UPDATE_TYPES,
            (encodeStruct (missing_types_pods client.n_types client.core.type_map)).length,
            encodeStruct (missing_types_pods client.n_types client.core.type_map)⟩] := by
  rw [core_update_map_server_behind client hlt h32]
  exact update_types_server_payload client _ _ _ _
    (by unfold spa_type_map_get_size; simp)

theorem core_update_map_server_fields (client : pw_client) :
    (core_update_map_server client).core = client.core ∧
    (core_update_map_server client).protocol_private = client.protocol_private ∧
    (core_update_map_server client).core_resource = client.core_resource := by
  unfold core_update_map_server
  have h := update_types_server_fields client client.core_resource client.n_types
  by_cases hd : (spa_type_map_get_size client.core.type_map + 4294967296 - client.n_types)
      % 4294967296 = 0
  · simp [hd]
  · simp [hd, (h _ _).2]

theorem core_update_map_server_n_types (client : pw_client)
    (hn : client.n_types < 4294967296)
    (h32 : spa_type_map_get_size client.core.type_map < 4294967296) :
    (core_update_map_server client).n_types = spa_type_map_get_size client.core.type_map := by
  unfold core_update_map_server
  have h := update_types_server_fields client client.core_resource client.n_types
  by_cases hd : (spa_type_map_get_size client.core.type_map + 4294967296 - client.n_types)
      % 4294967296 = 0
  · simp only [hd, if_true]
    omega
  · simp only [hd, if_false, (h _ _).1]
    omega

/-- Every event marshaler other than update_types: it brings the type map up to date
and then finalizes one message of its own, on the connection of the client as it is. -/
theorem marshal_event_shape (client : pw_client) (resource : pw_resource) (e : Event)
    (he : e.is_update_types = false) :
    ∃ size payload,
      marshal_event client resource e
        = { core_update_map_server client with
            framer := (marshal_event client resource e).framer } ∧
      finalized (marshal_event client resource e).framer
        = finalized (core_update_map_server client).framer
          ++ [⟨client.protocol_private, resource.id, e.opcode, size, payload⟩] := by
  cases e with
  | core_update_types first_id n_types types => simp [Event.is_update_types] at he
  | core_done seq =>
    simp only [marshal_event, core_marshal_done, Event.opcode]
    exact ⟨_, _, trivial, finalized_end_write_msg _ _ _ _ _ _
      (by simp [finalized_calls_struct, finalized_calls_init])⟩
  | core_error id res error =>
    simp only [marshal_event, core_marshal_error, Event.opcode]
    exact ⟨_, _, trivial, finalized_end_write_msg _ _ _ _ _ _
      (by simp [finalized_calls_struct, finalized_calls_init])⟩
  | core_remove_id id =>
    simp only [marshal_event, core_marshal_remove_id, Event.opcode]
    exact ⟨_, _, trivial, finalized_end_write_msg _ _ _ _ _ _
      (by simp [finalized_calls_struct, finalized_calls_init])⟩
  | core_info info =>
    simp only [marshal_event, core_marshal_info, Event.opcode]
    exact ⟨_, _, trivial, finalized_end_write_msg _ _ _ _ _ _
      (by simp [finalized_calls_add, finalized_calls_dict_items, finalized_calls_init])⟩
  | registry_global id type version =>
    simp only [marshal_event, registry_marshal_global, Event.opcode]
    exact ⟨_, _, trivial, finalized_end_write_msg _ _ _ _ _ _
      (by simp [finalized_calls_struct, finalized_calls_init])⟩
  | registry_global_remove id =>
    simp only [marshal_event, registry_marshal_global_remove, Event.opcode]
    exact ⟨_, _, trivial, finalized_end_write_msg _ _ _ _ _ _
      (by simp [finalized_calls_struct, finalized_calls_init])⟩
  | module_info info =>
    simp only [marshal_event, module_marshal_info, Event.opcode]
    exact ⟨_, _, trivial, finalized_end_write_msg _ _ _ _ _ _
      (by simp [finalized_calls_add, finalized_calls_dict_items, finalized_calls_init])⟩
  | node_info info =>
    simp only [marshal_event, node_marshal_info, Event.opcode]
    exact ⟨_, _, trivial, finalized_end_write_msg _ _ _ _ _ _
      (by simp [finalized_calls_add, finalized_calls_dict_items, finalized_calls_formats,
        finalized_calls_init])⟩
  | client_info info =>
    simp only [marshal_event, client_marshal_info, Event.opcode]
    exact ⟨_, _, trivial, finalized_end_write_msg _ _ _ _ _ _
      (by simp [finalized_calls_add, finalized_calls_dict_items, finalized_calls_init])⟩
  | link_info info =>
    simp only [marshal_event, link_marshal_info, Event.opcode]
    exact ⟨_, _, trivial, finalized_end_write_msg _ _ _ _ _ _
      (by simp [finalized_calls_struct, finalized_calls_init])⟩

/-! ## C11 -/

theorem bind_payload_length (id version new_id : Nat) :
    (encodeStruct [Pod.int id, Pod.int version, Pod.int new_id]).length = 44 := by
  simp [encodeStruct, encodeAll, length_encode, Pod.body, length_le32, SPA_ROUND_UP_N]

/-- C11, as stated, fails: on a fresh connection (nothing announced) whose local type
registry holds one type, registry.bind(id = 5, version = 0, new_id = 12) on the
registry proxy (id 1) finalizes two messages: an update_types to the core proxy
(id 0) first, then the bind. -/
theorem C11_bind_fresh_counterexample :
    finalized (registry_marshal_bind context_fresh ⟨1⟩ 5 0 12).framer
      = [⟨some ⟨3⟩, 0, PW_CORE_METHOD_UPDATE_TYPES, 44,
          encodeStruct (update_types_pods 0 1 [[97]])⟩,
         ⟨some ⟨3⟩, 1, PW_REGISTRY_METHOD_BIND, 44,
          encodeStruct [Pod.int 5, Pod.int 0, Pod.int 12]⟩] := by
  decide

/-- C11, amended: on a connection whose sent high-water mark equals the size of the
local type registry (on a fresh connection: an empty registry),
registry.bind(id, version, new_id) finalizes exactly one message, the bind itself, with
no update_types before it. -/
theorem C11_bind_up_to_date (context : pw_context) (conn : pw_connection) (proxy : pw_proxy)
    (id version new_id : Nat) (hc : context.protocol_private = some conn)
    (hup : spa_type_map_get_size context.type_map = context.n_types) :
    finalized (registry_marshal_bind context proxy id version new_id).framer
      = finalized context.framer
        ++ [⟨some conn, proxy.id, PW_REGISTRY_METHOD_BIND, 44,
            encodeStruct [Pod.int id, Pod.int version, Pod.int new_id]⟩] := by
  unfold registry_marshal_bind
  simp only [hc, core_update_map_client_up_to_date context hup]
  rw [finalized_end_write_closed _ _ _ _ _ _
    (closed_struct (some conn) [.INT id, .INT version, .INT new_id] (by simp [isValue]))
    (by simp [finalized_calls_struct, finalized_calls_init])]
  simp [argsPods, argPods, bind_payload_length]

/-- C11, amended, at registry.bind(5, 0, 12) on a fresh connection with an empty type
registry: exactly one message. -/
theorem C11_bind_up_to_date_witness :
    (context_fresh_empty.protocol_private = some ⟨3⟩ ∧
      spa_type_map_get_size context_fresh_empty.type_map = context_fresh_empty.n_types) ∧
    finalized (registry_marshal_bind context_fresh_empty ⟨1⟩ 5 0 12).framer
      = [⟨some ⟨3⟩, 1, PW_REGISTRY_METHOD_BIND, 44,
          encodeStruct [Pod.int 5, Pod.int 0, Pod.int 12]⟩] :=
  ⟨⟨rfl, rfl⟩, C11_bind_up_to_date context_fresh_empty ⟨3⟩ ⟨1⟩ 5 0 12 rfl rfl⟩

/-! ## C12 -/

/-- C12: whenever a marshaler other than update_types itself is called while the local
type registry is larger than the sent high-water mark (client side: on a live
connection), exactly two messages are finalized, in this order: first the core
update_types (to the core proxy, respectively the core resource, opcode 0) carrying
the missing URIs, then the triggering message. -/
theorem C12_update_types_then_message (context : pw_context) (conn : pw_connection)
    (proxy : pw_proxy) (m : Method) (client : pw_client) (resource : pw_resource) (e : Event)
    (hc : context.protocol_private = some conn) (hm : m.is_update_types = false)
    (hlt : context.n_types < spa_type_map_get_size context.type_map)
    (h32 : spa_type_map_get_size context.type_map < 4294967296)
    (he : e.is_update_types = false)
    (hlt2 : client.n_types < spa_type_map_get_size client.core.type_map)
    (h322 : spa_type_map_get_size client.core.type_map < 4294967296) :
    (∃ size payload,
      finalized (marshal_method context proxy m).framer
        = finalized context.framer
          ++ [⟨some conn, context.core_proxy.id, PW_CORE_METHOD_UPDATE_TYPES,
                (encodeStruct (missing_types_pods context.n_types context.type_map)).length,
                encodeStruct (missing_types_pods context.n_types context.type_map)⟩,
              ⟨some conn, proxy.id, m.opcode, size, payload⟩]) ∧
    (∃ size payload,
      finalized (marshal_event client resource e).framer
        = finalized client.framer
          ++ [⟨client.protocol_private, client.core_resource.id, PW_CORE_EVENT_UPDATE_TYPES,
                (encodeStruct (missing_types_pods client.n_types client.core.type_map)).length,
                encodeStruct (missing_types_pods client.n_types client.core.type_map)⟩,
              ⟨client.protocol_private, resource.id, e.opcode, size, payload⟩]) := by
  obtain ⟨size, payload, -, h1⟩ := marshal_method_shape context conn proxy m hc hm
  obtain ⟨size2, payload2, -, h2⟩ := marshal_event_shape client resource e he
  rw [core_update_map_client_messages context conn hc hlt h32] at h1
  rw [core_update_map_server_messages client hlt2 h322] at h2
  exact ⟨⟨size, payload, by simpa using h1⟩, ⟨size2, payload2, by simpa using h2⟩⟩

/-- C12 at core.create_link with a filter on a connection that has announced two of
its four types, and at core.done on such a client: the update_types announcing the
types 2 and 3 comes first, the triggering message second. -/
theorem C12_update_types_then_message_witness :
    (context_behind.protocol_private = some ⟨3⟩ ∧
      (Method.core_create_link 1 2 3 4 (some format_example) none 9).is_update_types = false ∧
      context_behind.n_types < spa_type_map_get_size context_behind.type_map ∧
      spa_type_map_get_size context_behind.type_map < 4294967296 ∧
      (Event.core_done 7).is_update_types = false ∧
      client_behind.n_types < spa_type_map_get_size client_behind.core.type_map ∧
      spa_type_map_get_size client_behind.core.type_map < 4294967296) ∧
    (∃ size payload,
      finalized (marshal_method context_behind ⟨1⟩
          (Method.core_create_link 1 2 3 4 (some format_example) none 9)).framer
        = [⟨some ⟨3⟩, 0, 0, 56, encodeStruct (update_types_pods 2 2 [[99], [100]])⟩,
           ⟨some ⟨3⟩, 1, 5, size, payload⟩]) ∧
    (∃ size payload,
      finalized (marshal_event client_behind ⟨1⟩ (Event.core_done 7)).framer
        = [⟨some ⟨3⟩, 0, 0, 56, encodeStruct (update_types_pods 2 2 [[99], [100]])⟩,
           ⟨some ⟨3⟩, 1, 1, size, payload⟩]) :=
  ⟨⟨rfl, rfl, by decide, by decide, rfl, by decide, by decide⟩,
   C12_update_types_then_message context_behind ⟨3⟩ ⟨1⟩
     (Method.core_create_link 1 2 3 4 (some format_example) none 9) client_behind ⟨1⟩
     (Event.core_done 7) rfl rfl (by decide) (by decide) rfl (by decide) (by decide)⟩

/-! ## C13 -/

/-- C13: for a connection state with sent high-water mark h and local registry size
s >= h (s a 32-bit value; client side: a live connection), `core_update_map_client` and
`core_update_map_server` change nothing when s = h, and when s > h they finalize
exactly one update_types (to the core proxy, respectively the core resource) with
first_id = h, count = s - h and the URIs of the local ids h, ..., s - 1 in that order,
and set the mark to s; a second call is then a no-op. -/
theorem C13_update_map (context : pw_context) (conn : pw_connection) (client : pw_client)
    (hc : context.protocol_private = some conn)
    (hle : context.n_types ≤ spa_type_map_get_size context.type_map)
    (h32 : spa_type_map_get_size context.type_map < 4294967296)
    (hle2 : client.n_types ≤ spa_type_map_get_size client.core.type_map)
    (h322 : spa_type_map_get_size client.core.type_map < 4294967296) :
    (spa_type_map_get_size context.type_map = context.n_types →
      core_update_map_client context = context) ∧
    (context.n_types < spa_type_map_get_size context.type_map →
      finalized (core_update_map_client context).framer
        = finalized context.framer
          ++ [⟨some conn, context.core_proxy.id, PW_CORE_METHOD_UPDATE_TYPES,
              (encodeStruct (update_types_pods context.n_types
                (spa_type_map_get_size context.type_map - context.n_types)
                (context.type_map.drop context.n_types))).length,
              encodeStruct (update_types_pods context.n_types
                (spa_type_map_get_size context.type_map - context.n_types)
                (context.type_map.drop context.n_types))⟩]) ∧
    (core_update_map_client context).n_types = spa_type_map_get_size context.type_map ∧
    core_update_map_client (core_update_map_client context) = core_update_map_client context ∧
    (spa_type_map_get_size client.core.type_map = client.n_types →
      core_update_map_server client = client) ∧
    (client.n_types < spa_type_map_get_size client.core.type_map →
      finalized (core_update_map_server client).framer
        = finalized client.framer
          ++ [⟨client.protocol_private, client.core_resource.id, PW_CORE_EVENT_UPDATE_TYPES,
              (encodeStruct (update_types_pods client.n_types
                (spa_type_map_get_size client.core.type_map - client.n_types)
                (client.core.type_map.drop client.n_types))).length,
              encodeStruct (update_types_pods client.n_types
                (spa_type_map_get_size client.core.type_map - client.n_types)
                (client.core.type_map.drop client.n_types))⟩]) ∧
    (core_update_map_server client).n_types = spa_type_map_get_size client.core.type_map ∧
    core_update_map_server (core_update_map_server client) = core_update_map_server client := by
  have hn1 := core_update_map_client_n_types context (by omega) h32
  have hn2 := core_update_map_server_n_types client (by omega) h322
  refine ⟨core_update_map_client_up_to_date context, ?_, hn1, ?_,
    core_update_map_server_up_to_date client, ?_, hn2, ?_⟩
  · intro hlt
    exact core_update_map_client_messages context conn hc hlt h32
  · apply core_update_map_client_up_to_date
    rw [hn1, (core_update_map_client_fields context).1]
  · intro hlt
    exact core_update_map_server_messages client hlt h322
  · apply core_update_map_server_up_to_date
    rw [hn2, (core_update_map_server_fields client).1]

/-- C13 at a connection that has announced two of its four types: one update_types
with first_id 2, count 2 and the URIs of the ids 2 and 3, and the mark becomes 4; a
second call changes nothing. -/
theorem C13_update_map_witness :
    (context_behind.protocol_private = some ⟨3⟩ ∧
      context_behind.n_types ≤ spa_type_map_get_size context_behind.type_map ∧
      spa_type_map_get_size context_behind.type_map < 4294967296 ∧
      client_behind.n_types ≤ spa_type_map_get_size client_behind.core.type_map ∧
      spa_type_map_get_size client_behind.core.type_map < 4294967296) ∧
    finalized (core_update_map_client context_behind).framer
      = [⟨some ⟨3⟩, 0, 0, 56, encodeStruct (update_types_pods 2 2 [[99], [100]])⟩] ∧
    (core_update_map_client context_behind).n_types = 4 ∧
    core_update_map_client (core_update_map_client context_behind)
      = core_update_map_client context_behind ∧
    finalized (core_update_map_server client_behind).framer
      = [⟨some ⟨3⟩, 0, 0, 56, encodeStruct (update_types_pods 2 2 [[99], [100]])⟩] ∧
    (core_update_map_server client_behind).n_types = 4 :=
  have h := C13_update_map context_behind ⟨3⟩ client_behind rfl (by decide) (by decide)
    (by decide) (by decide)
  ⟨⟨rfl, by decide, by decide, by decide, by decide⟩, h.2.1 (by decide), h.2.2.1, h.2.2.2.1,
   h.2.2.2.2.2.1 (by decide), h.2.2.2.2.2.2.1⟩

/-! ## C14 -/

/-- C14, as stated, fails for update_types itself: on a fresh connection whose type
registry holds one type, the update_types marshaler (called as `core_update_map_client`
calls it: first_id 0, one URI) emits one message, and when it returns the sent
high-water mark is still 0 while the registry size is 1. -/
theorem C14_update_types_counterexample :
    finalized (core_marshal_update_types_client context_fresh ⟨0⟩ 0 1 [[97]]).framer
      = [⟨some ⟨3⟩, 0, 0, 44, encodeStruct (update_types_pods 0 1 [[97]])⟩] ∧
    (core_marshal_update_types_client context_fresh ⟨0⟩ 0 1 [[97]]).n_types = 0 ∧
    spa_type_map_get_size
      (core_marshal_update_types_client context_fresh ⟨0⟩ 0 1 [[97]]).type_map = 1 := by
  decide

/-- C14, amended: for every marshaler call other than update_types (of any interface,
direction and opcode; client side: on a live connection; mark and registry size are
32-bit values), immediately after the marshaler returns the sent high-water mark
`n_types` equals the size of the local type registry; the update_types marshalers
leave `n_types` as it was. -/
theorem C14_mark_after_marshaler (context : pw_context) (conn : pw_connection)
    (proxy : pw_proxy) (m : Method) (client : pw_client) (resource : pw_resource) (e : Event)
    (hc : context.protocol_private = some conn) (hm : m.is_update_types = false)
    (hn : context.n_types < 4294967296)
    (h32 : spa_type_map_get_size context.type_map < 4294967296)
    (he : e.is_update_types = false) (hn2 : client.n_types < 4294967296)
    (h322 : spa_type_map_get_size client.core.type_map < 4294967296) :
    ((marshal_method context proxy m).n_types
        = spa_type_map_get_size (marshal_method context proxy m).type_map ∧
      (marshal_method context proxy m).type_map = context.type_map) ∧
    ((marshal_event client resource e).n_types
        = spa_type_map_get_size (marshal_event client resource e).core.type_map ∧
      (marshal_event client resource e).core = client.core) ∧
    (∀ first_id n_types types,
      (marshal_method context proxy (Method.core_update_types first_id n_types types)).n_types
        = context.n_types) ∧
    (∀ first_id n_types types,
      (marshal_event client resource (Event.core_update_types first_id n_types types)).n_types
        = client.n_types) := by
  obtain ⟨size, payload, h1, -⟩ := marshal_method_shape context conn proxy m hc hm
  obtain ⟨size2, payload2, h2, -⟩ := marshal_event_shape client resource e he
  have hn1 := core_update_map_client_n_types context hn h32
  have hn3 := core_update_map_server_n_types client hn2 h322
  have hf1 := (core_update_map_client_fields context).1
  have hf2 := (core_update_map_server_fields client).1
  refine ⟨?_, ?_, ?_, ?_⟩
  · rw [h1]
    exact ⟨by simp [hn1, hf1], hf1⟩
  · rw [h2]
    exact ⟨by simp [hn3, hf2], hf2⟩
  · intro first_id n_types types
    exact (update_types_client_fields context proxy first_id n_types types).1
  · intro first_id n_types types
    exact (update_types_server_fields client resource first_id n_types types).1

/-- C14, amended, at core.sync on a connection and core.done on a client that have
announced two of their four types: afterwards the mark is 4, the registry size. -/
theorem C14_mark_after_marshaler_witness :
    (context_behind.protocol_private = some ⟨3⟩ ∧
      (Method.core_sync 7).is_update_types = false ∧ context_behind.n_types < 4294967296 ∧
      spa_type_map_get_size context_behind.type_map < 4294967296 ∧
      (Event.core_done 7).is_update_types = false ∧ client_behind.n_types < 4294967296 ∧
      spa_type_map_get_size client_behind.core.type_map < 4294967296) ∧
    (marshal_method context_behind ⟨0⟩ (Method.core_sync 7)).n_types
      = spa_type_map_get_size (marshal_method context_behind ⟨0⟩ (Method.core_sync 7)).type_map ∧
    (marshal_event client_behind ⟨0⟩ (Event.core_done 7)).n_types
      = spa_type_map_get_size (marshal_event client_behind ⟨0⟩ (Event.core_done 7)).core.type_map :=
  have h := C14_mark_after_marshaler context_behind ⟨3⟩ ⟨0⟩ (Method.core_sync 7) client_behind
    ⟨0⟩ (Event.core_done 7) rfl rfl (by decide) (by decide) rfl (by decide) (by decide)
  ⟨⟨rfl, rfl, by decide, by decide, rfl, by decide, by decide⟩, h.1.1, h.2.1.1⟩

/-! ## C15 -/

/-- C15: the update_types marshalers never trigger the type-map update: every call
(client side: on a live connection) finalizes exactly one message, with opcode 0 and
addressed to the object it was called on, and leaves the sent high-water mark and the
rest of the state unchanged, whatever the size of the type registry. -/
theorem C15_update_types_no_update (context : pw_context) (conn : pw_connection)
    (proxy : pw_proxy) (client : pw_client) (resource : pw_resource)
    (first_id n_types : Nat) (types : List CStr)
    (hc : context.protocol_private = some conn) :
    (∃ size payload,
      finalized (core_marshal_update_types_client context proxy first_id n_types types).framer
        = finalized context.framer ++ [⟨some conn, proxy.id, 0, size, payload⟩]) ∧
    (core_marshal_update_types_client context proxy first_id n_types types).n_types
      = context.n_types ∧
    (∃ size payload,
      finalized (core_marshal_update_types_server client resource first_id n_types types).framer
        = finalized client.framer
          ++ [⟨client.protocol_private, resource.id, 0, size, payload⟩]) ∧
    (core_marshal_update_types_server client resource first_id n_types types).n_types
      = client.n_types := by
  obtain ⟨size, payload, -, h1⟩ :=
    update_types_client_messages context conn proxy first_id n_types types hc
  obtain ⟨size2, payload2, -, h2⟩ :=
    update_types_server_messages client resource first_id n_types types
  exact ⟨⟨size, payload, h1⟩, (update_types_client_fields _ _ _ _ _).1,
    ⟨size2, payload2, h2⟩, (update_types_server_fields _ _ _ _ _).1⟩

/-- C15 at update_types(2, ["c"]) on a connection and on a client that have announced
two of their four types: one message with opcode 0, the mark stays 2. -/
theorem C15_update_types_no_update_witness :
    context_behind.protocol_private = some ⟨3⟩ ∧
    (∃ size payload,
      finalized (core_marshal_update_types_client context_behind ⟨0⟩ 2 1 [[99]]).framer
        = [⟨some ⟨3⟩, 0, 0, size, payload⟩]) ∧
    (core_marshal_update_types_client context_behind ⟨0⟩ 2 1 [[99]]).n_types = 2 ∧
    (∃ size payload,
      finalized (core_marshal_update_types_server client_behind ⟨0⟩ 2 1 [[99]]).framer
        = [⟨some ⟨3⟩, 0, 0, size, payload⟩]) ∧
    (core_marshal_update_types_server client_behind ⟨0⟩ 2 1 [[99]]).n_types = 2 :=
  ⟨rfl, C15_update_types_no_update context_behind ⟨3⟩ ⟨0⟩ client_behind ⟨0⟩ 2 1 [[99]] rfl⟩

/-! ## C16 -/

/-- C16, as stated, fails on the server side: core.done(seq = 7) on a client whose
connection is NULL is not a no-op; the marshaler requests a buffer from the NULL
connection and finalizes a message on it. -/
theorem C16_server_null_connection_counterexample :
    (core_marshal_done client_disconnected ⟨0⟩ 7).framer
      = [FramerCall.begin_write none 4096,
         FramerCall.end_write none 0 PW_CORE_EVENT_DONE 20 (encodeStruct [Pod.int 7])] := by
  decide

/-- C16, amended: for every client-side method marshaler, when the context's
connection is absent (NULL) the call is a no-op: the state is returned as it was, so
no buffer is requested, no message is finalized and the sent high-water mark is
untouched. -/
theorem C16_client_marshalers_disconnected (context : pw_context) (proxy : pw_proxy)
    (m : Method) (hc : context.protocol_private = none) :
    marshal_method context proxy m = context := by
  cases m <;>
    simp [marshal_method, core_marshal_update_types_client, core_marshal_sync,
      core_marshal_get_registry, core_marshal_client_update, core_marshal_create_node,
      core_marshal_create_link, registry_marshal_bind, hc]

/-- C16, amended, at core.sync(7) and at core.create_link on a disconnected context
that has announced only two of its four types: the context is unchanged and its
framer log stays empty. -/
theorem C16_client_marshalers_disconnected_witness :
    context_disconnected.protocol_private = none ∧
    marshal_method context_disconnected ⟨0⟩ (Method.core_sync 7) = context_disconnected ∧
    (marshal_method context_disconnected ⟨0⟩
      (Method.core_create_link 1 2 3 4 (some format_example) (some dict_example) 9)).framer
      = [] :=
  ⟨rfl, C16_client_marshalers_disconnected context_disconnected ⟨0⟩ (Method.core_sync 7) rfl,
   congrArg pw_context.framer (C16_client_marshalers_disconnected context_disconnected ⟨0⟩
      (Method.core_create_link 1 2 3 4 (some format_example) (some dict_example) 9) rfl)⟩

/-! ## C17 -/

theorem get_int_cases (it : spa_pod_iter) :
    spa_pod_iter_get_int it = none ∨
    ∃ v it', spa_pod_iter_get_int it = some (v, it') ∧
      tagStep SPA_POD_TYPE_INT it = some it' := by
  unfold spa_pod_iter_get_int tagStep
  rcases spa_pod_iter_next it with _ | ⟨tag, body, it'⟩
  · exact Or.inl rfl
  · by_cases h : tag = SPA_POD_TYPE_INT ∧ body.length = 4
    · exact Or.inr ⟨rd32 body, it', by simp [h], by simp [h.1]⟩
    · exact Or.inl (by simp [h])

theorem get_long_cases (it : spa_pod_iter) :
    spa_pod_iter_get_long it = none ∨
    ∃ v it', spa_pod_iter_get_long it = some (v, it') ∧
      tagStep SPA_POD_TYPE_LONG it = some it' := by
  unfold spa_pod_iter_get_long tagStep
  rcases spa_pod_iter_next it with _ | ⟨tag, body, it'⟩
  · exact Or.inl rfl
  · by_cases h : tag = SPA_POD_TYPE_LONG ∧ body.length = 8
    · exact Or.inr ⟨rd64 body, it', by simp [h], by simp [h.1]⟩
    · exact Or.inl (by simp [h])

theorem get_string_cases (it : spa_pod_iter) :
    spa_pod_iter_get_string it = none ∨
    ∃ v it', spa_pod_iter_get_string it = some (v, it') ∧
      tagStep SPA_POD_TYPE_STRING it = some it' := by
  unfold spa_pod_iter_get_string tagStep
  rcases spa_pod_iter_next it with _ | ⟨tag, body, it'⟩
  · exact Or.inl rfl
  · by_cases h : tag = SPA_POD_TYPE_STRING ∧ 0 ∈ body
    · exact Or.inr ⟨body.takeWhile (· ≠ 0), it', by simp [h], by simp [h.1]⟩
    · exact Or.inl (by simp [h])

theorem get_object_cases (it : spa_pod_iter) :
    spa_pod_iter_get_object it = none ∨
    ∃ v it', spa_pod_iter_get_object it = some (v, it') ∧
      tagStep SPA_POD_TYPE_OBJECT it = some it' := by
  unfold spa_pod_iter_get_object tagStep
  rcases spa_pod_iter_next it with _ | ⟨tag, body, it'⟩
  · exact Or.inl rfl
  · by_cases h : tag = SPA_POD_TYPE_OBJECT
    · exact Or.inr ⟨⟨body⟩, it', by simp [h], by simp [h]⟩
    · exact Or.inl (by simp [h])

theorem dict_items_cases (n : Nat) (it : spa_pod_iter) :
    demarshal_dict_items n it = none ∨
    ∃ items it', demarshal_dict_items n it = some (items, it') ∧
      readGroups n [SPA_POD_TYPE_STRING, SPA_POD_TYPE_STRING] it = some it' := by
  induction n generalizing it with
  | zero => exact Or.inr ⟨[], it, rfl, rfl⟩
  | succ n ih =>
    rcases get_string_cases it with g1 | ⟨k, it1, g1, t1⟩
    · exact Or.inl (by simp [demarshal_dict_items, g1])
    rcases get_string_cases it1 with g2 | ⟨v, it2, g2, t2⟩
    · exact Or.inl (by simp [demarshal_dict_items, g1, g2])
    rcases ih it2 with g3 | ⟨items, it3, g3, t3⟩
    · exact Or.inl (by simp [demarshal_dict_items, g1, g2, g3])
    · exact Or.inr ⟨⟨k, v⟩ :: items, it3, by simp [demarshal_dict_items, g1, g2, g3],
        by simp [readGroups, readTags, t1, t2, t3]⟩

theorem types_cases (n : Nat) (it : spa_pod_iter) :
    demarshal_types n it = none ∨
    ∃ types it', demarshal_types n it = some (types, it') ∧
      readGroups n [SPA_POD_TYPE_STRING] it = some it' := by
  induction n generalizing it with
  | zero => exact Or.inr ⟨[], it, rfl, rfl⟩
  | succ n ih =>
    rcases get_string_cases it with g1 | ⟨k, it1, g1, t1⟩
    · exact Or.inl (by simp [demarshal_types, g1])
    rcases ih it1 with g3 | ⟨items, it3, g3, t3⟩
    · exact Or.inl (by simp [demarshal_types, g1, g3])
    · exact Or.inr ⟨k :: items, it3, by simp [demarshal_types, g1, g3],
        by simp [readGroups, readTags, t1, t3]⟩

theorem formats_cases (n : Nat) (it : spa_pod_iter) :
    demarshal_formats n it = none ∨
    ∃ formats it', demarshal_formats n it = some (formats, it') ∧
      readGroups n [SPA_POD_TYPE_OBJECT] it = some it' := by
  induction n generalizing it with
  | zero => exact Or.inr ⟨[], it, rfl, rfl⟩
  | succ n ih =>
    rcases get_object_cases it with g1 | ⟨k, it1, g1, t1⟩
    · exact Or.inl (by simp [demarshal_formats, g1])
    rcases ih it1 with g3 | ⟨items, it3, g3, t3⟩
    · exact Or.inl (by simp [demarshal_formats, g1, g3])
    · exact Or.inr ⟨k :: items, it3, by simp [demarshal_formats, g1, g3],
        by simp [readGroups, readTags, t1, t3]⟩

theorem core_demarshal_update_types_client_rejects (data : List Nat) (size : Nat)
    (h : ∀ it, spa_pod_iter_struct data size = some it →
      walk [.required SPA_POD_TYPE_INT, .counted [SPA_POD_TYPE_STRING]] it = none) :
    core_demarshal_update_types_client data size = ⟨false, []⟩ := by
  rcases h0 : spa_pod_iter_struct data size with _ | it
  · simp only [core_demarshal_update_types_client, h0, bind, Option.bind, demarshaled]
  have hw := h it h0
  rcases get_int_cases it with g1 | ⟨v1, it1, g1, t1⟩
  · simp only [core_demarshal_update_types_client, h0, g1, bind, Option.bind, demarshaled]
  rcases get_int_cases it1 with g2 | ⟨v2, it2, g2, -⟩
  · simp only [core_demarshal_update_types_client, h0, g1, g2, bind, Option.bind, demarshaled]
  rcases types_cases v2 it2 with g3 | ⟨v3, it3, g3, t3⟩
  · simp only [core_demarshal_update_types_client, h0, g1, g2, g3, bind, Option.bind, demarshaled]
  simp [walk, t1, g2, t3] at hw

theorem core_demarshal_done_rejects (data : List Nat) (size : Nat)
    (h : ∀ it, spa_pod_iter_struct data size = some it →
      walk [.required SPA_POD_TYPE_INT] it = none) :
    core_demarshal_done data size = ⟨false, []⟩ := by
  rcases h0 : spa_pod_iter_struct data size with _ | it
  · simp only [core_demarshal_done, h0, bind, Option.bind, demarshaled]
  have hw := h it h0
  rcases get_int_cases it with g1 | ⟨v1, it1, g1, t1⟩
  · simp only [core_demarshal_done, h0, g1, bind, Option.bind, demarshaled]
  simp [walk, t1] at hw

theorem core_demarshal_error_rejects (data : List Nat) (size : Nat)
    (h : ∀ it, spa_pod_iter_struct data size = some it →
      walk
        [.required SPA_POD_TYPE_INT, .required SPA_POD_TYPE_INT, .required SPA_POD_TYPE_STRING]
        it = none) :
    core_demarshal_error data size = ⟨false, []⟩ := by
  rcases h0 : spa_pod_iter_struct data size with _ | it
  · simp only [core_demarshal_error, h0, bind, Option.bind, demarshaled]
  have hw := h it h0
  rcases get_int_cases it with g1 | ⟨v1, it1, g1, t1⟩
  · simp only [core_demarshal_error, h0, g1, bind, Option.bind, demarshaled]
  rcases get_int_cases it1 with g2 | ⟨v2, it2, g2, t2⟩
  · simp only [core_demarshal_error, h0, g1, g2, bind, Option.bind, demarshaled]
  rcases get_string_cases it2 with g3 | ⟨v3, it3, g3, t3⟩
  · simp only [core_demarshal_error, h0, g1, g2, g3, bind, Option.bind, demarshaled]
  simp [walk, t1, t2, t3] at hw

theorem core_demarshal_remove_id_rejects (data : List Nat) (size : Nat)
    (h : ∀ it, spa_pod_iter_struct data size = some it →
      walk [.required SPA_POD_TYPE_INT] it = none) :
    core_demarshal_remove_id data size = ⟨false, []⟩ := by
  rcases h0 : spa_pod_iter_struct data size with _ | it
  · simp only [core_demarshal_remove_id, h0, bind, Option.bind, demarshaled]
  have hw := h it h0
  rcases get_int_cases it with g1 | ⟨v1, it1, g1, t1⟩
  · simp only [core_demarshal_remove_id, h0, g1, bind, Option.bind, demarshaled]
  simp [walk, t1] at hw

theorem core_demarshal_info_rejects (data : List Nat) (size : Nat)
    (h : ∀ it, spa_pod_iter_struct data size = some it →
      walk
        [.required SPA_POD_TYPE_INT, .required SPA_POD_TYPE_LONG, .required SPA_POD_TYPE_STRING,
        .required SPA_POD_TYPE_STRING, .required SPA_POD_TYPE_STRING,
        .required SPA_POD_TYPE_STRING, .required SPA_POD_TYPE_INT,
        .counted [SPA_POD_TYPE_STRING, SPA_POD_TYPE_STRING]]
        it = none) :
    core_demarshal_info data size = ⟨false, []⟩ := by
  rcases h0 : spa_pod_iter_struct data size with _ | it
  · simp only [core_demarshal_info, h0, bind, Option.bind, demarshaled]
  have hw := h it h0
  rcases get_int_cases it with g1 | ⟨v1, it1, g1, t1⟩
  · simp only [core_demarshal_info, h0, g1, bind, Option.bind, demarshaled]
  rcases get_long_cases it1 with g2 | ⟨v2, it2, g2, t2⟩
  · simp only [core_demarshal_info, h0, g1, g2, bind, Option.bind, demarshaled]
  rcases get_string_cases it2 with g3 | ⟨v3, it3, g3, t3⟩
  · simp only [core_demarshal_info, h0, g1, g2, g3, bind, Option.bind, demarshaled]
  rcases get_string_cases it3 with g4 | ⟨v4, it4, g4, t4⟩
  · simp only [core_demarshal_info, h0, g1, g2, g3, g4, bind, Option.bind, demarshaled]
  rcases get_string_cases it4 with g5 | ⟨v5, it5, g5, t5⟩
  · simp only [core_demarshal_info, h0, g1, g2, g3, g4, g5, bind, Option.bind, demarshaled]
  rcases get_string_cases it5 with g6 | ⟨v6, it6, g6, t6⟩
  · simp only [core_demarshal_info, h0, g1, g2, g3, g4, g5, g6, bind, Option.bind, demarshaled]
  rcases get_int_cases it6 with g7 | ⟨v7, it7, g7, t7⟩
  · simp only [core_demarshal_info, h0, g1, g2, g3, g4, g5, g6, g7, bind, Option.bind, demarshaled]
  rcases get_int_cases it7 with g8 | ⟨v8, it8, g8, -⟩
  · simp only [core_demarshal_info, h0, g1, g2, g3, g4, g5, g6, g7, g8, bind, Option.bind, demarshaled]
  rcases dict_items_cases v8 it8 with g9 | ⟨v9, it9, g9, t9⟩
  · simp only [core_demarshal_info, h0, g1, g2, g3, g4, g5, g6, g7, g8, g9, bind, Option.bind,
      demarshaled]
  simp [walk, t1, t2, t3, t4, t5, t6, t7, g8, t9] at hw

theorem registry_demarshal_global_rejects (data : List Nat) (size : Nat)
    (h : ∀ it, spa_pod_iter_struct data size = some it →
      walk
        [.required SPA_POD_TYPE_INT, .required SPA_POD_TYPE_STRING, .required SPA_POD_TYPE_INT]
        it = none) :
    registry_demarshal_global data size = ⟨false, []⟩ := by
  rcases h0 : spa_pod_iter_struct data size with _ | it
  · simp only [registry_demarshal_global, h0, bind, Option.bind, demarshaled]
  have hw := h it h0
  rcases get_int_cases it with g1 | ⟨v1, it1, g1, t1⟩
  · simp only [registry_demarshal_global, h0, g1, bind, Option.bind, demarshaled]
  rcases get_string_cases it1 with g2 | ⟨v2, it2, g2, t2⟩
  · simp only [registry_demarshal_global, h0, g1, g2, bind, Option.bind, demarshaled]
  rcases get_int_cases it2 with g3 | ⟨v3, it3, g3, t3⟩
  · simp only [registry_demarshal_global, h0, g1, g2, g3, bind, Option.bind, demarshaled]
  simp [walk, t1, t2, t3] at hw

theorem registry_demarshal_global_remove_rejects (data : List Nat) (size : Nat)
    (h : ∀ it, spa_pod_iter_struct data size = some it →
      walk [.required SPA_POD_TYPE_INT] it = none) :
    registry_demarshal_global_remove data size = ⟨false, []⟩ := by
  rcases h0 : spa_pod_iter_struct data size with _ | it
  · simp only [registry_demarshal_global_remove, h0, bind, Option.bind, demarshaled]
  have hw := h it h0
  rcases get_int_cases it with g1 | ⟨v1, it1, g1, t1⟩
  · simp only [registry_demarshal_global_remove, h0, g1, bind, Option.bind, demarshaled]
  simp [walk, t1] at hw

theorem module_demarshal_info_rejects (data : List Nat) (size : Nat)
    (h : ∀ it, spa_pod_iter_struct data size = some it →
      walk
        [.required SPA_POD_TYPE_INT, .required SPA_POD_TYPE_LONG, .required SPA_POD_TYPE_STRING,
        .required SPA_POD_TYPE_STRING, .required SPA_POD_TYPE_STRING,
        .counted [SPA_POD_TYPE_STRING, SPA_POD_TYPE_STRING]]
        it = none) :
    module_demarshal_info data size = ⟨false, []⟩ := by
  rcases h0 : spa_pod_iter_struct data size with _ | it
  · simp only [module_demarshal_info, h0, bind, Option.bind, demarshaled]
  have hw := h it h0
  rcases get_int_cases it with g1 | ⟨v1, it1, g1, t1⟩
  · simp only [module_demarshal_info, h0, g1, bind, Option.bind, demarshaled]
  rcases get_long_cases it1 with g2 | ⟨v2, it2, g2, t2⟩
  · simp only [module_demarshal_info, h0, g1, g2, bind, Option.bind, demarshaled]
  rcases get_string_cases it2 with g3 | ⟨v3, it3, g3, t3⟩
  · simp only [module_demarshal_info, h0, g1, g2, g3, bind, Option.bind, demarshaled]
  rcases get_string_cases it3 with g4 | ⟨v4, it4, g4, t4⟩
  · simp only [module_demarshal_info, h0, g1, g2, g3, g4, bind, Option.bind, demarshaled]
  rcases get_string_cases it4 with g5 | ⟨v5, it5, g5, t5⟩
  · simp only [module_demarshal_info, h0, g1, g2, g3, g4, g5, bind, Option.bind, demarshaled]
  rcases get_int_cases it5 with g6 | ⟨v6, it6, g6, -⟩
  · simp only [module_demarshal_info, h0, g1, g2, g3, g4, g5, g6, bind, Option.bind, demarshaled]
  rcases dict_items_cases v6 it6 with g7 | ⟨v7, it7, g7, t7⟩
  · simp only [module_demarshal_info, h0, g1, g2, g3, g4, g5, g6, g7, bind, Option.bind, demarshaled]
  simp [walk, t1, t2, t3, t4, t5, g6, t7] at hw

theorem node_demarshal_info_rejects (pw_pod_remap_data : Nat → List Nat → Nat → Option (List Nat))
    (data : List Nat) (size : Nat)
    (h : ∀ it data', spa_pod_iter_struct data size = some it →
      pw_pod_remap_data SPA_POD_TYPE_STRUCT data size = some data' →
      walk
        [.required SPA_POD_TYPE_INT, .required SPA_POD_TYPE_LONG, .required SPA_POD_TYPE_STRING,
        .required SPA_POD_TYPE_INT, .required SPA_POD_TYPE_INT, .counted [SPA_POD_TYPE_OBJECT],
        .required SPA_POD_TYPE_INT, .required SPA_POD_TYPE_INT, .counted [SPA_POD_TYPE_OBJECT],
        .required SPA_POD_TYPE_INT, .required SPA_POD_TYPE_STRING,
        .counted [SPA_POD_TYPE_STRING, SPA_POD_TYPE_STRING]]
        { it with data := data' } = none) :
    node_demarshal_info pw_pod_remap_data data size = ⟨false, []⟩ := by
  rcases h0 : spa_pod_iter_struct data size with _ | it
  · simp only [node_demarshal_info, node_demarshal_info_get1, node_demarshal_info_get2,
      node_demarshal_info_get3, h0, bind, Option.bind, demarshaled]
  rcases hr : pw_pod_remap_data SPA_POD_TYPE_STRUCT data size with _ | data'
  · simp only [node_demarshal_info, node_demarshal_info_get1, node_demarshal_info_get2,
      node_demarshal_info_get3, h0, hr, bind, Option.bind, demarshaled]
  have hw := h it data' h0 hr
  rcases get_int_cases { it with data := data' } with g1 | ⟨v1, it1, g1, t1⟩
  · simp only [node_demarshal_info, node_demarshal_info_get1, node_demarshal_info_get2,
      node_demarshal_info_get3, h0, hr, g1, bind, Option.bind, demarshaled]
  rcases get_long_cases it1 with g2 | ⟨v2, it2, g2, t2⟩
  · simp only [node_demarshal_info, node_demarshal_info_get1, node_demarshal_info_get2,
      node_demarshal_info_get3, h0, hr, g1, g2, bind, Option.bind, demarshaled]
  rcases get_string_cases it2 with g3 | ⟨v3, it3, g3, t3⟩
  · simp only [node_demarshal_info, node_demarshal_info_get1, node_demarshal_info_get2,
      node_demarshal_info_get3, h0, hr, g1, g2, g3, bind, Option.bind, demarshaled]
  rcases get_int_cases it3 with g4 | ⟨v4, it4, g4, t4⟩
  · simp only [node_demarshal_info, node_demarshal_info_get1, node_demarshal_info_get2,
      node_demarshal_info_get3, h0, hr, g1, g2, g3, g4, bind, Option.bind, demarshaled]
  rcases get_int_cases it4 with g5 | ⟨v5, it5, g5, t5⟩
  · simp only [node_demarshal_info, node_demarshal_info_get1, node_demarshal_info_get2,
      node_demarshal_info_get3, h0, hr, g1, g2, g3, g4, g5, bind, Option.bind, demarshaled]
  rcases get_int_cases it5 with g6 | ⟨v6, it6, g6, -⟩
  · simp only [node_demarshal_info, node_demarshal_info_get1, node_demarshal_info_get2,
      node_demarshal_info_get3, h0, hr, g1, g2, g3, g4, g5, g6, bind, Option.bind, demarshaled]
  rcases formats_cases v6 it6 with g7 | ⟨v7, it7, g7, t7⟩
  · simp only [node_demarshal_info, node_demarshal_info_get1, node_demarshal_info_get2,
      node_demarshal_info_get3, h0, hr, g1, g2, g3, g4, g5, g6, g7, bind, Option.bind,
      demarshaled]
  rcases get_int_cases it7 with g8 | ⟨v8, it8, g8, t8⟩
  · simp only [node_demarshal_info, node_demarshal_info_get1, node_demarshal_info_get2,
      node_demarshal_info_get3, h0, hr, g1, g2, g3, g4, g5, g6, g7, g8, bind, Option.bind,
      demarshaled]
  rcases get_int_cases it8 with g9 | ⟨v9, it9, g9, t9⟩
  · simp only [node_demarshal_info, node_demarshal_info_get1, node_demarshal_info_get2,
      node_demarshal_info_get3, h0, hr, g1, g2, g3, g4, g5, g6, g7, g8, g9, bind, Option.bind,
      demarshaled]
  rcases get_int_cases it9 with g10 | ⟨v10, it10, g10, -⟩
  · simp only [node_demarshal_info, node_demarshal_info_get1, node_demarshal_info_get2,
      node_demarshal_info_get3, h0, hr, g1, g2, g3, g4, g5, g6, g7, g8, g9, g10, bind,
      Option.bind, demarshaled]
  rcases formats_cases v10 it10 with g11 | ⟨v11, it11, g11, t11⟩
  · simp only [node_demarshal_info, node_demarshal_info_get1, node_demarshal_info_get2,
      node_demarshal_info_get3, h0, hr, g1, g2, g3, g4, g5, g6, g7, g8, g9, g10, g11, bind,
      Option.bind, demarshaled]
  rcases get_int_cases it11 with g12 | ⟨v12, it12, g12, t12⟩
  · simp only [node_demarshal_info, node_demarshal_info_get1, node_demarshal_info_get2,
      node_demarshal_info_get3, h0, hr, g1, g2, g3, g4, g5, g6, g7, g8, g9, g10, g11, g12, bind,
      Option.bind, demarshaled]
  rcases get_string_cases it12 with g13 | ⟨v13, it13, g13, t13⟩
  · simp only [node_demarshal_info, node_demarshal_info_get1, node_demarshal_info_get2,
      node_demarshal_info_get3, h0, hr, g1, g2, g3, g4, g5, g6, g7, g8, g9, g10, g11, g12, g13,
      bind, Option.bind, demarshaled]
  rcases get_int_cases it13 with g14 | ⟨v14, it14, g14, -⟩
  · simp only [node_demarshal_info, node_demarshal_info_get1, node_demarshal_info_get2,
      node_demarshal_info_get3, h0, hr, g1, g2, g3, g4, g5, g6, g7, g8, g9, g10, g11, g12, g13,
      g14, bind, Option.bind, demarshaled]
  rcases dict_items_cases v14 it14 with g15 | ⟨v15, it15, g15, t15⟩
  · simp only [node_demarshal_info, node_demarshal_info_get1, node_demarshal_info_get2,
      node_demarshal_info_get3, h0, hr, g1, g2, g3, g4, g5, g6, g7, g8, g9, g10, g11, g12, g13,
      g14, g15, bind, Option.bind, demarshaled]
  simp [walk, t1, t2, t3, t4, t5, g6, t7, t8, t9, g10, t11, t12, t13, g14, t15] at hw

theorem client_demarshal_info_rejects (data : List Nat) (size : Nat)
    (h : ∀ it, spa_pod_iter_struct data size = some it →
      walk
        [.required SPA_POD_TYPE_INT, .required SPA_POD_TYPE_LONG,
        .counted [SPA_POD_TYPE_STRING, SPA_POD_TYPE_STRING]]
        it = none) :
    client_demarshal_info data size = ⟨false, []⟩ := by
  rcases h0 : spa_pod_iter_struct data size with _ | it
  · simp only [client_demarshal_info, h0, bind, Option.bind, demarshaled]
  have hw := h it h0
  rcases get_int_cases it with g1 | ⟨v1, it1, g1, t1⟩
  · simp only [client_demarshal_info, h0, g1, bind, Option.bind, demarshaled]
  rcases get_long_cases it1 with g2 | ⟨v2, it2, g2, t2⟩
  · simp only [client_demarshal_info, h0, g1, g2, bind, Option.bind, demarshaled]
  rcases get_int_cases it2 with g3 | ⟨v3, it3, g3, -⟩
  · simp only [client_demarshal_info, h0, g1, g2, g3, bind, Option.bind, demarshaled]
  rcases dict_items_cases v3 it3 with g4 | ⟨v4, it4, g4, t4⟩
  · simp only [client_demarshal_info, h0, g1, g2, g3, g4, bind, Option.bind, demarshaled]
  simp [walk, t1, t2, g3, t4] at hw

theorem link_demarshal_info_rejects (pw_pod_remap_data : Nat → List Nat → Nat → Option (List Nat))
    (data : List Nat) (size : Nat)
    (h : ∀ it data', spa_pod_iter_struct data size = some it →
      pw_pod_remap_data SPA_POD_TYPE_STRUCT data size = some data' →
      walk
        [.required SPA_POD_TYPE_INT, .required SPA_POD_TYPE_LONG, .required SPA_POD_TYPE_INT,
        .required SPA_POD_TYPE_INT, .required SPA_POD_TYPE_INT, .required SPA_POD_TYPE_INT,
        .optional_object]
        { it with data := data' } = none) :
    link_demarshal_info pw_pod_remap_data data size = ⟨false, []⟩ := by
  rcases h0 : spa_pod_iter_struct data size with _ | it
  · simp only [link_demarshal_info, h0, bind, Option.bind, demarshaled]
  rcases hr : pw_pod_remap_data SPA_POD_TYPE_STRUCT data size with _ | data'
  · simp only [link_demarshal_info, h0, hr, bind, Option.bind, demarshaled]
  have hw := h it data' h0 hr
  rcases get_int_cases { it with data := data' } with g1 | ⟨v1, it1, g1, t1⟩
  · simp only [link_demarshal_info, h0, hr, g1, bind, Option.bind, demarshaled]
  rcases get_long_cases it1 with g2 | ⟨v2, it2, g2, t2⟩
  · simp only [link_demarshal_info, h0, hr, g1, g2, bind, Option.bind, demarshaled]
  rcases get_int_cases it2 with g3 | ⟨v3, it3, g3, t3⟩
  · simp only [link_demarshal_info, h0, hr, g1, g2, g3, bind, Option.bind, demarshaled]
  rcases get_int_cases it3 with g4 | ⟨v4, it4, g4, t4⟩
  · simp only [link_demarshal_info, h0, hr, g1, g2, g3, g4, bind, Option.bind, demarshaled]
  rcases get_int_cases it4 with g5 | ⟨v5, it5, g5, t5⟩
  · simp only [link_demarshal_info, h0, hr, g1, g2, g3, g4, g5, bind, Option.bind, demarshaled]
  rcases get_int_cases it5 with g6 | ⟨v6, it6, g6, t6⟩
  · simp only [link_demarshal_info, h0, hr, g1, g2, g3, g4, g5, g6, bind, Option.bind, demarshaled]
  rcases g7 : spa_pod_iter_get_opt_object it6 with ⟨v7, it7⟩
  simp [walk, t1, t2, t3, t4, t5, t6, g7] at hw

theorem core_demarshal_update_types_server_rejects (data : List Nat) (size : Nat)
    (h : ∀ it, spa_pod_iter_struct data size = some it →
      walk [.required SPA_POD_TYPE_INT, .counted [SPA_POD_TYPE_STRING]] it = none) :
    core_demarshal_update_types_server data size = ⟨false, []⟩ := by
  rcases h0 : spa_pod_iter_struct data size with _ | it
  · simp only [core_demarshal_update_types_server, h0, bind, Option.bind, demarshaled]
  have hw := h it h0
  rcases get_int_cases it with g1 | ⟨v1, it1, g1, t1⟩
  · simp only [core_demarshal_update_types_server, h0, g1, bind, Option.bind, demarshaled]
  rcases get_int_cases it1 with g2 | ⟨v2, it2, g2, -⟩
  · simp only [core_demarshal_update_types_server, h0, g1, g2, bind, Option.bind, demarshaled]
  rcases types_cases v2 it2 with g3 | ⟨v3, it3, g3, t3⟩
  · simp only [core_demarshal_update_types_server, h0, g1, g2, g3, bind, Option.bind, demarshaled]
  simp [walk, t1, g2, t3] at hw

theorem core_demarshal_sync_rejects (data : List Nat) (size : Nat)
    (h : ∀ it, spa_pod_iter_struct data size = some it →
      walk [.required SPA_POD_TYPE_INT] it = none) :
    core_demarshal_sync data size = ⟨false, []⟩ := by
  rcases h0 : spa_pod_iter_struct data size with _ | it
  · simp only [core_demarshal_sync, h0, bind, Option.bind, demarshaled]
  have hw := h it h0
  rcases get_int_cases it with g1 | ⟨v1, it1, g1, t1⟩
  · simp only [core_demarshal_sync, h0, g1, bind, Option.bind, demarshaled]
  simp [walk, t1] at hw

theorem core_demarshal_get_registry_rejects (data : List Nat) (size : Nat)
    (h : ∀ it, spa_pod_iter_struct data size = some it →
      walk [.required SPA_POD_TYPE_INT] it = none) :
    core_demarshal_get_registry data size = ⟨false, []⟩ := by
  rcases h0 : spa_pod_iter_struct data size with _ | it
  · simp only [core_demarshal_get_registry, h0, bind, Option.bind, demarshaled]
  have hw := h it h0
  rcases get_int_cases it with g1 | ⟨v1, it1, g1, t1⟩
  · simp only [core_demarshal_get_registry, h0, g1, bind, Option.bind, demarshaled]
  simp [walk, t1] at hw

theorem core_demarshal_client_update_rejects (data : List Nat) (size : Nat)
    (h : ∀ it, spa_pod_iter_struct data size = some it →
      walk [.counted [SPA_POD_TYPE_STRING, SPA_POD_TYPE_STRING]] it = none) :
    core_demarshal_client_update data size = ⟨false, []⟩ := by
  rcases h0 : spa_pod_iter_struct data size with _ | it
  · simp only [core_demarshal_client_update, h0, bind, Option.bind, demarshaled]
  have hw := h it h0
  rcases get_int_cases it with g1 | ⟨v1, it1, g1, -⟩
  · simp only [core_demarshal_client_update, h0, g1, bind, Option.bind, demarshaled]
  rcases dict_items_cases v1 it1 with g2 | ⟨v2, it2, g2, t2⟩
  · simp only [core_demarshal_client_update, h0, g1, g2, bind, Option.bind, demarshaled]
  simp [walk, g1, t2] at hw

theorem core_demarshal_create_node_rejects (data : List Nat) (size : Nat)
    (h : ∀ it, spa_pod_iter_struct data size = some it →
      walk
        [.required SPA_POD_TYPE_STRING, .required SPA_POD_TYPE_STRING,
        .counted [SPA_POD_TYPE_STRING, SPA_POD_TYPE_STRING], .required SPA_POD_TYPE_INT]
        it = none) :
    core_demarshal_create_node data size = ⟨false, []⟩ := by
  rcases h0 : spa_pod_iter_struct data size with _ | it
  · simp only [core_demarshal_create_node, h0, bind, Option.bind, demarshaled]
  have hw := h it h0
  rcases get_string_cases it with g1 | ⟨v1, it1, g1, t1⟩
  · simp only [core_demarshal_create_node, h0, g1, bind, Option.bind, demarshaled]
  rcases get_string_cases it1 with g2 | ⟨v2, it2, g2, t2⟩
  · simp only [core_demarshal_create_node, h0, g1, g2, bind, Option.bind, demarshaled]
  rcases get_int_cases it2 with g3 | ⟨v3, it3, g3, -⟩
  · simp only [core_demarshal_create_node, h0, g1, g2, g3, bind, Option.bind, demarshaled]
  rcases dict_items_cases v3 it3 with g4 | ⟨v4, it4, g4, t4⟩
  · simp only [core_demarshal_create_node, h0, g1, g2, g3, g4, bind, Option.bind, demarshaled]
  rcases get_int_cases it4 with g5 | ⟨v5, it5, g5, t5⟩
  · simp only [core_demarshal_create_node, h0, g1, g2, g3, g4, g5, bind, Option.bind, demarshaled]
  simp [walk, t1, t2, g3, t4, t5] at hw

theorem core_demarshal_create_link_rejects (pw_pod_remap_data : Nat → List Nat → Nat → Option (List Nat))
    (data : List Nat) (size : Nat)
    (h : ∀ it data', spa_pod_iter_struct data size = some it →
      pw_pod_remap_data SPA_POD_TYPE_STRUCT data size = some data' →
      walk
        [.required SPA_POD_TYPE_INT, .required SPA_POD_TYPE_INT, .required SPA_POD_TYPE_INT,
        .required SPA_POD_TYPE_INT, .optional_object,
        .counted [SPA_POD_TYPE_STRING, SPA_POD_TYPE_STRING], .required SPA_POD_TYPE_INT]
        { it with data := data' } = none) :
    core_demarshal_create_link pw_pod_remap_data data size = ⟨false, []⟩ := by
  rcases h0 : spa_pod_iter_struct data size with _ | it
  · simp only [core_demarshal_create_link, h0, bind, Option.bind, demarshaled]
  rcases hr : pw_pod_remap_data SPA_POD_TYPE_STRUCT data size with _ | data'
  · simp only [core_demarshal_create_link, h0, hr, bind, Option.bind, demarshaled]
  have hw := h it data' h0 hr
  rcases get_int_cases { it with data := data' } with g1 | ⟨v1, it1, g1, t1⟩
  · simp only [core_demarshal_create_link, h0, hr, g1, bind, Option.bind, demarshaled]
  rcases get_int_cases it1 with g2 | ⟨v2, it2, g2, t2⟩
  · simp only [core_demarshal_create_link, h0, hr, g1, g2, bind, Option.bind, demarshaled]
  rcases get_int_cases it2 with g3 | ⟨v3, it3, g3, t3⟩
  · simp only [core_demarshal_create_link, h0, hr, g1, g2, g3, bind, Option.bind, demarshaled]
  rcases get_int_cases it3 with g4 | ⟨v4, it4, g4, t4⟩
  · simp only [core_demarshal_create_link, h0, hr, g1, g2, g3, g4, bind, Option.bind, demarshaled]
  rcases g5 : spa_pod_iter_get_opt_object it4 with ⟨v5, it5⟩
  rcases get_int_cases it5 with g6 | ⟨v6, it6, g6, -⟩
  · simp only [core_demarshal_create_link, h0, hr, g1, g2, g3, g4, g5, g6, bind, Option.bind, demarshaled]
  rcases dict_items_cases v6 it6 with g7 | ⟨v7, it7, g7, t7⟩
  · simp only [core_demarshal_create_link, h0, hr, g1, g2, g3, g4, g5, g6, g7, bind, Option.bind,
      demarshaled]
  rcases get_int_cases it7 with g8 | ⟨v8, it8, g8, t8⟩
  · simp only [core_demarshal_create_link, h0, hr, g1, g2, g3, g4, g5, g6, g7, g8, bind, Option.bind,
      demarshaled]
  simp [walk, t1, t2, t3, t4, g5, g6, t7, t8] at hw

theorem registry_demarshal_bind_rejects (data : List Nat) (size : Nat)
    (h : ∀ it, spa_pod_iter_struct data size = some it →
      walk
        [.required SPA_POD_TYPE_INT, .required SPA_POD_TYPE_INT, .required SPA_POD_TYPE_INT]
        it = none) :
    registry_demarshal_bind data size = ⟨false, []⟩ := by
  rcases h0 : spa_pod_iter_struct data size with _ | it
  · simp only [registry_demarshal_bind, h0, bind, Option.bind, demarshaled]
  have hw := h it h0
  rcases get_int_cases it with g1 | ⟨v1, it1, g1, t1⟩
  · simp only [registry_demarshal_bind, h0, g1, bind, Option.bind, demarshaled]
  rcases get_int_cases it1 with g2 | ⟨v2, it2, g2, t2⟩
  · simp only [registry_demarshal_bind, h0, g1, g2, bind, Option.bind, demarshaled]
  rcases get_int_cases it2 with g3 | ⟨v3, it3, g3, t3⟩
  · simp only [registry_demarshal_bind, h0, g1, g2, g3, bind, Option.bind, demarshaled]
  simp [walk, t1, t2, t3] at hw

theorem iter_struct_none (data : List Nat) (size : Nat)
    (h : NotStruct data ∨ Truncated data size) : spa_pod_iter_struct data size = none := by
  unfold spa_pod_iter_struct
  rcases h with h | h | h
  · by_cases h8 : size < 8
    · simp [h8]
    · unfold NotStruct at h
      simp [h8, h]
  · simp [h]
  · by_cases h8 : size < 8
    · simp [h8]
    · by_cases ht : rd32 (data.drop 4) ≠ SPA_POD_TYPE_STRUCT
      · simp [h8, ht]
      · simp [h8, ht, h]

theorem walk_rebase (schema : List Slot) (data : List Nat) (size : Nat) (it : spa_pod_iter)
    (h : spa_pod_iter_struct data size = some it)
    (hw : walk schema { it with data := data } = none) : walk schema it = none := by
  unfold spa_pod_iter_struct at h
  split at h
  · cases h
  · split at h
    · cases h
    · split at h
      · cases h
      · cases h
        exact hw

/-- Each of the eighteen demarshalers returns false when the walk along its schema
fails on every iterator it can read its arguments from. -/
theorem demarshalers_reject (pw_pod_remap_data : Nat → List Nat → Nat → Option (List Nat))
    (data : List Nat) (size : Nat) :
    ∀ e ∈ demarshalers,
      (∀ it data', spa_pod_iter_struct data size = some it →
        remapped e.2.1 pw_pod_remap_data data size = some data' →
        walk e.2.2 { it with data := data' } = none) →
      e.1 pw_pod_remap_data data size = ⟨false, []⟩ := by
  have flat : ∀ schema, (∀ it data', spa_pod_iter_struct data size = some it →
        remapped false pw_pod_remap_data data size = some data' →
        walk schema { it with data := data' } = none) →
      ∀ it, spa_pod_iter_struct data size = some it → walk schema it = none :=
    fun schema key it h => walk_rebase _ data size it h (key it data h rfl)
  simp only [demarshalers, List.forall_mem_cons]
  split_ands
  · exact fun key => core_demarshal_update_types_client_rejects data size (flat _ key)
  · exact fun key => core_demarshal_done_rejects data size (flat _ key)
  · exact fun key => core_demarshal_error_rejects data size (flat _ key)
  · exact fun key => core_demarshal_remove_id_rejects data size (flat _ key)
  · exact fun key => core_demarshal_info_rejects data size (flat _ key)
  · exact fun key => registry_demarshal_global_rejects data size (flat _ key)
  · exact fun key => registry_demarshal_global_remove_rejects data size (flat _ key)
  · exact fun key => module_demarshal_info_rejects data size (flat _ key)
  · exact fun key => node_demarshal_info_rejects pw_pod_remap_data data size key
  · exact fun key => client_demarshal_info_rejects data size (flat _ key)
  · exact fun key => link_demarshal_info_rejects pw_pod_remap_data data size key
  · exact fun key => core_demarshal_update_types_server_rejects data size (flat _ key)
  · exact fun key => core_demarshal_sync_rejects data size (flat _ key)
  · exact fun key => core_demarshal_get_registry_rejects data size (flat _ key)
  · exact fun key => core_demarshal_client_update_rejects data size (flat _ key)
  · exact fun key => core_demarshal_create_node_rejects data size (flat _ key)
  · exact fun key => core_demarshal_create_link_rejects pw_pod_remap_data data size key
  · exact fun key => registry_demarshal_bind_rejects data size (flat _ key)
  · intro e he
    cases he

/-! ## Decode failures on a bounded stack (C18) -/

theorem core_demarshal_info_stack_cases (p : Platform)
    (pw_pod_remap_data : Nat → List Nat → Nat → Option (List Nat))
    (data : List Nat) (size : Nat) :
    core_demarshal_info_stack p data size
      = Outcome.returned (core_demarshal_info data size) ∨
    (core_demarshal_info_stack p data size = Outcome.stack_overflow ∧
      p.stack < stack_need p false
        [.required SPA_POD_TYPE_INT, .required SPA_POD_TYPE_LONG, .required SPA_POD_TYPE_STRING,
        .required SPA_POD_TYPE_STRING, .required SPA_POD_TYPE_STRING,
        .required SPA_POD_TYPE_STRING, .required SPA_POD_TYPE_INT,
        .counted [SPA_POD_TYPE_STRING, SPA_POD_TYPE_STRING]]
        pw_pod_remap_data data size) := by
  rcases h0 : spa_pod_iter_struct data size with _ | it
  · exact Or.inl (by
      simp only
        [core_demarshal_info_stack, core_demarshal_info, Outcome.read, alloca, bind,
        Option.bind, demarshaled, Option.pure_def, h0])
  rcases get_int_cases it with g1 | ⟨v1, it1, g1, t1⟩
  · exact Or.inl (by
      simp only
        [core_demarshal_info_stack, core_demarshal_info, Outcome.read, alloca, bind,
        Option.bind, demarshaled, Option.pure_def, h0, g1])
  rcases get_long_cases it1 with g2 | ⟨v2, it2, g2, t2⟩
  · exact Or.inl (by
      simp only
        [core_demarshal_info_stack, core_demarshal_info, Outcome.read, alloca, bind,
        Option.bind, demarshaled, Option.pure_def, h0, g1, g2])
  rcases get_string_cases it2 with g3 | ⟨v3, it3, g3, t3⟩
  · exact Or.inl (by
      simp only
        [core_demarshal_info_stack, core_demarshal_info, Outcome.read, alloca, bind,
        Option.bind, demarshaled, Option.pure_def, h0, g1, g2, g3])
  rcases get_string_cases it3 with g4 | ⟨v4, it4, g4, t4⟩
  · exact Or.inl (by
      simp only
        [core_demarshal_info_stack, core_demarshal_info, Outcome.read, alloca, bind,
        Option.bind, demarshaled, Option.pure_def, h0, g1, g2, g3, g4])
  rcases get_string_cases it4 with g5 | ⟨v5, it5, g5, t5⟩
  · exact Or.inl (by
      simp only
        [core_demarshal_info_stack, core_demarshal_info, Outcome.read, alloca, bind,
        Option.bind, demarshaled, Option.pure_def, h0, g1, g2, g3, g4, g5])
  rcases get_string_cases it5 with g6 | ⟨v6, it6, g6, t6⟩
  · exact Or.inl (by
      simp only
        [core_demarshal_info_stack, core_demarshal_info, Outcome.read, alloca, bind,
        Option.bind, demarshaled, Option.pure_def, h0, g1, g2, g3, g4, g5, g6])
  rcases get_int_cases it6 with g7 | ⟨v7, it7, g7, t7⟩
  · exact Or.inl (by
      simp only
        [core_demarshal_info_stack, core_demarshal_info, Outcome.read, alloca, bind,
        Option.bind, demarshaled, Option.pure_def, h0, g1, g2, g3, g4, g5, g6, g7])
  rcases g8 : spa_pod_iter_get_int it7 with _ | ⟨v8, it8⟩
  · exact Or.inl (by
      simp only
        [core_demarshal_info_stack, core_demarshal_info, Outcome.read, alloca, bind,
        Option.bind, demarshaled, Option.pure_def, h0, g1, g2, g3, g4, g5, g6, g7, g8])
  rcases Nat.lt_or_ge (p.stack)
      (alloca_size v8 p.sizeof_spa_dict_item) with hf8 | hf8
  · refine Or.inr ⟨?_, ?_⟩
    · have hn : ¬ alloca_size v8 p.sizeof_spa_dict_item
          ≤ p.stack :=
        Nat.not_le.mpr hf8
      simp only
        [core_demarshal_info_stack, Outcome.read, alloca, h0, g1, g2, g3, g4, g5, g6, g7, g8,
        hn, if_true, if_false]
    · simp only
        [stack_need, stack_use, element_size, h0, t1, t2, t3, t4, t5, t6, t7, g8,
        eq_self_iff_true, Bool.false_eq_true, if_true, if_false]
      show p.stack < alloca_size v8 p.sizeof_spa_dict_item + _
      omega
  have hf8' : alloca_size v8 p.sizeof_spa_dict_item
      ≤ p.stack := hf8
  rcases dict_items_cases v8 it8 with g9 | ⟨v9, it9, g9, t9⟩
  · exact Or.inl (by
      simp only
        [core_demarshal_info_stack, core_demarshal_info, Outcome.read, alloca, bind,
        Option.bind, demarshaled, Option.pure_def, h0, g1, g2, g3, g4, g5, g6, g7, g8, hf8',
        g9, if_true])
  exact Or.inl (by
    simp only
      [core_demarshal_info_stack, core_demarshal_info, Outcome.read, alloca, bind, Option.bind,
      demarshaled, Option.pure_def, h0, g1, g2, g3, g4, g5, g6, g7, g8, hf8', g9, if_true])

theorem core_demarshal_update_types_client_stack_cases (p : Platform)
    (pw_pod_remap_data : Nat → List Nat → Nat → Option (List Nat))
    (data : List Nat) (size : Nat) :
    core_demarshal_update_types_client_stack p data size
      = Outcome.returned (core_demarshal_update_types_client data size) ∨
    (core_demarshal_update_types_client_stack p data size = Outcome.stack_overflow ∧
      p.stack < stack_need p false
        [.required SPA_POD_TYPE_INT, .counted [SPA_POD_TYPE_STRING]]
        pw_pod_remap_data data size) := by
  rcases h0 : spa_pod_iter_struct data size with _ | it
  · exact Or.inl (by
      simp only
        [core_demarshal_update_types_client_stack, core_demarshal_update_types_client,
        Outcome.read, alloca, bind, Option.bind, demarshaled, Option.pure_def, h0])
  rcases get_int_cases it with g1 | ⟨v1, it1, g1, t1⟩
  · exact Or.inl (by
      simp only
        [core_demarshal_update_types_client_stack, core_demarshal_update_types_client,
        Outcome.read, alloca, bind, Option.bind, demarshaled, Option.pure_def, h0, g1])
  rcases g2 : spa_pod_iter_get_int it1 with _ | ⟨v2, it2⟩
  · exact Or.inl (by
      simp only
        [core_demarshal_update_types_client_stack, core_demarshal_update_types_client,
        Outcome.read, alloca, bind, Option.bind, demarshaled, Option.pure_def, h0, g1, g2])
  rcases Nat.lt_or_ge (p.stack)
      (alloca_size v2 p.sizeof_pointer) with hf2 | hf2
  · refine Or.inr ⟨?_, ?_⟩
    · have hn : ¬ alloca_size v2 p.sizeof_pointer
          ≤ p.stack :=
        Nat.not_le.mpr hf2
      simp only
        [core_demarshal_update_types_client_stack, Outcome.read, alloca, h0, g1, g2, hn,
        if_true, if_false]
    · simp only
        [stack_need, stack_use, element_size, h0, t1, g2, eq_self_iff_true, Bool.false_eq_true,
        if_true, if_false]
      show p.stack < alloca_size v2 p.sizeof_pointer + _
      omega
  have hf2' : alloca_size v2 p.sizeof_pointer
      ≤ p.stack := hf2
  rcases types_cases v2 it2 with g3 | ⟨v3, it3, g3, t3⟩
  · exact Or.inl (by
      simp only
        [core_demarshal_update_types_client_stack, core_demarshal_update_types_client,
        Outcome.read, alloca, bind, Option.bind, demarshaled, Option.pure_def, h0, g1, g2,
        hf2', g3, if_true])
  exact Or.inl (by
    simp only
      [core_demarshal_update_types_client_stack, core_demarshal_update_types_client,
      Outcome.read, alloca, bind, Option.bind, demarshaled, Option.pure_def, h0, g1, g2, hf2',
      g3, if_true])

theorem core_demarshal_client_update_stack_cases (p : Platform)
    (pw_pod_remap_data : Nat → List Nat → Nat → Option (List Nat))
    (data : List Nat) (size : Nat) :
    core_demarshal_client_update_stack p data size
      = Outcome.returned (core_demarshal_client_update data size) ∨
    (core_demarshal_client_update_stack p data size = Outcome.stack_overflow ∧
      p.stack < stack_need p false
        [.counted [SPA_POD_TYPE_STRING, SPA_POD_TYPE_STRING]]
        pw_pod_remap_data data size) := by
  rcases h0 : spa_pod_iter_struct data size with _ | it
  · exact Or.inl (by
      simp only
        [core_demarshal_client_update_stack, core_demarshal_client_update, Outcome.read, alloca,
        bind, Option.bind, demarshaled, Option.pure_def, h0])
  rcases g1 : spa_pod_iter_get_int it with _ | ⟨v1, it1⟩
  · exact Or.inl (by
      simp only
        [core_demarshal_client_update_stack, core_demarshal_client_update, Outcome.read, alloca,
        bind, Option.bind, demarshaled, Option.pure_def, h0, g1])
  rcases Nat.lt_or_ge (p.stack)
      (alloca_size v1 p.sizeof_spa_dict_item) with hf1 | hf1
  · refine Or.inr ⟨?_, ?_⟩
    · have hn : ¬ alloca_size v1 p.sizeof_spa_dict_item
          ≤ p.stack :=
        Nat.not_le.mpr hf1
      simp only
        [core_demarshal_client_update_stack, Outcome.read, alloca, h0, g1, hn, if_true, if_false]
    · simp only
        [stack_need, stack_use, element_size, h0, g1, eq_self_iff_true, Bool.false_eq_true,
        if_true, if_false]
      show p.stack < alloca_size v1 p.sizeof_spa_dict_item + _
      omega
  have hf1' : alloca_size v1 p.sizeof_spa_dict_item
      ≤ p.stack := hf1
  rcases dict_items_cases v1 it1 with g2 | ⟨v2, it2, g2, t2⟩
  · exact Or.inl (by
      simp only
        [core_demarshal_client_update_stack, core_demarshal_client_update, Outcome.read, alloca,
        bind, Option.bind, demarshaled, Option.pure_def, h0, g1, hf1', g2, if_true])
  exact Or.inl (by
    simp only
      [core_demarshal_client_update_stack, core_demarshal_client_update, Outcome.read, alloca,
      bind, Option.bind, demarshaled, Option.pure_def, h0, g1, hf1', g2, if_true])

theorem core_demarshal_create_node_stack_cases (p : Platform)
    (pw_pod_remap_data : Nat → List Nat → Nat → Option (List Nat))
    (data : List Nat) (size : Nat) :
    core_demarshal_create_node_stack p data size
      = Outcome.returned (core_demarshal_create_node data size) ∨
    (core_demarshal_create_node_stack p data size = Outcome.stack_overflow ∧
      p.stack < stack_need p false
        [.required SPA_POD_TYPE_STRING, .required SPA_POD_TYPE_STRING,
        .counted [SPA_POD_TYPE_STRING, SPA_POD_TYPE_STRING], .required SPA_POD_TYPE_INT]
        pw_pod_remap_data data size) := by
  rcases h0 : spa_pod_iter_struct data size with _ | it
  · exact Or.inl (by
      simp only
        [core_demarshal_create_node_stack, core_demarshal_create_node, Outcome.read, alloca,
        bind, Option.bind, demarshaled, Option.pure_def, h0])
  rcases get_string_cases it with g1 | ⟨v1, it1, g1, t1⟩
  · exact Or.inl (by
      simp only
        [core_demarshal_create_node_stack, core_demarshal_create_node, Outcome.read, alloca,
        bind, Option.bind, demarshaled, Option.pure_def, h0, g1])
  rcases get_string_cases it1 with g2 | ⟨v2, it2, g2, t2⟩
  · exact Or.inl (by
      simp only
        [core_demarshal_create_node_stack, core_demarshal_create_node, Outcome.read, alloca,
        bind, Option.bind, demarshaled, Option.pure_def, h0, g1, g2])
  rcases g3 : spa_pod_iter_get_int it2 with _ | ⟨v3, it3⟩
  · exact Or.inl (by
      simp only
        [core_demarshal_create_node_stack, core_demarshal_create_node, Outcome.read, alloca,
        bind, Option.bind, demarshaled, Option.pure_def, h0, g1, g2, g3])
  rcases Nat.lt_or_ge (p.stack)
      (alloca_size v3 p.sizeof_spa_dict_item) with hf3 | hf3
  · refine Or.inr ⟨?_, ?_⟩
    · have hn : ¬ alloca_size v3 p.sizeof_spa_dict_item
          ≤ p.stack :=
        Nat.not_le.mpr hf3
      simp only
        [core_demarshal_create_node_stack, Outcome.read, alloca, h0, g1, g2, g3, hn, if_true,
        if_false]
    · simp only
        [stack_need, stack_use, element_size, h0, t1, t2, g3, eq_self_iff_true,
        Bool.false_eq_true, if_true, if_false]
      show p.stack < alloca_size v3 p.sizeof_spa_dict_item + _
      omega
  have hf3' : alloca_size v3 p.sizeof_spa_dict_item
      ≤ p.stack := hf3
  rcases dict_items_cases v3 it3 with g4 | ⟨v4, it4, g4, t4⟩
  · exact Or.inl (by
      simp only
        [core_demarshal_create_node_stack, core_demarshal_create_node, Outcome.read, alloca,
        bind, Option.bind, demarshaled, Option.pure_def, h0, g1, g2, g3, hf3', g4, if_true])
  rcases get_int_cases it4 with g5 | ⟨v5, it5, g5, t5⟩
  · exact Or.inl (by
      simp only
        [core_demarshal_create_node_stack, core_demarshal_create_node, Outcome.read, alloca,
        bind, Option.bind, demarshaled, Option.pure_def, h0, g1, g2, g3, hf3', g4, g5, if_true])
  exact Or.inl (by
    simp only
      [core_demarshal_create_node_stack, core_demarshal_create_node, Outcome.read, alloca, bind,
      Option.bind, demarshaled, Option.pure_def, h0, g1, g2, g3, hf3', g4, g5, if_true])

theorem core_demarshal_create_link_stack_cases (p : Platform)
    (pw_pod_remap_data : Nat → List Nat → Nat → Option (List Nat))
    (data : List Nat) (size : Nat) :
    core_demarshal_create_link_stack p pw_pod_remap_data data size
      = Outcome.returned (core_demarshal_create_link pw_pod_remap_data data size) ∨
    (core_demarshal_create_link_stack p pw_pod_remap_data data size = Outcome.stack_overflow ∧
      p.stack < stack_need p true
        [.required SPA_POD_TYPE_INT, .required SPA_POD_TYPE_INT, .required SPA_POD_TYPE_INT,
        .required SPA_POD_TYPE_INT, .optional_object,
        .counted [SPA_POD_TYPE_STRING, SPA_POD_TYPE_STRING], .required SPA_POD_TYPE_INT]
        pw_pod_remap_data data size) := by
  rcases h0 : spa_pod_iter_struct data size with _ | it
  · exact Or.inl (by
      simp only
        [core_demarshal_create_link_stack, core_demarshal_create_link, Outcome.read, alloca,
        bind, Option.bind, demarshaled, Option.pure_def, h0])
  rcases hr : pw_pod_remap_data SPA_POD_TYPE_STRUCT data size with _ | data'
  · exact Or.inl (by
      simp only
        [core_demarshal_create_link_stack, core_demarshal_create_link, Outcome.read, alloca,
        bind, Option.bind, demarshaled, Option.pure_def, h0, hr, if_true])
  rcases get_int_cases { it with data := data' } with g1 | ⟨v1, it1, g1, t1⟩
  · exact Or.inl (by
      simp only
        [core_demarshal_create_link_stack, core_demarshal_create_link, Outcome.read, alloca,
        bind, Option.bind, demarshaled, Option.pure_def, h0, hr, g1])
  rcases get_int_cases it1 with g2 | ⟨v2, it2, g2, t2⟩
  · exact Or.inl (by
      simp only
        [core_demarshal_create_link_stack, core_demarshal_create_link, Outcome.read, alloca,
        bind, Option.bind, demarshaled, Option.pure_def, h0, hr, g1, g2])
  rcases get_int_cases it2 with g3 | ⟨v3, it3, g3, t3⟩
  · exact Or.inl (by
      simp only
        [core_demarshal_create_link_stack, core_demarshal_create_link, Outcome.read, alloca,
        bind, Option.bind, demarshaled, Option.pure_def, h0, hr, g1, g2, g3])
  rcases get_int_cases it3 with g4 | ⟨v4, it4, g4, t4⟩
  · exact Or.inl (by
      simp only
        [core_demarshal_create_link_stack, core_demarshal_create_link, Outcome.read, alloca,
        bind, Option.bind, demarshaled, Option.pure_def, h0, hr, g1, g2, g3, g4])
  rcases g5 : spa_pod_iter_get_opt_object it4 with ⟨v5, it5⟩
  rcases g6 : spa_pod_iter_get_int it5 with _ | ⟨v6, it6⟩
  · exact Or.inl (by
      simp only
        [core_demarshal_create_link_stack, core_demarshal_create_link, Outcome.read, alloca,
        bind, Option.bind, demarshaled, Option.pure_def, h0, hr, g1, g2, g3, g4, g5, g6])
  rcases Nat.lt_or_ge (p.stack)
      (alloca_size v6 p.sizeof_spa_dict_item) with hf6 | hf6
  · refine Or.inr ⟨?_, ?_⟩
    · have hn : ¬ alloca_size v6 p.sizeof_spa_dict_item
          ≤ p.stack :=
        Nat.not_le.mpr hf6
      simp only
        [core_demarshal_create_link_stack, Outcome.read, alloca, h0, hr, g1, g2, g3, g4, g5, g6,
        hn, if_true, if_false]
    · simp only
        [stack_need, stack_use, element_size, h0, hr, t1, t2, t3, t4, g5, g6, eq_self_iff_true,
        Bool.false_eq_true, if_true, if_false]
      show p.stack < alloca_size v6 p.sizeof_spa_dict_item + _
      omega
  have hf6' : alloca_size v6 p.sizeof_spa_dict_item
      ≤ p.stack := hf6
  rcases dict_items_cases v6 it6 with g7 | ⟨v7, it7, g7, t7⟩
  · exact Or.inl (by
      simp only
        [core_demarshal_create_link_stack, core_demarshal_create_link, Outcome.read, alloca,
        bind, Option.bind, demarshaled, Option.pure_def, h0, hr, g1, g2, g3, g4, g5, g6, hf6',
        g7, if_true])
  rcases get_int_cases it7 with g8 | ⟨v8, it8, g8, t8⟩
  · exact Or.inl (by
      simp only
        [core_demarshal_create_link_stack, core_demarshal_create_link, Outcome.read, alloca,
        bind, Option.bind, demarshaled, Option.pure_def, h0, hr, g1, g2, g3, g4, g5, g6, hf6',
        g7, g8, if_true])
  exact Or.inl (by
    simp only
      [core_demarshal_create_link_stack, core_demarshal_create_link, Outcome.read, alloca, bind,
      Option.bind, demarshaled, Option.pure_def, h0, hr, g1, g2, g3, g4, g5, g6, hf6', g7, g8,
      if_true])

theorem core_demarshal_update_types_server_stack_cases (p : Platform)
    (pw_pod_remap_data : Nat → List Nat → Nat → Option (List Nat))
    (data : List Nat) (size : Nat) :
    core_demarshal_update_types_server_stack p data size
      = Outcome.returned (core_demarshal_update_types_server data size) ∨
    (core_demarshal_update_types_server_stack p data size = Outcome.stack_overflow ∧
      p.stack < stack_need p false
        [.required SPA_POD_TYPE_INT, .counted [SPA_POD_TYPE_STRING]]
        pw_pod_remap_data data size) := by
  rcases h0 : spa_pod_iter_struct data size with _ | it
  · exact Or.inl (by
      simp only
        [core_demarshal_update_types_server_stack, core_demarshal_update_types_server,
        Outcome.read, alloca, bind, Option.bind, demarshaled, Option.pure_def, h0])
  rcases get_int_cases it with g1 | ⟨v1, it1, g1, t1⟩
  · exact Or.inl (by
      simp only
        [core_demarshal_update_types_server_stack, core_demarshal_update_types_server,
        Outcome.read, alloca, bind, Option.bind, demarshaled, Option.pure_def, h0, g1])
  rcases g2 : spa_pod_iter_get_int it1 with _ | ⟨v2, it2⟩
  · exact Or.inl (by
      simp only
        [core_demarshal_update_types_server_stack, core_demarshal_update_types_server,
        Outcome.read, alloca, bind, Option.bind, demarshaled, Option.pure_def, h0, g1, g2])
  rcases Nat.lt_or_ge (p.stack)
      (alloca_size v2 p.sizeof_pointer) with hf2 | hf2
  · refine Or.inr ⟨?_, ?_⟩
    · have hn : ¬ alloca_size v2 p.sizeof_pointer
          ≤ p.stack :=
        Nat.not_le.mpr hf2
      simp only
        [core_demarshal_update_types_server_stack, Outcome.read, alloca, h0, g1, g2, hn,
        if_true, if_false]
    · simp only
        [stack_need, stack_use, element_size, h0, t1, g2, eq_self_iff_true, Bool.false_eq_true,
        if_true, if_false]
      show p.stack < alloca_size v2 p.sizeof_pointer + _
      omega
  have hf2' : alloca_size v2 p.sizeof_pointer
      ≤ p.stack := hf2
  rcases types_cases v2 it2 with g3 | ⟨v3, it3, g3, t3⟩
  · exact Or.inl (by
      simp only
        [core_demarshal_update_types_server_stack, core_demarshal_update_types_server,
        Outcome.read, alloca, bind, Option.bind, demarshaled, Option.pure_def, h0, g1, g2,
        hf2', g3, if_true])
  exact Or.inl (by
    simp only
      [core_demarshal_update_types_server_stack, core_demarshal_update_types_server,
      Outcome.read, alloca, bind, Option.bind, demarshaled, Option.pure_def, h0, g1, g2, hf2',
      g3, if_true])

theorem module_demarshal_info_stack_cases (p : Platform)
    (pw_pod_remap_data : Nat → List Nat → Nat → Option (List Nat))
    (data : List Nat) (size : Nat) :
    module_demarshal_info_stack p data size
      = Outcome.returned (module_demarshal_info data size) ∨
    (module_demarshal_info_stack p data size = Outcome.stack_overflow ∧
      p.stack < stack_need p false
        [.required SPA_POD_TYPE_INT, .required SPA_POD_TYPE_LONG, .required SPA_POD_TYPE_STRING,
        .required SPA_POD_TYPE_STRING, .required SPA_POD_TYPE_STRING,
        .counted [SPA_POD_TYPE_STRING, SPA_POD_TYPE_STRING]]
        pw_pod_remap_data data size) := by
  rcases h0 : spa_pod_iter_struct data size with _ | it
  · exact Or.inl (by
      simp only
        [module_demarshal_info_stack, module_demarshal_info, Outcome.read, alloca, bind,
        Option.bind, demarshaled, Option.pure_def, h0])
  rcases get_int_cases it with g1 | ⟨v1, it1, g1, t1⟩
  · exact Or.inl (by
      simp only
        [module_demarshal_info_stack, module_demarshal_info, Outcome.read, alloca, bind,
        Option.bind, demarshaled, Option.pure_def, h0, g1])
  rcases get_long_cases it1 with g2 | ⟨v2, it2, g2, t2⟩
  · exact Or.inl (by
      simp only
        [module_demarshal_info_stack, module_demarshal_info, Outcome.read, alloca, bind,
        Option.bind, demarshaled, Option.pure_def, h0, g1, g2])
  rcases get_string_cases it2 with g3 | ⟨v3, it3, g3, t3⟩
  · exact Or.inl (by
      simp only
        [module_demarshal_info_stack, module_demarshal_info, Outcome.read, alloca, bind,
        Option.bind, demarshaled, Option.pure_def, h0, g1, g2, g3])
  rcases get_string_cases it3 with g4 | ⟨v4, it4, g4, t4⟩
  · exact Or.inl (by
      simp only
        [module_demarshal_info_stack, module_demarshal_info, Outcome.read, alloca, bind,
        Option.bind, demarshaled, Option.pure_def, h0, g1, g2, g3, g4])
  rcases get_string_cases it4 with g5 | ⟨v5, it5, g5, t5⟩
  · exact Or.inl (by
      simp only
        [module_demarshal_info_stack, module_demarshal_info, Outcome.read, alloca, bind,
        Option.bind, demarshaled, Option.pure_def, h0, g1, g2, g3, g4, g5])
  rcases g6 : spa_pod_iter_get_int it5 with _ | ⟨v6, it6⟩
  · exact Or.inl (by
      simp only
        [module_demarshal_info_stack, module_demarshal_info, Outcome.read, alloca, bind,
        Option.bind, demarshaled, Option.pure_def, h0, g1, g2, g3, g4, g5, g6])
  rcases Nat.lt_or_ge (p.stack)
      (alloca_size v6 p.sizeof_spa_dict_item) with hf6 | hf6
  · refine Or.inr ⟨?_, ?_⟩
    · have hn : ¬ alloca_size v6 p.sizeof_spa_dict_item
          ≤ p.stack :=
        Nat.not_le.mpr hf6
      simp only
        [module_demarshal_info_stack, Outcome.read, alloca, h0, g1, g2, g3, g4, g5, g6, hn,
        if_true, if_false]
    · simp only
        [stack_need, stack_use, element_size, h0, t1, t2, t3, t4, t5, g6, eq_self_iff_true,
        Bool.false_eq_true, if_true, if_false]
      show p.stack < alloca_size v6 p.sizeof_spa_dict_item + _
      omega
  have hf6' : alloca_size v6 p.sizeof_spa_dict_item
      ≤ p.stack := hf6
  rcases dict_items_cases v6 it6 with g7 | ⟨v7, it7, g7, t7⟩
  · exact Or.inl (by
      simp only
        [module_demarshal_info_stack, module_demarshal_info, Outcome.read, alloca, bind,
        Option.bind, demarshaled, Option.pure_def, h0, g1, g2, g3, g4, g5, g6, hf6', g7, if_true])
  exact Or.inl (by
    simp only
      [module_demarshal_info_stack, module_demarshal_info, Outcome.read, alloca, bind,
      Option.bind, demarshaled, Option.pure_def, h0, g1, g2, g3, g4, g5, g6, hf6', g7, if_true])

theorem node_demarshal_info_stack_cases (p : Platform)
    (pw_pod_remap_data : Nat → List Nat → Nat → Option (List Nat))
    (data : List Nat) (size : Nat) :
    node_demarshal_info_stack p pw_pod_remap_data data size
      = Outcome.returned (node_demarshal_info pw_pod_remap_data data size) ∨
    (node_demarshal_info_stack p pw_pod_remap_data data size = Outcome.stack_overflow ∧
      p.stack < stack_need p true
        [.required SPA_POD_TYPE_INT, .required SPA_POD_TYPE_LONG, .required SPA_POD_TYPE_STRING,
        .required SPA_POD_TYPE_INT, .required SPA_POD_TYPE_INT, .counted [SPA_POD_TYPE_OBJECT],
        .required SPA_POD_TYPE_INT, .required SPA_POD_TYPE_INT, .counted [SPA_POD_TYPE_OBJECT],
        .required SPA_POD_TYPE_INT, .required SPA_POD_TYPE_STRING,
        .counted [SPA_POD_TYPE_STRING, SPA_POD_TYPE_STRING]]
        pw_pod_remap_data data size) := by
  rcases h0 : spa_pod_iter_struct data size with _ | it
  · exact Or.inl (by
      simp only
        [node_demarshal_info_stack, node_demarshal_info, node_demarshal_info_get1,
        node_demarshal_info_get2, node_demarshal_info_get3, Outcome.read, alloca, bind,
        Option.bind, demarshaled, Option.pure_def, h0])
  rcases hr : pw_pod_remap_data SPA_POD_TYPE_STRUCT data size with _ | data'
  · exact Or.inl (by
      simp only
        [node_demarshal_info_stack, node_demarshal_info, node_demarshal_info_get1,
        node_demarshal_info_get2, node_demarshal_info_get3, Outcome.read, alloca, bind,
        Option.bind, demarshaled, Option.pure_def, h0, hr, if_true])
  rcases get_int_cases { it with data := data' } with g1 | ⟨v1, it1, g1, t1⟩
  · exact Or.inl (by
      simp only
        [node_demarshal_info_stack, node_demarshal_info, node_demarshal_info_get1,
        node_demarshal_info_get2, node_demarshal_info_get3, Outcome.read, alloca, bind,
        Option.bind, demarshaled, Option.pure_def, h0, hr, g1])
  rcases get_long_cases it1 with g2 | ⟨v2, it2, g2, t2⟩
  · exact Or.inl (by
      simp only
        [node_demarshal_info_stack, node_demarshal_info, node_demarshal_info_get1,
        node_demarshal_info_get2, node_demarshal_info_get3, Outcome.read, alloca, bind,
        Option.bind, demarshaled, Option.pure_def, h0, hr, g1, g2])
  rcases get_string_cases it2 with g3 | ⟨v3, it3, g3, t3⟩
  · exact Or.inl (by
      simp only
        [node_demarshal_info_stack, node_demarshal_info, node_demarshal_info_get1,
        node_demarshal_info_get2, node_demarshal_info_get3, Outcome.read, alloca, bind,
        Option.bind, demarshaled, Option.pure_def, h0, hr, g1, g2, g3])
  rcases get_int_cases it3 with g4 | ⟨v4, it4, g4, t4⟩
  · exact Or.inl (by
      simp only
        [node_demarshal_info_stack, node_demarshal_info, node_demarshal_info_get1,
        node_demarshal_info_get2, node_demarshal_info_get3, Outcome.read, alloca, bind,
        Option.bind, demarshaled, Option.pure_def, h0, hr, g1, g2, g3, g4])
  rcases get_int_cases it4 with g5 | ⟨v5, it5, g5, t5⟩
  · exact Or.inl (by
      simp only
        [node_demarshal_info_stack, node_demarshal_info, node_demarshal_info_get1,
        node_demarshal_info_get2, node_demarshal_info_get3, Outcome.read, alloca, bind,
        Option.bind, demarshaled, Option.pure_def, h0, hr, g1, g2, g3, g4, g5])
  rcases g6 : spa_pod_iter_get_int it5 with _ | ⟨v6, it6⟩
  · exact Or.inl (by
      simp only
        [node_demarshal_info_stack, node_demarshal_info, node_demarshal_info_get1,
        node_demarshal_info_get2, node_demarshal_info_get3, Outcome.read, alloca, bind,
        Option.bind, demarshaled, Option.pure_def, h0, hr, g1, g2, g3, g4, g5, g6])
  rcases Nat.lt_or_ge (p.stack)
      (alloca_size v6 p.sizeof_pointer) with hf6 | hf6
  · refine Or.inr ⟨?_, ?_⟩
    · have hn : ¬ alloca_size v6 p.sizeof_pointer
          ≤ p.stack :=
        Nat.not_le.mpr hf6
      simp only
        [node_demarshal_info_stack, Outcome.read, alloca, h0, hr, g1, g2, g3, g4, g5, g6, hn,
        if_true, if_false]
    · simp only
        [stack_need, stack_use, element_size, h0, hr, t1, t2, t3, t4, t5, g6, eq_self_iff_true,
        Bool.false_eq_true, if_true, if_false]
      show p.stack < alloca_size v6 p.sizeof_pointer + _
      omega
  have hf6' : alloca_size v6 p.sizeof_pointer
      ≤ p.stack := hf6
  rcases formats_cases v6 it6 with g7 | ⟨v7, it7, g7, t7⟩
  · exact Or.inl (by
      simp only
        [node_demarshal_info_stack, node_demarshal_info, node_demarshal_info_get1,
        node_demarshal_info_get2, node_demarshal_info_get3, Outcome.read, alloca, bind,
        Option.bind, demarshaled, Option.pure_def, h0, hr, g1, g2, g3, g4, g5, g6, hf6', g7,
        if_true])
  rcases get_int_cases it7 with g8 | ⟨v8, it8, g8, t8⟩
  · exact Or.inl (by
      simp only
        [node_demarshal_info_stack, node_demarshal_info, node_demarshal_info_get1,
        node_demarshal_info_get2, node_demarshal_info_get3, Outcome.read, alloca, bind,
        Option.bind, demarshaled, Option.pure_def, h0, hr, g1, g2, g3, g4, g5, g6, hf6', g7,
        g8, if_true])
  rcases get_int_cases it8 with g9 | ⟨v9, it9, g9, t9⟩
  · exact Or.inl (by
      simp only
        [node_demarshal_info_stack, node_demarshal_info, node_demarshal_info_get1,
        node_demarshal_info_get2, node_demarshal_info_get3, Outcome.read, alloca, bind,
        Option.bind, demarshaled, Option.pure_def, h0, hr, g1, g2, g3, g4, g5, g6, hf6', g7,
        g8, g9, if_true])
  rcases g10 : spa_pod_iter_get_int it9 with _ | ⟨v10, it10⟩
  · exact Or.inl (by
      simp only
        [node_demarshal_info_stack, node_demarshal_info, node_demarshal_info_get1,
        node_demarshal_info_get2, node_demarshal_info_get3, Outcome.read, alloca, bind,
        Option.bind, demarshaled, Option.pure_def, h0, hr, g1, g2, g3, g4, g5, g6, hf6', g7,
        g8, g9, g10, if_true])
  rcases Nat.lt_or_ge (p.stack - alloca_size v6 p.sizeof_pointer)
      (alloca_size v10 p.sizeof_pointer) with hf10 | hf10
  · refine Or.inr ⟨?_, ?_⟩
    · have hn : ¬ alloca_size v10 p.sizeof_pointer
          ≤ p.stack - alloca_size v6 p.sizeof_pointer :=
        Nat.not_le.mpr hf10
      simp only
        [node_demarshal_info_stack, Outcome.read, alloca, h0, hr, g1, g2, g3, g4, g5, g6, hf6',
        g7, g8, g9, g10, hn, if_true, if_false]
    · simp only
        [stack_need, stack_use, element_size, h0, hr, t1, t2, t3, t4, t5, g6, t7, t8, t9, g10,
        eq_self_iff_true, Bool.false_eq_true, if_true, if_false]
      show p.stack < alloca_size v6 p.sizeof_pointer + (alloca_size v10 p.sizeof_pointer + _)
      omega
  have hf10' : alloca_size v10 p.sizeof_pointer
      ≤ p.stack - alloca_size v6 p.sizeof_pointer := hf10
  rcases formats_cases v10 it10 with g11 | ⟨v11, it11, g11, t11⟩
  · exact Or.inl (by
      simp only
        [node_demarshal_info_stack, node_demarshal_info, node_demarshal_info_get1,
        node_demarshal_info_get2, node_demarshal_info_get3, Outcome.read, alloca, bind,
        Option.bind, demarshaled, Option.pure_def, h0, hr, g1, g2, g3, g4, g5, g6, hf6', g7,
        g8, g9, g10, hf10', g11, if_true])
  rcases get_int_cases it11 with g12 | ⟨v12, it12, g12, t12⟩
  · exact Or.inl (by
      simp only
        [node_demarshal_info_stack, node_demarshal_info, node_demarshal_info_get1,
        node_demarshal_info_get2, node_demarshal_info_get3, Outcome.read, alloca, bind,
        Option.bind, demarshaled, Option.pure_def, h0, hr, g1, g2, g3, g4, g5, g6, hf6', g7,
        g8, g9, g10, hf10', g11, g12, if_true])
  rcases get_string_cases it12 with g13 | ⟨v13, it13, g13, t13⟩
  · exact Or.inl (by
      simp only
        [node_demarshal_info_stack, node_demarshal_info, node_demarshal_info_get1,
        node_demarshal_info_get2, node_demarshal_info_get3, Outcome.read, alloca, bind,
        Option.bind, demarshaled, Option.pure_def, h0, hr, g1, g2, g3, g4, g5, g6, hf6', g7,
        g8, g9, g10, hf10', g11, g12, g13, if_true])
  rcases g14 : spa_pod_iter_get_int it13 with _ | ⟨v14, it14⟩
  · exact Or.inl (by
      simp only
        [node_demarshal_info_stack, node_demarshal_info, node_demarshal_info_get1,
        node_demarshal_info_get2, node_demarshal_info_get3, Outcome.read, alloca, bind,
        Option.bind, demarshaled, Option.pure_def, h0, hr, g1, g2, g3, g4, g5, g6, hf6', g7,
        g8, g9, g10, hf10', g11, g12, g13, g14, if_true])
  rcases Nat.lt_or_ge (p.stack - alloca_size v6 p.sizeof_pointer - alloca_size v10 p.sizeof_pointer)
      (alloca_size v14 p.sizeof_spa_dict_item) with hf14 | hf14
  · refine Or.inr ⟨?_, ?_⟩
    · have hn : ¬ alloca_size v14 p.sizeof_spa_dict_item
          ≤ p.stack - alloca_size v6 p.sizeof_pointer - alloca_size v10 p.sizeof_pointer :=
        Nat.not_le.mpr hf14
      simp only
        [node_demarshal_info_stack, Outcome.read, alloca, h0, hr, g1, g2, g3, g4, g5, g6, hf6',
        g7, g8, g9, g10, hf10', g11, g12, g13, g14, hn, if_true, if_false]
    · simp only
        [stack_need, stack_use, element_size, h0, hr, t1, t2, t3, t4, t5, g6, t7, t8, t9, g10,
        t11, t12, t13, g14, eq_self_iff_true, Bool.false_eq_true, if_true, if_false]
      show p.stack <
        alloca_size v6 p.sizeof_pointer +
          (alloca_size v10 p.sizeof_pointer +
          (alloca_size v14 p.sizeof_spa_dict_item + _))
      omega
  have hf14' : alloca_size v14 p.sizeof_spa_dict_item
      ≤ p.stack - alloca_size v6 p.sizeof_pointer - alloca_size v10 p.sizeof_pointer := hf14
  rcases dict_items_cases v14 it14 with g15 | ⟨v15, it15, g15, t15⟩
  · exact Or.inl (by
      simp only
        [node_demarshal_info_stack, node_demarshal_info, node_demarshal_info_get1,
        node_demarshal_info_get2, node_demarshal_info_get3, Outcome.read, alloca, bind,
        Option.bind, demarshaled, Option.pure_def, h0, hr, g1, g2, g3, g4, g5, g6, hf6', g7,
        g8, g9, g10, hf10', g11, g12, g13, g14, hf14', g15, if_true])
  exact Or.inl (by
    simp only
      [node_demarshal_info_stack, node_demarshal_info, node_demarshal_info_get1,
      node_demarshal_info_get2, node_demarshal_info_get3, Outcome.read, alloca, bind,
      Option.bind, demarshaled, Option.pure_def, h0, hr, g1, g2, g3, g4, g5, g6, hf6', g7, g8,
      g9, g10, hf10', g11, g12, g13, g14, hf14', g15, if_true])

theorem client_demarshal_info_stack_cases (p : Platform)
    (pw_pod_remap_data : Nat → List Nat → Nat → Option (List Nat))
    (data : List Nat) (size : Nat) :
    client_demarshal_info_stack p data size
      = Outcome.returned (client_demarshal_info data size) ∨
    (client_demarshal_info_stack p data size = Outcome.stack_overflow ∧
      p.stack < stack_need p false
        [.required SPA_POD_TYPE_INT, .required SPA_POD_TYPE_LONG,
        .counted [SPA_POD_TYPE_STRING, SPA_POD_TYPE_STRING]]
        pw_pod_remap_data data size) := by
  rcases h0 : spa_pod_iter_struct data size with _ | it
  · exact Or.inl (by
      simp only
        [client_demarshal_info_stack, client_demarshal_info, Outcome.read, alloca, bind,
        Option.bind, demarshaled, Option.pure_def, h0])
  rcases get_int_cases it with g1 | ⟨v1, it1, g1, t1⟩
  · exact Or.inl (by
      simp only
        [client_demarshal_info_stack, client_demarshal_info, Outcome.read, alloca, bind,
        Option.bind, demarshaled, Option.pure_def, h0, g1])
  rcases get_long_cases it1 with g2 | ⟨v2, it2, g2, t2⟩
  · exact Or.inl (by
      simp only
        [client_demarshal_info_stack, client_demarshal_info, Outcome.read, alloca, bind,
        Option.bind, demarshaled, Option.pure_def, h0, g1, g2])
  rcases g3 : spa_pod_iter_get_int it2 with _ | ⟨v3, it3⟩
  · exact Or.inl (by
      simp only
        [client_demarshal_info_stack, client_demarshal_info, Outcome.read, alloca, bind,
        Option.bind, demarshaled, Option.pure_def, h0, g1, g2, g3])
  rcases Nat.lt_or_ge (p.stack)
      (alloca_size v3 p.sizeof_spa_dict_item) with hf3 | hf3
  · refine Or.inr ⟨?_, ?_⟩
    · have hn : ¬ alloca_size v3 p.sizeof_spa_dict_item
          ≤ p.stack :=
        Nat.not_le.mpr hf3
      simp only
        [client_demarshal_info_stack, Outcome.read, alloca, h0, g1, g2, g3, hn, if_true, if_false]
    · simp only
        [stack_need, stack_use, element_size, h0, t1, t2, g3, eq_self_iff_true,
        Bool.false_eq_true, if_true, if_false]
      show p.stack < alloca_size v3 p.sizeof_spa_dict_item + _
      omega
  have hf3' : alloca_size v3 p.sizeof_spa_dict_item
      ≤ p.stack := hf3
  rcases dict_items_cases v3 it3 with g4 | ⟨v4, it4, g4, t4⟩
  · exact Or.inl (by
      simp only
        [client_demarshal_info_stack, client_demarshal_info, Outcome.read, alloca, bind,
        Option.bind, demarshaled, Option.pure_def, h0, g1, g2, g3, hf3', g4, if_true])
  exact Or.inl (by
    simp only
      [client_demarshal_info_stack, client_demarshal_info, Outcome.read, alloca, bind,
      Option.bind, demarshaled, Option.pure_def, h0, g1, g2, g3, hf3', g4, if_true])

theorem stack_reject_of_cases {o : Outcome} {d : Demarshaled} {stack need : Nat}
    (c : o = Outcome.returned d ∨ (o = Outcome.stack_overflow ∧ stack < need))
    (h : d = ⟨false, []⟩) :
    o = Outcome.returned ⟨false, []⟩ ∨ (o = Outcome.stack_overflow ∧ stack < need) := by
  subst h
  exact c

/-- The demarshalers on a platform carry the flags and the schemas of `demarshalers`. -/
theorem demarshalers_stack_schemas :
    demarshalers_stack.map (fun e => e.2) = demarshalers.map (fun e => e.2) := rfl

/-- Each of the eighteen demarshalers, when the walk along its schema fails, returns
false, unless an allocation for a declared count does not fit in the stack. -/
theorem demarshalers_stack_reject (p : Platform)
    (pw_pod_remap_data : Nat → List Nat → Nat → Option (List Nat))
    (data : List Nat) (size : Nat) :
    ∀ e ∈ demarshalers_stack,
      (∀ it data', spa_pod_iter_struct data size = some it →
        remapped e.2.1 pw_pod_remap_data data size = some data' →
        walk e.2.2 { it with data := data' } = none) →
      e.1 p pw_pod_remap_data data size = Outcome.returned ⟨false, []⟩ ∨
      (e.1 p pw_pod_remap_data data size = Outcome.stack_overflow ∧
        p.stack < stack_need p e.2.1 e.2.2 pw_pod_remap_data data size) := by
  have flat : ∀ schema, (∀ it data', spa_pod_iter_struct data size = some it →
        remapped false pw_pod_remap_data data size = some data' →
        walk schema { it with data := data' } = none) →
      ∀ it, spa_pod_iter_struct data size = some it → walk schema it = none :=
    fun schema key it h => walk_rebase _ data size it h (key it data h rfl)
  simp only [demarshalers_stack, demarshal_stack_functions, demarshalers, List.zipWith,
    List.forall_mem_cons]
  split_ands
  · exact fun key => stack_reject_of_cases
      (core_demarshal_update_types_client_stack_cases p pw_pod_remap_data data size)
      (core_demarshal_update_types_client_rejects data size (flat _ key))
  · exact fun key => Or.inl (congrArg _ (core_demarshal_done_rejects data size (flat _ key)))
  · exact fun key => Or.inl (congrArg _ (core_demarshal_error_rejects data size (flat _ key)))
  · exact fun key => Or.inl (congrArg _ (core_demarshal_remove_id_rejects data size (flat _ key)))
  · exact fun key => stack_reject_of_cases
      (core_demarshal_info_stack_cases p pw_pod_remap_data data size)
      (core_demarshal_info_rejects data size (flat _ key))
  · exact fun key => Or.inl
      (congrArg _ (registry_demarshal_global_rejects data size (flat _ key)))
  · exact fun key => Or.inl
      (congrArg _ (registry_demarshal_global_remove_rejects data size (flat _ key)))
  · exact fun key => stack_reject_of_cases
      (module_demarshal_info_stack_cases p pw_pod_remap_data data size)
      (module_demarshal_info_rejects data size (flat _ key))
  · exact fun key => stack_reject_of_cases
      (node_demarshal_info_stack_cases p pw_pod_remap_data data size)
      (node_demarshal_info_rejects pw_pod_remap_data data size key)
  · exact fun key => stack_reject_of_cases
      (client_demarshal_info_stack_cases p pw_pod_remap_data data size)
      (client_demarshal_info_rejects data size (flat _ key))
  · exact fun key => Or.inl
      (congrArg _ (link_demarshal_info_rejects pw_pod_remap_data data size key))
  · exact fun key => stack_reject_of_cases
      (core_demarshal_update_types_server_stack_cases p pw_pod_remap_data data size)
      (core_demarshal_update_types_server_rejects data size (flat _ key))
  · exact fun key => Or.inl (congrArg _ (core_demarshal_sync_rejects data size (flat _ key)))
  · exact fun key => Or.inl
      (congrArg _ (core_demarshal_get_registry_rejects data size (flat _ key)))
  · exact fun key => stack_reject_of_cases
      (core_demarshal_client_update_stack_cases p pw_pod_remap_data data size)
      (core_demarshal_client_update_rejects data size (flat _ key))
  · exact fun key => stack_reject_of_cases
      (core_demarshal_create_node_stack_cases p pw_pod_remap_data data size)
      (core_demarshal_create_node_rejects data size (flat _ key))
  · exact fun key => stack_reject_of_cases
      (core_demarshal_create_link_stack_cases p pw_pod_remap_data data size)
      (core_demarshal_create_link_rejects pw_pod_remap_data data size key)
  · exact fun key => Or.inl (congrArg _ (registry_demarshal_bind_rejects data size (flat _ key)))
  · intro e he
    cases he

theorem stack_need_none (p : Platform) (remaps : Bool) (schema : List Slot)
    (pw_pod_remap_data : Nat → List Nat → Nat → Option (List Nat))
    (data : List Nat) (size : Nat) (h : spa_pod_iter_struct data size = none) :
    stack_need p remaps schema pw_pod_remap_data data size = 0 := by
  simp only [stack_need, h]

/-- The payload core.client_update with the count 1000000 and no items, 20 bytes: the
count is larger than the number of records that follow, and on a platform with 8 MiB
of stack the array of 16000000 bytes allocated for the count does not fit: the call
does not return false, it overflows the stack before any item is read. The same for
client.info with that count. -/
theorem client_update_stack_overflow :
    SchemaMismatch false [.counted [SPA_POD_TYPE_STRING, SPA_POD_TYPE_STRING]] remap_identity
      (encodeStruct [Pod.int 1000000]) 20 ∧
    alloca_size 1000000 platform_example.sizeof_spa_dict_item = 16000000 ∧
    core_demarshal_client_update_stack platform_example (encodeStruct [Pod.int 1000000]) 20
      = Outcome.stack_overflow ∧
    client_demarshal_info_stack platform_example
        (encodeStruct [Pod.int 4, Pod.long 1, Pod.int 1000000]) 48
      = Outcome.stack_overflow :=
  ⟨⟨⟨encodeStruct [Pod.int 1000000], 20, 8⟩, encodeStruct [Pod.int 1000000], by decide, rfl,
      by decide⟩,
   by decide, by decide, by decide⟩

/-- C18: every demarshaler, on every payload that is not a top-level Struct, or is
truncated (shorter than a header or than the extent its header declares), or whose
records do not follow the schema (at some schema position the record is missing, cut
short or has another tag than the required one, or a declared count is larger than
the number of records that follow), returns false without invoking the handler
whenever the arrays it allocates on the stack for the declared counts fit in the
stack; on a payload that is not a Struct or is truncated nothing is allocated and it
returns false on every platform. When an array does not fit, the allocation, which
precedes the loop that reads the elements, overflows the stack and the call does not
return; no other outcome exists. -/
theorem C18_decode_errors (p : Platform) (demarshal : demarshal_stack_t) (remaps : Bool)
    (schema : List Slot) (pw_pod_remap_data : Nat → List Nat → Nat → Option (List Nat))
    (data : List Nat) (size : Nat)
    (hd : (demarshal, remaps, schema) ∈ demarshalers_stack)
    (hbad : NotStruct data ∨ Truncated data size ∨
      SchemaMismatch remaps schema pw_pod_remap_data data size) :
    (stack_need p remaps schema pw_pod_remap_data data size ≤ p.stack →
      demarshal p pw_pod_remap_data data size = Outcome.returned ⟨false, []⟩) ∧
    (NotStruct data ∨ Truncated data size →
      stack_need p remaps schema pw_pod_remap_data data size = 0 ∧
      demarshal p pw_pod_remap_data data size = Outcome.returned ⟨false, []⟩) ∧
    (demarshal p pw_pod_remap_data data size = Outcome.returned ⟨false, []⟩ ∨
      (demarshal p pw_pod_remap_data data size = Outcome.stack_overflow ∧
        p.stack < stack_need p remaps schema pw_pod_remap_data data size)) := by
  have key : ∀ it data', spa_pod_iter_struct data size = some it →
      remapped remaps pw_pod_remap_data data size = some data' →
      walk schema { it with data := data' } = none := by
    intro it data' h0 hv
    rcases hbad with h | h | ⟨it0, d0, h1, h2, h3⟩
    · rw [iter_struct_none data size (Or.inl h)] at h0
      cases h0
    · rw [iter_struct_none data size (Or.inr h)] at h0
      cases h0
    · rw [h1] at h0
      rw [h2] at hv
      cases h0
      cases hv
      exact h3
  have h := demarshalers_stack_reject p pw_pod_remap_data data size (demarshal, remaps, schema)
    hd key
  have hfit : stack_need p remaps schema pw_pod_remap_data data size ≤ p.stack →
      demarshal p pw_pod_remap_data data size = Outcome.returned ⟨false, []⟩ := by
    intro hle
    rcases h with h | ⟨-, hlt⟩
    · exact h
    · exact absurd hlt (Nat.not_lt.mpr hle)
  refine ⟨hfit, ?_, h⟩
  intro hs
  have hz := stack_need_none p remaps schema pw_pod_remap_data data size
    (iter_struct_none data size hs)
  exact ⟨hz, hfit (by rw [hz]; exact Nat.zero_le _)⟩

/-- C18 on a platform with 8 MiB of stack, at four malformed payloads: core.sync with a
String where the Int32 is required; core.client_update declaring two items with one
pair following, whose array of 32 bytes fits; node.info on a payload whose top-level
record is an Int32; core.create_node on the first ten bytes of a payload. Each is
rejected without a handler call. -/
theorem C18_decode_errors_witness :
    (SchemaMismatch false [.required SPA_POD_TYPE_INT] remap_identity
        (encodeStruct [Pod.string [97]]) 20 ∧
      SchemaMismatch false [.counted [SPA_POD_TYPE_STRING, SPA_POD_TYPE_STRING]] remap_identity
        (encodeStruct [Pod.int 2, Pod.string [97], Pod.string [98]]) 44 ∧
      stack_need platform_example false [.counted [SPA_POD_TYPE_STRING, SPA_POD_TYPE_STRING]]
        remap_identity (encodeStruct [Pod.int 2, Pod.string [97], Pod.string [98]]) 44 = 32 ∧
      NotStruct (Pod.int 7).encode ∧
      Truncated ((encodeStruct [Pod.string [102], Pod.string [110], Pod.int 0, Pod.int 9]).take
        10) 10) ∧
    Outcome.returned (core_demarshal_sync (encodeStruct [Pod.string [97]]) 20)
      = Outcome.returned ⟨false, []⟩ ∧
    core_demarshal_client_update_stack platform_example
      (encodeStruct [Pod.int 2, Pod.string [97], Pod.string [98]]) 44
      = Outcome.returned ⟨false, []⟩ ∧
    node_demarshal_info_stack platform_example remap_identity (Pod.int 7).encode 12
      = Outcome.returned ⟨false, []⟩ ∧
    core_demarshal_create_node_stack platform_example
      ((encodeStruct [Pod.string [102], Pod.string [110], Pod.int 0, Pod.int 9]).take 10) 10
      = Outcome.returned ⟨false, []⟩ :=
  have h1 : SchemaMismatch false [.required SPA_POD_TYPE_INT] remap_identity
      (encodeStruct [Pod.string [97]]) 20 :=
    ⟨⟨encodeStruct [Pod.string [97]], 20, 8⟩, encodeStruct [Pod.string [97]], by decide, rfl,
      by decide⟩
  have h2 : SchemaMismatch false [.counted [SPA_POD_TYPE_STRING, SPA_POD_TYPE_STRING]]
      remap_identity (encodeStruct [Pod.int 2, Pod.string [97], Pod.string [98]]) 44 :=
    ⟨⟨encodeStruct [Pod.int 2, Pod.string [97], Pod.string [98]], 44, 8⟩,
      encodeStruct [Pod.int 2, Pod.string [97], Pod.string [98]], by decide, rfl, by decide⟩
  have h2n : stack_need platform_example false
      [.counted [SPA_POD_TYPE_STRING, SPA_POD_TYPE_STRING]] remap_identity
      (encodeStruct [Pod.int 2, Pod.string [97], Pod.string [98]]) 44 = 32 := by decide
  have h3 : NotStruct (Pod.int 7).encode := by unfold NotStruct; decide
  have h4 : Truncated
      ((encodeStruct [Pod.string [102], Pod.string [110], Pod.int 0, Pod.int 9]).take 10)
      10 := by unfold Truncated; decide
  have m1 : ((fun _ _ data size => Outcome.returned (core_demarshal_sync data size), false,
      [Slot.required SPA_POD_TYPE_INT]) : demarshal_stack_t × Bool × List Slot)
      ∈ demarshalers_stack := by
    simp [demarshalers_stack, demarshal_stack_functions, demarshalers]
  have m2 : ((fun p _ => core_demarshal_client_update_stack p, false,
      [Slot.counted [SPA_POD_TYPE_STRING, SPA_POD_TYPE_STRING]]) :
      demarshal_stack_t × Bool × List Slot) ∈ demarshalers_stack := by
    simp [demarshalers_stack, demarshal_stack_functions, demarshalers]
  have m3 : ((node_demarshal_info_stack, true,
      [.required SPA_POD_TYPE_INT, .required SPA_POD_TYPE_LONG, .required SPA_POD_TYPE_STRING,
       .required SPA_POD_TYPE_INT, .required SPA_POD_TYPE_INT,
       .counted [SPA_POD_TYPE_OBJECT],
       .required SPA_POD_TYPE_INT, .required SPA_POD_TYPE_INT,
       .counted [SPA_POD_TYPE_OBJECT],
       .required SPA_POD_TYPE_INT, .required SPA_POD_TYPE_STRING,
       .counted [SPA_POD_TYPE_STRING, SPA_POD_TYPE_STRING]]) :
      demarshal_stack_t × Bool × List Slot) ∈ demarshalers_stack := by
    simp [demarshalers_stack, demarshal_stack_functions, demarshalers]
  have m4 : ((fun p _ => core_demarshal_create_node_stack p, false,
      [.required SPA_POD_TYPE_STRING, .required SPA_POD_TYPE_STRING,
       .counted [SPA_POD_TYPE_STRING, SPA_POD_TYPE_STRING], .required SPA_POD_TYPE_INT]) :
      demarshal_stack_t × Bool × List Slot) ∈ demarshalers_stack := by
    simp [demarshalers_stack, demarshal_stack_functions, demarshalers]
  ⟨⟨h1, h2, h2n, h3, h4⟩,
   (C18_decode_errors platform_example _ _ _ remap_identity _ 20 m1 (Or.inr (Or.inr h1))).1
     (by decide),
   (C18_decode_errors platform_example _ _ _ remap_identity _ 44 m2 (Or.inr (Or.inr h2))).1
     (by rw [h2n]; decide),
   ((C18_decode_errors platform_example _ _ _ remap_identity _ 12 m3 (Or.inl h3)).2.1
     (Or.inl h3)).2,
   ((C18_decode_errors platform_example _ _ _ remap_identity _ 10 m4 (Or.inr (Or.inl h4))).2.1
     (Or.inr h4)).2⟩

/-- The schema walk is not vacuous: the payload core.sync(7) follows the schema of
core.sync. -/
theorem schema_match_sync :
    ¬ SchemaMismatch false [.required SPA_POD_TYPE_INT] remap_identity
      (encodeStruct [Pod.int 7]) 20 := by
  rintro ⟨it, data', h0, hv, hw⟩
  have h1 : spa_pod_iter_struct (encodeStruct [Pod.int 7]) 20
      = some ⟨encodeStruct [Pod.int 7], 20, 8⟩ := by decide
  rw [h1] at h0
  cases h0
  cases hv
  revert hw
  decide

/-! ## Dictionaries that may be absent -/

theorem init_first {pw_protocol : Type} (k : interface_constants)
    (pw_protocol_get : CStr → pw_protocol) (prior : List (pw_interface × pw_interface)) :
    pw_protocol_native_init k pw_protocol_get ⟨false, prior⟩
      = (⟨true, prior ++ native_interfaces k⟩, pw_protocol_get k.PW_TYPE_PROTOCOL__Native) := by
  simp [pw_protocol_native_init, pw_protocol_add_interfaces, native_interfaces]

theorem init_again {pw_protocol : Type} (k : interface_constants)
    (pw_protocol_get : CStr → pw_protocol) (s : protocol_native_state) (h : s.init = true) :
    pw_protocol_native_init k pw_protocol_get s
      = (s, pw_protocol_get k.PW_TYPE_PROTOCOL__Native) := by
  simp [pw_protocol_native_init, h]

theorem init_calls_done {pw_protocol : Type} (k : interface_constants)
    (pw_protocol_get : CStr → pw_protocol) (n : Nat) (s : protocol_native_state)
    (h : s.init = true) : init_calls k pw_protocol_get n s = s := by
  induction n with
  | zero => rfl
  | succ n ih => rw [init_calls, init_again k pw_protocol_get s h, ih]

theorem init_calls_succ {pw_protocol : Type} (k : interface_constants)
    (pw_protocol_get : CStr → pw_protocol) (n : Nat)
    (prior : List (pw_interface × pw_interface)) :
    init_calls k pw_protocol_get (n + 1) ⟨false, prior⟩
      = ⟨true, prior ++ native_interfaces k⟩ := by
  rw [init_calls, init_first]
  exact init_calls_done k pw_protocol_get n _ rfl

/-- C22: calling `pw_protocol_native_init` any number n >= 1 of times installs exactly
the six (client-side, server-side) descriptor pairs, in the order Core, Registry,
Module, Node, Client, Link: the first call adds all six, every later call leaves the
state as it is, and every call returns the protocol `pw_protocol_get` gives for the
native protocol's name. -/
theorem C22_init_idempotent {pw_protocol : Type} (k : interface_constants)
    (pw_protocol_get : CStr → pw_protocol) (prior : List (pw_interface × pw_interface))
    (n : Nat) (hn : 1 ≤ n) :
    init_calls k pw_protocol_get n ⟨false, prior⟩ = ⟨true, prior ++ native_interfaces k⟩ ∧
    (pw_protocol_native_init k pw_protocol_get ⟨false, prior⟩).1
      = ⟨true, prior ++ native_interfaces k⟩ ∧
    (pw_protocol_native_init k pw_protocol_get
        (init_calls k pw_protocol_get n ⟨false, prior⟩)).1
      = init_calls k pw_protocol_get n ⟨false, prior⟩ ∧
    (∀ j, (pw_protocol_native_init k pw_protocol_get
        (init_calls k pw_protocol_get j ⟨false, prior⟩)).2
      = pw_protocol_get k.PW_TYPE_PROTOCOL__Native) ∧
    native_interfaces k
      = [(pw_protocol_native_client_core_interface k,
          pw_protocol_native_server_core_interface k),
         (pw_protocol_native_client_registry_interface k,
          pw_protocol_native_server_registry_interface k),
         (pw_protocol_native_client_module_interface k,
          pw_protocol_native_server_module_interface k),
         (pw_protocol_native_client_node_interface k,
          pw_protocol_native_server_node_interface k),
         (pw_protocol_native_client_client_interface k,
          pw_protocol_native_server_client_interface k),
         (pw_protocol_native_client_link_interface k,
          pw_protocol_native_server_link_interface k)] := by
  obtain ⟨m, rfl⟩ : ∃ m, n = m + 1 := ⟨n - 1, by omega⟩
  rw [init_calls_succ]
  refine ⟨rfl, by rw [init_first], by rw [init_again _ _ _ rfl], ?_, rfl⟩
  intro j
  cases j with
  | zero => rw [init_calls, init_first]
  | succ j => rw [init_calls_succ, init_again _ _ _ rfl]

/-- C22 at three calls in a fresh process: six pairs are installed, and a fourth call
changes nothing. -/
theorem C22_init_idempotent_witness :
    1 ≤ 3 ∧
    (init_calls constants_example (fun name => name) 3 ⟨false, []⟩).interfaces
      = native_interfaces constants_example ∧
    (init_calls constants_example (fun name => name) 3 ⟨false, []⟩).interfaces.length = 6 ∧
    (pw_protocol_native_init constants_example (fun name => name)
        (init_calls constants_example (fun name => name) 3 ⟨false, []⟩)).1
      = init_calls constants_example (fun name => name) 3 ⟨false, []⟩ :=
  have h := C22_init_idempotent constants_example (fun name => name) [] 3 (by decide)
  ⟨by decide, congrArg protocol_native_state.interfaces h.1,
   congrArg (fun s => s.interfaces.length) h.1, h.2.2.1⟩

/-! ## The sizes of what the marshalers write (C23) -/

theorem builtE_open_add (connection : Option pw_connection) (args : List BuilderArg)
    (ha : ∀ a ∈ args, isValue a = true) :
    ∃ rs, Built (spa_pod_builder_add (builder_init connection) (BuilderArg.STRUCT :: args))
      rs :=
  ⟨_, built_open_add connection args ha⟩

theorem builtE_add (args : List BuilderArg) (bf : builder × spa_pod_frame)
    (h : ∃ rs, Built bf rs) (ha : ∀ a ∈ args, isValue a = true) :
    ∃ rs, Built (spa_pod_builder_add bf args) rs := by
  obtain ⟨rs, h⟩ := h
  exact ⟨_, built_add args bf rs h ha⟩

theorem builtE_dict_items (bf : builder × spa_pod_frame) (props : Option spa_dict) (n : Nat)
    (h : ∃ rs, Built bf rs) : ∃ rs, Built (marshal_dict_items bf props n) rs := by
  obtain ⟨rs, h⟩ := h
  cases props with
  | none => exact ⟨rs, h⟩
  | some d => exact ⟨_, built_dict_items (d.items.take n) bf rs h⟩

theorem builtE_formats (bf : builder × spa_pod_frame) (formats : List spa_format) (n : Nat)
    (h : ∃ rs, Built bf rs) : ∃ rs, Built (marshal_formats bf formats n) rs := by
  obtain ⟨rs, h⟩ := h
  have := built_marshal_formats (formats.take n) bf rs h
  have e : marshal_formats bf formats n
      = marshal_formats bf (formats.take n) (formats.take n).length := by
    simp only [marshal_formats, List.take_length]
  rw [e]
  exact ⟨_, this⟩

theorem builtE_types (bf : builder × spa_pod_frame) (types : List CStr)
    (h : ∃ rs, Built bf rs) :
    ∃ rs, Built (types.foldl (fun bf t => spa_pod_builder_add bf [.STRING t]) bf) rs := by
  obtain ⟨rs, h⟩ := h
  exact ⟨_, built_types types bf rs h⟩

theorem closedE_add (args : List BuilderArg) (bf : builder × spa_pod_frame)
    (h : ∃ rs, Built bf rs) (ha : ∀ a ∈ args, isValue a = true) :
    ∃ rs, Closed (spa_pod_builder_add bf (args ++ [BuilderArg.END_STRUCT])) rs := by
  obtain ⟨rs, h⟩ := h
  exact ⟨_, closed_add args bf rs h ha⟩

theorem closedE_end (bf : builder × spa_pod_frame) (h : ∃ rs, Built bf rs) :
    ∃ rs, Closed (spa_pod_builder_add bf [BuilderArg.END_STRUCT]) rs := by
  obtain ⟨rs, h⟩ := h
  exact ⟨_, closed_end bf rs h⟩

theorem closedE_struct (connection : Option pw_connection) (args : List BuilderArg)
    (ha : ∀ a ∈ args, isValue a = true) :
    ∃ rs, Closed (spa_pod_builder_struct (builder_init connection) args) rs :=
  ⟨_, closed_struct connection args ha⟩

/-- The last message after `pw_connection_end_write` on a closed struct. -/
theorem finalized_last_closed (framer : List FramerCall) (bf : builder × spa_pod_frame)
    (c : Option pw_connection) (dest_id opcode : Nat) (h : ∃ rs, Closed bf rs)
    (hq : finalized bf.1.calls = []) :
    ∃ rs, (finalized (pw_connection_end_write framer bf.1 c dest_id opcode
        bf.1.offset)).getLast?
      = some ⟨c, dest_id, opcode, (encodeStruct rs).length, encodeStruct rs⟩ := by
  obtain ⟨rs, h⟩ := h
  refine ⟨rs, ?_⟩
  rw [finalized_end_write_closed framer bf rs c dest_id opcode h hq]
  simp

/-- Every method marshaler, on a live connection, ends by finalizing a message whose
payload is the struct of some records and whose size is the length of that payload. -/
theorem marshal_method_payload (context : pw_context) (conn : pw_connection)
    (proxy : pw_proxy) (m : Method) (hc : context.protocol_private = some conn) :
    ∃ rs, (finalized (marshal_method context proxy m).framer).getLast?
      = some ⟨some conn, proxy.id, m.opcode, (encodeStruct rs).length, encodeStruct rs⟩ := by
  cases m with
  | core_update_types first_id n_types types =>
    simp only [marshal_method, core_marshal_update_types_client, hc, Method.opcode]
    exact finalized_last_closed _ _ _ _ _
      (closedE_end _ (builtE_types _ _ (builtE_open_add _ _ (by simp [isValue]))))
      (by simp [finalized_calls_add, finalized_calls_types, finalized_calls_init])
  | core_sync seq =>
    simp only [marshal_method, core_marshal_sync, hc, Method.opcode]
    exact finalized_last_closed _ _ _ _ _ (closedE_struct _ _ (by simp [isValue]))
      (by simp [finalized_calls_struct, finalized_calls_init])
  | core_get_registry new_id =>
    simp only [marshal_method, core_marshal_get_registry, hc, Method.opcode]
    exact finalized_last_closed _ _ _ _ _ (closedE_struct _ _ (by simp [isValue]))
      (by simp [finalized_calls_struct, finalized_calls_init])
  | core_client_update props =>
    simp only [marshal_method, core_marshal_client_update, hc, Method.opcode]
    exact finalized_last_closed _ _ _ _ _
      (closedE_end _ (builtE_dict_items _ _ _ (builtE_open_add _ _ (by simp [isValue]))))
      (by simp [finalized_calls_add, finalized_calls_dict_items, finalized_calls_init])
  | core_create_node factory_name name props new_id =>
    simp only [marshal_method, core_marshal_create_node, hc, Method.opcode]
    exact finalized_last_closed _ _ _ _ _
      (closedE_add [.INT new_id] _
        (builtE_dict_items _ _ _ (builtE_open_add _ _ (by simp [isValue])))
        (by simp [isValue]))
      (by simp [finalized_calls_add, finalized_calls_dict_items, finalized_calls_init])
  | core_create_link a b c d filter props new_id =>
    simp only [marshal_method, core_marshal_create_link, hc, Method.opcode]
    exact finalized_last_closed _ _ _ _ _
      (closedE_add [.INT new_id] _
        (builtE_dict_items _ _ _ (builtE_open_add _ _ (by simp [isValue])))
        (by simp [isValue]))
      (by simp [finalized_calls_add, finalized_calls_dict_items, finalized_calls_init])
  | registry_bind id version new_id =>
    simp only [marshal_method, registry_marshal_bind, hc, Method.opcode]
    exact finalized_last_closed _ _ _ _ _ (closedE_struct _ _ (by simp [isValue]))
      (by simp [finalized_calls_struct, finalized_calls_init])

/-- Every event marshaler ends by finalizing a message whose payload is the struct of
some records and whose size is the length of that payload. -/
theorem marshal_event_payload (client : pw_client) (resource : pw_resource) (e : Event) :
    ∃ rs, (finalized (marshal_event client resource e).framer).getLast?
      = some ⟨client.protocol_private, resource.id, e.opcode, (encodeStruct rs).length,
          encodeStruct rs⟩ := by
  cases e with
  | core_update_types first_id n_types types =>
    simp only [marshal_event, core_marshal_update_types_server, Event.opcode]
    exact finalized_last_closed _ _ _ _ _
      (closedE_end _ (builtE_types _ _ (builtE_open_add _ _ (by simp [isValue]))))
      (by simp [finalized_calls_add, finalized_calls_types, finalized_calls_init])
  | core_done seq =>
    simp only [marshal_event, core_marshal_done, Event.opcode]
    exact finalized_last_closed _ _ _ _ _ (closedE_struct _ _ (by simp [isValue]))
      (by simp [finalized_calls_struct, finalized_calls_init])
  | core_error id res error =>
    simp only [marshal_event, core_marshal_error, Event.opcode]
    exact finalized_last_closed _ _ _ _ _ (closedE_struct _ _ (by simp [isValue]))
      (by simp [finalized_calls_struct, finalized_calls_init])
  | core_remove_id id =>
    simp only [marshal_event, core_marshal_remove_id, Event.opcode]
    exact finalized_last_closed _ _ _ _ _ (closedE_struct _ _ (by simp [isValue]))
      (by simp [finalized_calls_struct, finalized_calls_init])
  | core_info info =>
    simp only [marshal_event, core_marshal_info, Event.opcode]
    exact finalized_last_closed _ _ _ _ _
      (closedE_end _ (builtE_dict_items _ _ _ (builtE_open_add _ _ (by simp [isValue]))))
      (by simp [finalized_calls_add, finalized_calls_dict_items, finalized_calls_init])
  | registry_global id type version =>
    simp only [marshal_event, registry_marshal_global, Event.opcode]
    exact finalized_last_closed _ _ _ _ _ (closedE_struct _ _ (by simp [isValue]))
      (by simp [finalized_calls_struct, finalized_calls_init])
  | registry_global_remove id =>
    simp only [marshal_event, registry_marshal_global_remove, Event.opcode]
    exact finalized_last_closed _ _ _ _ _ (closedE_struct _ _ (by simp [isValue]))
      (by simp [finalized_calls_struct, finalized_calls_init])
  | module_info info =>
    simp only [marshal_event, module_marshal_info, Event.opcode]
    exact finalized_last_closed _ _ _ _ _
      (closedE_end _ (builtE_dict_items _ _ _ (builtE_open_add _ _ (by simp [isValue]))))
      (by simp [finalized_calls_add, finalized_calls_dict_items, finalized_calls_init])
  | node_info info =>
    simp only [marshal_event, node_marshal_info, Event.opcode]
    exact finalized_last_closed _ _ _ _ _
      (closedE_end _ (builtE_dict_items _ _ _ (builtE_add _ _
        (builtE_formats _ _ _ (builtE_add _ _
          (builtE_formats _ _ _ (builtE_open_add _ _ (by simp [isValue])))
          (by simp [isValue])))
        (by simp [isValue]))))
      (by simp [finalized_calls_add, finalized_calls_dict_items, finalized_calls_formats,
        finalized_calls_init])
  | client_info info =>
    simp only [marshal_event, client_marshal_info, Event.opcode]
    exact finalized_last_closed _ _ _ _ _
      (closedE_end _ (builtE_dict_items _ _ _ (builtE_open_add _ _ (by simp [isValue]))))
      (by simp [finalized_calls_add, finalized_calls_dict_items, finalized_calls_init])
  | link_info info =>
    simp only [marshal_event, link_marshal_info, Event.opcode]
    exact finalized_last_closed _ _ _ _ _ (closedE_struct _ _ (by simp [isValue]))
      (by simp [finalized_calls_struct, finalized_calls_init])

theorem encodeAll_length_mod (rs : List Pod) : (encodeAll rs).length % 4 = 0 := by
  induction rs with
  | nil => rfl
  | cons r rs ih =>
    have h := round_up_4_mod r.body.length
    simp only [encodeAll, List.length_append, length_encode]
    omega

theorem encodeStruct_length (rs : List Pod) :
    (encodeStruct rs).length = 8 + (encodeAll rs).length := by
  simp only [encodeStruct, List.length_append, length_le32]

theorem rd32_encodeStruct (rs : List Pod) (h : fits rs) :
    rd32 (encodeStruct rs) = (encodeAll rs).length ∧
    rd32 ((encodeStruct rs).drop 4) = SPA_POD_TYPE_STRUCT ∧
    (encodeStruct rs).drop 8 = encodeAll rs := by
  have hf := fit_of_struct rs h
  refine ⟨?_, ?_, ?_⟩
  · unfold encodeStruct
    rw [List.append_assoc]
    exact rd32_le32 _ _ hf
  · unfold encodeStruct
    rw [List.append_assoc, drop_le32]
    exact rd32_le32 _ _ (by simp [SPA_POD_TYPE_STRUCT])
  · simp [encodeStruct, le32]

theorem rd32_encode (r : Pod) (h : r.body.length < 4294967296) :
    rd32 r.encode = r.body.length ∧ rd32 (r.encode.drop 4) = r.tag ∧
    (r.encode.drop 8).take r.body.length = r.body := by
  refine ⟨?_, ?_, ?_⟩
  · unfold Pod.encode record
    rw [List.append_assoc, List.append_assoc]
    exact rd32_le32 _ _ h
  · unfold Pod.encode record
    rw [List.append_assoc, List.append_assoc, drop_le32]
    exact rd32_le32 _ _ (tag_lt r)
  · have : r.encode.drop 8 = r.body ++ padding r.body.length := by
      simp [Pod.encode, record, le32]
    rw [this, List.take_left]

theorem sizes_hold_of_fits (rs : List Pod) (h : fits rs) : sizes_hold rs := by
  have h1 := rd32_encodeStruct rs h
  have h2 := encodeStruct_length rs
  have h3 := encodeAll_length_mod rs
  have hf := fit_of_struct rs h
  refine ⟨by omega, by omega, h1.2.2, ?_⟩
  intro r hr
  have hb : r.body.length < 4294967296 := by
    have := body_le_encodeAll rs r hr
    omega
  refine ⟨(rd32_encode r hb).1, length_encode r, ?_⟩
  intro s hs
  subst hs
  exact ⟨rfl, by rw [(rd32_encode _ hb).1]; simp [Pod.body]⟩

/-- C23: every message written by any marshaler (client side: on a live connection)
is finalized with a payload that is the struct of some records `rs` and with a size
that is the length of that payload; when it fits 32 bits, its length is a multiple of
4 and equals 8 plus the size field of the top-level header, and every child record's
size field is the length of its payload without padding, for a String record the
string length plus one for the NUL terminator. -/
theorem C23_sizes (context : pw_context) (conn : pw_connection) (proxy : pw_proxy)
    (m : Method) (client : pw_client) (resource : pw_resource) (e : Event)
    (hc : context.protocol_private = some conn) :
    (∃ rs, (finalized (marshal_method context proxy m).framer).getLast?
        = some ⟨some conn, proxy.id, m.opcode, (encodeStruct rs).length, encodeStruct rs⟩ ∧
      (fits rs → sizes_hold rs)) ∧
    (∃ rs, (finalized (marshal_event client resource e).framer).getLast?
        = some ⟨client.protocol_private, resource.id, e.opcode, (encodeStruct rs).length,
            encodeStruct rs⟩ ∧
      (fits rs → sizes_hold rs)) := by
  obtain ⟨rs, h⟩ := marshal_method_payload context conn proxy m hc
  obtain ⟨rs2, h2⟩ := marshal_event_payload client resource e
  exact ⟨⟨rs, h, sizes_hold_of_fits rs⟩, ⟨rs2, h2, sizes_hold_of_fits rs2⟩⟩

/-- C23 at core.create_node("f", "n", {"app.name": "poppy"}, 9) and core.done(7). -/
theorem C23_sizes_witness :
    context_example.protocol_private = some ⟨3⟩ ∧
    (∃ rs, (finalized (marshal_method context_example ⟨0⟩
          (Method.core_create_node [102] [110] (some dict_example) 9)).framer).getLast?
        = some ⟨some ⟨3⟩, 0, 4, (encodeStruct rs).length, encodeStruct rs⟩ ∧
      (fits rs → sizes_hold rs)) ∧
    (∃ rs, (finalized (marshal_event client_example ⟨0⟩ (Event.core_done 7)).framer).getLast?
        = some ⟨some ⟨3⟩, 0, 1, (encodeStruct rs).length, encodeStruct rs⟩ ∧
      (fits rs → sizes_hold rs)) :=
  ⟨rfl, C23_sizes context_example ⟨3⟩ ⟨0⟩
    (Method.core_create_node [102] [110] (some dict_example) 9) client_example ⟨0⟩
    (Event.core_done 7) rfl⟩

/-! ## The cap of the error message (C24) -/

/-- C24: `core_marshal_error` caps the transmitted message at its 128-byte buffer: for
a formatted error text of 128 bytes or more the String record carries exactly its
first 127 bytes followed by the NUL terminator (128 bytes of payload), and for a
shorter text the String record carries the text unchanged. -/
theorem C24_error_cap (client : pw_client) (resource : pw_resource) (id : Nat) (res : Int)
    (error : CStr) :
    (128 ≤ error.length →
      Finalized (core_marshal_error client resource id res error).framer
        client.protocol_private resource.id PW_CORE_EVENT_ERROR
        (encodeStruct [Pod.int id, Pod.int (ofInt32 res), Pod.string (error.take 127)]) ∧
      (Pod.string (error.take 127)).body = error.take 127 ++ [0] ∧
      (Pod.string (error.take 127)).body.length = 128) ∧
    (error.length < 128 →
      Finalized (core_marshal_error client resource id res error).framer
        client.protocol_private resource.id PW_CORE_EVENT_ERROR
        (encodeStruct [Pod.int id, Pod.int (ofInt32 res), Pod.string error])) := by
  have h := core_marshal_error_finalized client resource id res error
  refine ⟨fun hl => ⟨?_, rfl, ?_⟩, fun hl => ?_⟩
  · simpa [error_pods, vsnprintf] using h
  · simp only [Pod.body, List.length_append, List.length_take, List.length_singleton]
    omega
  · simpa [error_pods, vsnprintf_short error hl] using h

/-- C24 at a text of 130 bytes, of which 127 are sent, and at "invalid argument", which
is sent unchanged. -/
theorem C24_error_cap_witness :
    (128 ≤ (List.replicate 130 97).length ∧ str_invalid_argument.length < 128) ∧
    Finalized (core_marshal_error client_example ⟨0⟩ 1 (-22) (List.replicate 130 97)).framer
      (some ⟨3⟩) 0 PW_CORE_EVENT_ERROR
      (encodeStruct [Pod.int 1, Pod.int (ofInt32 (-22)),
        Pod.string ((List.replicate 130 97).take 127)]) ∧
    Finalized (core_marshal_error client_example ⟨0⟩ 1 (-22) str_invalid_argument).framer
      (some ⟨3⟩) 0 PW_CORE_EVENT_ERROR
      (encodeStruct [Pod.int 1, Pod.int (ofInt32 (-22)), Pod.string str_invalid_argument]) :=
  ⟨⟨by decide, by decide⟩,
   ((C24_error_cap client_example ⟨0⟩ 1 (-22) (List.replicate 130 97)).1 (by decide)).1,
   (C24_error_cap client_example ⟨0⟩ 1 (-22) str_invalid_argument).2 (by decide)⟩

/-! ## The capacity at the time of the copy (C28) -/

theorem round_up_4096 (n : Nat) :
    SPA_ROUND_UP_N n 4096 % 4096 = 0 ∧ n ≤ SPA_ROUND_UP_N n 4096 ∧
    SPA_ROUND_UP_N n 4096 < n + 4096 := by
  unfold SPA_ROUND_UP_N
  omega

/-- C28, as far as it holds and where it fails. When `write_pod` grows the buffer
(`b.size <= b.offset`) and the sum does not wrap, the new capacity is the least
multiple of 4096 that is at least `b.offset + size`, and a copy at the current offset
fits. But the buffer grows only when the capacity is at most the offset, whatever
`size` is: when `b.offset < b.size < ref + size`, no region is requested, the
capacity stays `b.size`, and the copy of `size` bytes at `ref` extends past it. -/
theorem C28_write_pod_capacity (b : builder) (ref : Nat) (data : List Nat) (size : Nat) :
    (b.size ≤ b.offset → b.offset + size + 4095 < 4294967296 →
      (write_pod b ref data size).1.size % 4096 = 0 ∧
      b.offset + size ≤ (write_pod b ref data size).1.size ∧
      (write_pod b ref data size).1.size < b.offset + size + 4096 ∧
      (write_pod b ref data size).1.calls
        = b.calls ++ [FramerCall.begin_write b.connection (write_pod b ref data size).1.size]) ∧
    (b.offset < b.size → b.size < (if ref = 4294967295 then b.offset else ref) + size →
      (write_pod b ref data size).2 = (if ref = 4294967295 then b.offset else ref) ∧
      (write_pod b ref data size).1.calls = b.calls ∧
      (write_pod b ref data size).1.size = b.size ∧
      (write_pod b ref data size).1.size < (write_pod b ref data size).2 + size ∧
      (data.length = size →
        (write_pod b ref data size).1.data.drop (write_pod b ref data size).1.size ≠ [])) := by
  constructor
  · intro h1 h2
    have hr := round_up_4096 (b.offset + size)
    have e1 : (b.offset + size) % 4294967296 = b.offset + size := Nat.mod_eq_of_lt (by omega)
    have e2 : SPA_ROUND_UP_N (b.offset + size) 4096 % 4294967296
        = SPA_ROUND_UP_N (b.offset + size) 4096 := by
      apply Nat.mod_eq_of_lt
      have : SPA_ROUND_UP_N (b.offset + size) 4096 ≤ b.offset + size + 4095 := by omega
      unfold SPA_ROUND_UP_N at *
      omega
    simp only [write_pod, h1, if_true, e1, e2]
    exact ⟨hr.1, hr.2.1, hr.2.2, trivial⟩
  · intro h1 h2
    have h3 : ¬ b.size ≤ b.offset := by omega
    simp only [write_pod, h3, if_false]
    refine ⟨trivial, trivial, trivial, h2, ?_⟩
    intro hl
    intro hnil
    have := congrArg List.length hnil
    simp only [memcpy, List.length_drop, List.length_append, List.length_take,
      List.length_replicate, List.length_nil, hl] at this
    omega

/-- C28 at a buffer of capacity 4096 with write position 0, where a write of 8 bytes
to an empty builder grows the capacity to 4096, and at capacity 4096 with write
position 4092, where a write of 20 bytes requests nothing and ends at byte 4112. -/
theorem C28_write_pod_capacity_witness :
    ((0 : Nat) ≤ 0 ∧ 0 + 8 + 4095 < 4294967296 ∧
      (write_pod ⟨[], 0, 0, some ⟨3⟩, []⟩ 4294967295 (le32 0 ++ le32 5) 8).1.size = 4096) ∧
    (4092 < 4096 ∧ 4096 < 4092 + 20 ∧
      (write_pod ⟨List.replicate 4092 0, 4096, 4092, some ⟨3⟩, []⟩ 4294967295
        (Pod.string (List.replicate 11 97)).encode 20).1.size = 4096 ∧
      (write_pod ⟨List.replicate 4092 0, 4096, 4092, some ⟨3⟩, []⟩ 4294967295
        (Pod.string (List.replicate 11 97)).encode 20).1.calls = []) := by
  have h1 := (C28_write_pod_capacity ⟨[], 0, 0, some ⟨3⟩, []⟩ 4294967295 (le32 0 ++ le32 5) 8).1
    (by decide) (by decide)
  have h2 := (C28_write_pod_capacity ⟨List.replicate 4092 0, 4096, 4092, some ⟨3⟩, []⟩ 4294967295
    (Pod.string (List.replicate 11 97)).encode 20).2 (by decide) (by decide)
  refine ⟨⟨by decide, by decide, ?_⟩, by decide, by decide, h2.2.2.1, h2.2.1⟩
  have := h1.1
  have := h1.2.1
  have := h1.2.2.1
  simp only at *
  omega

/-! ## A disconnected context announces nothing (C30) -/

theorem marshal_method_disconnected (context : pw_context) (proxy : pw_proxy) (m : Method)
    (hc : context.protocol_private = none) : marshal_method context proxy m = context := by
  cases m <;>
    simp [marshal_method, core_marshal_update_types_client, core_marshal_sync,
      core_marshal_get_registry, core_marshal_client_update, core_marshal_create_node,
      core_marshal_create_link, registry_marshal_bind, hc]

theorem core_update_map_client_disconnected (context : pw_context)
    (hc : context.protocol_private = none)
    (hg : context.n_types < spa_type_map_get_size context.type_map)
    (h32 : spa_type_map_get_size context.type_map < 4294967296) :
    (core_update_map_client context).n_types = spa_type_map_get_size context.type_map ∧
    (core_update_map_client context).framer = context.framer := by
  have hd : (spa_type_map_get_size context.type_map + 4294967296 - context.n_types)
      % 4294967296 = spa_type_map_get_size context.type_map - context.n_types := by
    omega
  have hd0 : ¬ (spa_type_map_get_size context.type_map - context.n_types = 0) := by omega
  simp only [core_update_map_client, hd, hd0, if_false, core_marshal_update_types_client, hc]
  constructor
  · show (context.n_types + _) % 4294967296 = _
    omega
  · trivial

/-- C30: for every client-side marshaler called on a proxy whose context has no
connection, the sent high-water mark `n_types` is unchanged and nothing is emitted
(the framer log is as before, so no update_types either), also when the type map has
grown beyond the mark. The check of the connection precedes the type-map update: had
`core_update_map_client` run on that context, the mark would have moved to the size
of the map. -/
theorem C30_disconnected_no_update (context : pw_context) (proxy : pw_proxy) (m : Method)
    (hc : context.protocol_private = none) :
    (marshal_method context proxy m).n_types = context.n_types ∧
    (marshal_method context proxy m).framer = context.framer ∧
    (marshal_method context proxy m).type_map = context.type_map ∧
    (context.n_types < spa_type_map_get_size context.type_map →
      spa_type_map_get_size context.type_map < 4294967296 →
      (marshal_method context proxy m).n_types < spa_type_map_get_size context.type_map ∧
      (core_update_map_client context).n_types = spa_type_map_get_size context.type_map ∧
      (marshal_method context proxy m).n_types ≠ (core_update_map_client context).n_types) := by
  rw [marshal_method_disconnected context proxy m hc]
  refine ⟨rfl, rfl, rfl, fun hg h32 => ?_⟩
  have h := core_update_map_client_disconnected context hc hg h32
  exact ⟨hg, h.1, by omega⟩

/-- C30 at registry.bind(1, 0, 9) on a disconnected context that has announced two of
its four types: the mark stays 2 and nothing is emitted. -/
theorem C30_disconnected_no_update_witness :
    context_disconnected.protocol_private = none ∧
    context_disconnected.n_types = 2 ∧
    spa_type_map_get_size context_disconnected.type_map = 4 ∧
    (marshal_method context_disconnected ⟨5⟩ (Method.registry_bind 1 0 9)).n_types = 2 ∧
    (marshal_method context_disconnected ⟨5⟩ (Method.registry_bind 1 0 9)).framer = [] :=
  ⟨rfl, rfl, rfl,
   (C30_disconnected_no_update context_disconnected ⟨5⟩ (Method.registry_bind 1 0 9) rfl).1,
   (C30_disconnected_no_update context_disconnected ⟨5⟩ (Method.registry_bind 1 0 9) rfl).2.1⟩

/-! ## Records after the last argument (C29) -/

theorem link_info_trailing (info : pw_link_info) (extra : List Pod) (hi : info.wf)
    (hx : info.format = none → ∀ p ∈ extra.head?, p.tag ≠ SPA_POD_TYPE_OBJECT)
    (hfit : fits (link_info_pods info ++ extra)) :
    link_demarshal_info remap_identity (encodeStruct (link_info_pods info ++ extra))
        (encodeStruct (link_info_pods info ++ extra)).length
      = ⟨true, [HandlerCall.link_events_info info]⟩ := by
  obtain ⟨id, mask, a, b, c, d, format⟩ := info
  obtain ⟨h1, h2, h3, h4, h5, h6⟩ := hi
  simp only at h1 h2 h3 h4 h5 h6 hx
  have hf := fit_of_struct _ hfit
  unfold link_demarshal_info
  rw [iter_struct_encodeStruct _ hf]
  cases format with
  | none =>
    cases extra with
    | nil =>
      simp [remap_identity, itAt_rebase, link_info_pods, formatPods, get_int_itAt,
        get_long_itAt, get_opt_object_itAt_nil, h1, h2, h3, h4, h5, h6, demarshaled]
    | cons p rest =>
      have hp : p.tag ≠ SPA_POD_TYPE_OBJECT := hx rfl p (by simp)
      have hpl : p.body.length < 4294967296 := by
        have := body_le_encodeAll _ p (by simp [link_info_pods, formatPods]) |>.trans_lt hf
        omega
      simp [remap_identity, itAt_rebase, link_info_pods, formatPods, get_int_itAt,
        get_long_itAt, get_opt_object_itAt_other, hp, hpl, h1, h2, h3, h4, h5, h6, demarshaled]
  | some f =>
    have hfl : f.body.length < 4294967296 := by
      have := body_le_encodeAll _ (Pod.object f.body)
        (by simp [link_info_pods, formatPods]) |>.trans_lt hf
      simp only [Pod.body] at this
      omega
    simp [remap_identity, itAt_rebase, link_info_pods, formatPods, get_int_itAt, get_long_itAt,
      get_opt_object_itAt, hfl, h1, h2, h3, h4, h5, h6, demarshaled]

theorem walk_required_some (t : Nat) (ss : List Slot) (it it' : spa_pod_iter)
    (h : walk (Slot.required t :: ss) it = some it') :
    ∃ it1, tagStep t it = some it1 ∧ walk ss it1 = some it' := by
  simp only [walk] at h
  rcases h1 : tagStep t it with _ | it1
  · simp [h1] at h
  · exact ⟨it1, rfl, by simpa [h1] using h⟩

theorem walk_required_step (t : Nat) (ss : List Slot) (it it1 : spa_pod_iter)
    (h : tagStep t it = some it1) : walk (Slot.required t :: ss) it = walk ss it1 := by
  simp only [walk, h]

/-- An optional read followed by the read of an `Int32`, before a record that is
neither an object nor an `Int32`: the record is left unread and the read fails. -/
theorem third_type_not_int (it it' : spa_pod_iter) (t : Nat) (body : List Nat)
    (hn : spa_pod_iter_next it = some (t, body, it'))
    (ho : t ≠ SPA_POD_TYPE_OBJECT) (hi : t ≠ SPA_POD_TYPE_INT) :
    spa_pod_iter_get_opt_object it = (none, it) ∧ spa_pod_iter_get_int it = none := by
  simp [spa_pod_iter_get_opt_object, spa_pod_iter_get_object, spa_pod_iter_get_int, hn, ho, hi]

/-- C26, as stated, fails for link.info: the payload of a link info without format
followed by the String "a" at the format position is accepted; the demarshaler
returns true and invokes the handler with the format absent (NULL). -/
theorem C26_link_info_third_type_counterexample :
    link_demarshal_info remap_identity
        (encodeStruct [Pod.int 6, Pod.long 1, Pod.int 3, Pod.int 0, Pod.int 4, Pod.int 1,
          Pod.string [97]]) 96
      = ⟨true, [HandlerCall.link_events_info ⟨6, 1, 3, 0, 4, 1, none⟩]⟩ := by
  decide

/-- C26, amended: for every create_link payload (a whole struct, remapped) in which,
after the four leading Int32 records, the record at the filter position is present
but is neither an Object nor an Int32, `core_demarshal_create_link` returns false and
does not invoke the handler. For every link.info payload whose six leading records
are those of a well-formed link info and in which the record at the format position
is present but not an Object, `link_demarshal_info` returns true and invokes the
handler once, with the format absent: the record is left unread. -/
theorem C26_third_type_at_optional
    (pw_pod_remap_data : Nat → List Nat → Nat → Option (List Nat)) (data : List Nat)
    (size : Nat) (info : pw_link_info) (p : Pod) (rest : List Pod) :
    (∀ it data' it4 t body it5, spa_pod_iter_struct data size = some it →
      pw_pod_remap_data SPA_POD_TYPE_STRUCT data size = some data' →
      walk [.required SPA_POD_TYPE_INT, .required SPA_POD_TYPE_INT,
        .required SPA_POD_TYPE_INT, .required SPA_POD_TYPE_INT]
        { it with data := data' } = some it4 →
      spa_pod_iter_next it4 = some (t, body, it5) →
      t ≠ SPA_POD_TYPE_OBJECT → t ≠ SPA_POD_TYPE_INT →
      core_demarshal_create_link pw_pod_remap_data data size = ⟨false, []⟩) ∧
    (info.wf → info.format = none → p.tag ≠ SPA_POD_TYPE_OBJECT →
      fits (link_info_pods info ++ p :: rest) →
      link_demarshal_info remap_identity (encodeStruct (link_info_pods info ++ p :: rest))
          (encodeStruct (link_info_pods info ++ p :: rest)).length
        = ⟨true, [HandlerCall.link_events_info info]⟩ ∧ info.format = none) := by
  constructor
  · intro it data' it4 t body it5 h0 hr hw hn ho hi
    apply core_demarshal_create_link_rejects
    intro it' data'' h0' hr'
    rw [h0] at h0'
    rw [hr] at hr'
    cases h0'
    cases hr'
    obtain ⟨i1, t1, hw⟩ := walk_required_some _ _ _ _ hw
    obtain ⟨i2, t2, hw⟩ := walk_required_some _ _ _ _ hw
    obtain ⟨i3, t3, hw⟩ := walk_required_some _ _ _ _ hw
    obtain ⟨i4, t4, hw⟩ := walk_required_some _ _ _ _ hw
    simp only [walk, Option.some.injEq] at hw
    subst hw
    have h3 := third_type_not_int i4 it5 t body hn ho hi
    rw [walk_required_step _ _ _ _ t1, walk_required_step _ _ _ _ t2,
      walk_required_step _ _ _ _ t3, walk_required_step _ _ _ _ t4]
    simp only [walk, h3.1, h3.2]
  · intro hi hf hp hfit
    exact ⟨link_info_trailing info (p :: rest) hi (fun _ q hq => by
      simp only [List.head?_cons, Option.mem_def, Option.some.injEq] at hq
      subst hq
      exact hp) hfit, hf⟩

/-- C26, amended, at the create_link payload Struct(1, 2, 3, 4, String "a", 0, 9),
which is rejected, and at the link.info payload followed by the String "a", which is
accepted with the format absent. -/
theorem C26_third_type_at_optional_witness :
    core_demarshal_create_link remap_identity
        (encodeStruct [Pod.int 1, Pod.int 2, Pod.int 3, Pod.int 4, Pod.string [97],
          Pod.int 0, Pod.int 9]) 92 = ⟨false, []⟩ ∧
    link_demarshal_info remap_identity
        (encodeStruct (link_info_pods link_info_example ++ [Pod.string [97]]))
        (encodeStruct (link_info_pods link_info_example ++ [Pod.string [97]])).length
      = ⟨true, [HandlerCall.link_events_info link_info_example]⟩ :=
  have h := C26_third_type_at_optional remap_identity
    (encodeStruct [Pod.int 1, Pod.int 2, Pod.int 3, Pod.int 4, Pod.string [97],
      Pod.int 0, Pod.int 9]) 92 link_info_example (Pod.string [97]) []
  ⟨h.1 ⟨encodeStruct [Pod.int 1, Pod.int 2, Pod.int 3, Pod.int 4, Pod.string [97],
        Pod.int 0, Pod.int 9], 92, 8⟩ _
      ⟨encodeStruct [Pod.int 1, Pod.int 2, Pod.int 3, Pod.int 4, Pod.string [97],
        Pod.int 0, Pod.int 9], 92, 56⟩
      SPA_POD_TYPE_STRING [97, 0]
      ⟨encodeStruct [Pod.int 1, Pod.int 2, Pod.int 3, Pod.int 4, Pod.string [97],
        Pod.int 0, Pod.int 9], 92, 68⟩
      (by decide) rfl (by decide) (by decide) (by decide) (by decide),
   (h.2 (by unfold pw_link_info.wf; decide) rfl (by decide) (by unfold fits; decide)).1⟩

/-! ## Contiguous announcements (C27) -/

theorem contiguous_append (ms ns : List Message) (h h1 h2 : Nat)
    (ha : Contiguous h ms h1) (hb : Contiguous h1 ns h2) : Contiguous h (ms ++ ns) h2 := by
  induction ms generalizing h with
  | nil =>
    simp only [Contiguous] at ha
    subst ha
    exact hb
  | cons m ms ih =>
    obtain ⟨e, c, r⟩ := ha
    exact ⟨e, c, ih _ r⟩

theorem contiguous_le (ms : List Message) (h h' : Nat) (hc : Contiguous h ms h') : h ≤ h' := by
  induction ms generalizing h with
  | nil =>
    simp only [Contiguous] at hc
    omega
  | cons m ms ih =>
    obtain ⟨e, c, r⟩ := hc
    have := ih _ r
    omega

theorem side_effects_none (framer : List FramerCall) : side_effects framer framer = [] := by
  simp [side_effects]

theorem side_effects_one (before after : List FramerCall) (m : Message)
    (h : finalized after = finalized before ++ [m]) : side_effects before after = [] := by
  simp [side_effects, h]

theorem side_effects_two (before after : List FramerCall) (u m : Message)
    (h : finalized after = finalized before ++ [u, m]) : side_effects before after = [u] := by
  simp [side_effects, h]

/-- The first two fields of an update_types payload. -/
theorem update_types_payload_fields (a b : Nat) (types : List CStr) (ha : a < 4294967296)
    (hb : b < 4294967296) :
    rd32 ((encodeStruct (update_types_pods a b types)).drop 16) = a ∧
    rd32 ((encodeStruct (update_types_pods a b types)).drop 28) = b := by
  have e1 : (encodeStruct (update_types_pods a b types)).drop 16
      = le32 a ++ (le32 4 ++ le32 SPA_POD_TYPE_INT ++ le32 b
          ++ encodeAll (types.map Pod.string)) := by
    simp [encodeStruct, update_types_pods, encodeAll, Pod.encode, record, Pod.tag, Pod.body,
      le32, padding, SPA_ROUND_UP_N]
  have e2 : (encodeStruct (update_types_pods a b types)).drop 28
      = le32 b ++ encodeAll (types.map Pod.string) := by
    simp [encodeStruct, update_types_pods, encodeAll, Pod.encode, record, Pod.tag, Pod.body,
      le32, padding, SPA_ROUND_UP_N]
  rw [e1, e2]
  exact ⟨rd32_le32 a _ ha, rd32_le32 b _ hb⟩

/-- One call of a method marshaler, on a context whose mark is at most the size of
its type map: what it emits as a side effect and where it leaves the mark. -/
theorem client_call_step (context : pw_context) (proxy : pw_proxy) (m : Method)
    (hle : context.n_types ≤ spa_type_map_get_size context.type_map)
    (h32 : spa_type_map_get_size context.type_map < 4294967296) :
    (marshal_method context proxy m).type_map = context.type_map ∧
    (marshal_method context proxy m).core_proxy = context.core_proxy ∧
    (marshal_method context proxy m).n_types
      ≤ spa_type_map_get_size context.type_map ∧
    Contiguous context.n_types
      (side_effects context.framer (marshal_method context proxy m).framer)
      (marshal_method context proxy m).n_types ∧
    ∀ msg ∈ side_effects context.framer (marshal_method context proxy m).framer,
      msg.dest_id = context.core_proxy.id ∧ msg.opcode = PW_CORE_METHOD_UPDATE_TYPES := by
  rcases hc : context.protocol_private with _ | conn
  · rw [marshal_method_disconnected context proxy m hc, side_effects_none]
    exact ⟨rfl, rfl, hle, rfl, fun _ h => by cases h⟩
  by_cases hm : m.is_update_types = true
  · cases m with
    | core_update_types first_id n_types types =>
      obtain ⟨size, payload, -, hmsg⟩ :=
        update_types_client_messages context conn proxy first_id n_types types hc
      have hf := update_types_client_fields context proxy first_id n_types types
      simp only [marshal_method]
      rw [side_effects_one _ _ _ hmsg, hf.1, hf.2.1, hf.2.2.2]
      exact ⟨rfl, rfl, hle, rfl, fun _ h => by cases h⟩
    | _ => simp [Method.is_update_types] at hm
  · have hm' : m.is_update_types = false := by simpa using hm
    obtain ⟨size, payload, heq, hmsg⟩ := marshal_method_shape context conn proxy m hc hm'
    have hf := core_update_map_client_fields context
    have hn := core_update_map_client_n_types context (by omega) h32
    have e1 : (marshal_method context proxy m).type_map = context.type_map := by
      rw [heq]; exact hf.1
    have e2 : (marshal_method context proxy m).core_proxy = context.core_proxy := by
      rw [heq]; exact hf.2.2
    have e3 : (marshal_method context proxy m).n_types
        = spa_type_map_get_size context.type_map := by
      rw [heq]; exact hn
    rw [e1, e2, e3]
    rcases Nat.lt_or_ge context.n_types (spa_type_map_get_size context.type_map) with hlt | hge
    · rw [core_update_map_client_messages context conn hc hlt h32] at hmsg
      have hse := side_effects_two context.framer (marshal_method context proxy m).framer _ _
        (by simpa using hmsg)
      rw [hse]
      have hp := update_types_payload_fields context.n_types
        (spa_type_map_get_size context.type_map - context.n_types)
        (context.type_map.drop context.n_types) (by omega) (by omega)
      refine ⟨rfl, rfl, le_refl _, ⟨hp.1, ?_, ?_⟩, ?_⟩
      · show 0 < rd32 _
        rw [show missing_types_pods context.n_types context.type_map
          = update_types_pods context.n_types
              (spa_type_map_get_size context.type_map - context.n_types)
              (context.type_map.drop context.n_types) from rfl, hp.2]
        omega
      · show _ = _
        simp only [Contiguous, Message.first_id, Message.count]
        rw [show missing_types_pods context.n_types context.type_map
          = update_types_pods context.n_types
              (spa_type_map_get_size context.type_map - context.n_types)
              (context.type_map.drop context.n_types) from rfl, hp.1, hp.2]
        omega
      · intro msg hmem
        simp only [List.mem_singleton] at hmem
        subst hmem
        exact ⟨rfl, rfl⟩
    · have heq2 : spa_type_map_get_size context.type_map = context.n_types := by omega
      rw [core_update_map_client_up_to_date context heq2] at hmsg
      rw [side_effects_one _ _ _ hmsg]
      exact ⟨rfl, rfl, le_refl _, heq2, fun _ h => by cases h⟩

theorem marshal_method_fields (context : pw_context) (proxy : pw_proxy) (m : Method) :
    (marshal_method context proxy m).type_map = context.type_map ∧
    (marshal_method context proxy m).core_proxy = context.core_proxy := by
  rcases hc : context.protocol_private with _ | conn
  · rw [marshal_method_disconnected context proxy m hc]
    exact ⟨rfl, rfl⟩
  by_cases hm : m.is_update_types = true
  · cases m with
    | core_update_types first_id n_types types =>
      have hf := update_types_client_fields context proxy first_id n_types types
      exact ⟨hf.2.1, hf.2.2.2⟩
    | _ => simp [Method.is_update_types] at hm
  · obtain ⟨size, payload, heq, -⟩ :=
      marshal_method_shape context conn proxy m hc (by simpa using hm)
    have hf := core_update_map_client_fields context
    rw [heq]
    exact ⟨hf.1, hf.2.2⟩

theorem client_step_fields (context : pw_context) (op : ClientOp) :
    spa_type_map_get_size context.type_map
      ≤ spa_type_map_get_size (client_step context op).type_map ∧
    (client_step context op).core_proxy = context.core_proxy := by
  cases op with
  | grow types => simp [client_step, spa_type_map_get_size]
  | call proxy m =>
    have h := marshal_method_fields context proxy m
    simp only [client_step]
    rw [h.1, h.2]
    exact ⟨le_refl _, rfl⟩

theorem client_run_fields (ops : List ClientOp) (context : pw_context) :
    spa_type_map_get_size context.type_map
      ≤ spa_type_map_get_size (client_run context ops).type_map ∧
    (client_run context ops).core_proxy = context.core_proxy := by
  induction ops generalizing context with
  | nil => exact ⟨le_refl _, rfl⟩
  | cons op ops ih =>
    have h1 := client_step_fields context op
    have h2 := ih (client_step context op)
    simp only [client_run, List.foldl_cons] at h2 ⊢
    exact ⟨le_trans h1.1 h2.1, h2.2.trans h1.2⟩

/-- The side effects of a sequence of steps on the client side are contiguous
update_types announcements on the core proxy, from the initial mark to the final one. -/
theorem client_run_contiguous (ops : List ClientOp) (context : pw_context)
    (hle : context.n_types ≤ spa_type_map_get_size context.type_map)
    (h32 : spa_type_map_get_size (client_run context ops).type_map < 4294967296) :
    Contiguous context.n_types (client_side_effects context ops)
      (client_run context ops).n_types ∧
    (∀ msg ∈ client_side_effects context ops,
      msg.dest_id = context.core_proxy.id ∧ msg.opcode = PW_CORE_METHOD_UPDATE_TYPES) ∧
    (client_run context ops).n_types
      ≤ spa_type_map_get_size (client_run context ops).type_map := by
  induction ops generalizing context with
  | nil => exact ⟨rfl, fun _ h => (by cases h), hle⟩
  | cons op ops ih =>
    have hrun : client_run context (op :: ops) = client_run (client_step context op) ops := rfl
    rw [hrun] at h32 ⊢
    have hmono := client_run_fields ops (client_step context op)
    have hstep := client_step_fields context op
    cases op with
    | grow types =>
      have hle2 : (client_step context (.grow types)).n_types
          ≤ spa_type_map_get_size (client_step context (.grow types)).type_map := by
        simp only [client_step, spa_type_map_get_size, List.length_append] at *
        omega
      have h := ih (client_step context (.grow types)) hle2 h32
      simp only [client_side_effects, List.nil_append]
      exact h
    | call proxy m =>
      have hs := client_call_step context proxy m hle (by omega)
      have hle2 : (client_step context (.call proxy m)).n_types
          ≤ spa_type_map_get_size (client_step context (.call proxy m)).type_map := by
        simp only [client_step]
        rw [hs.1]
        exact hs.2.2.1
      have h := ih (client_step context (.call proxy m)) hle2 h32
      simp only [client_side_effects]
      refine ⟨contiguous_append _ _ _ _ _ hs.2.2.2.1 h.1, ?_, h.2.2⟩
      intro msg hmem
      rcases List.mem_append.mp hmem with h1 | h1
      · exact hs.2.2.2.2 msg h1
      · have := h.2.1 msg h1
        rw [hstep.2] at this
        exact this

theorem client_run_append (context : pw_context) (ops1 ops2 : List ClientOp) :
    client_run context (ops1 ++ ops2) = client_run (client_run context ops1) ops2 := by
  simp [client_run, List.foldl_append]

/-- The sent high-water mark of a context never decreases along a sequence of steps. -/
theorem client_run_mark_mono (context : pw_context) (ops1 ops2 : List ClientOp)
    (hle : context.n_types ≤ spa_type_map_get_size context.type_map)
    (h32 : spa_type_map_get_size (client_run context (ops1 ++ ops2)).type_map < 4294967296) :
    (client_run context ops1).n_types ≤ (client_run context (ops1 ++ ops2)).n_types := by
  rw [client_run_append] at h32 ⊢
  have hm := client_run_fields ops2 (client_run context ops1)
  have h1 := client_run_contiguous ops1 context hle (by omega)
  have h2 := client_run_contiguous ops2 (client_run context ops1) h1.2.2 h32
  exact contiguous_le _ _ _ h2.1

/-- One call of an event marshaler, on a client whose mark is at most the size of the
core's type map: what it emits as a side effect and where it leaves the mark. -/
theorem server_call_step (client : pw_client) (resource : pw_resource) (e : Event)
    (hle : client.n_types ≤ spa_type_map_get_size client.core.type_map)
    (h32 : spa_type_map_get_size client.core.type_map < 4294967296) :
    (marshal_event client resource e).core = client.core ∧
    (marshal_event client resource e).core_resource = client.core_resource ∧
    (marshal_event client resource e).n_types
      ≤ spa_type_map_get_size client.core.type_map ∧
    Contiguous client.n_types
      (side_effects client.framer (marshal_event client resource e).framer)
      (marshal_event client resource e).n_types ∧
    ∀ msg ∈ side_effects client.framer (marshal_event client resource e).framer,
      msg.dest_id = client.core_resource.id ∧ msg.opcode = PW_CORE_EVENT_UPDATE_TYPES := by
  by_cases he : e.is_update_types = true
  · cases e with
    | core_update_types first_id n_types types =>
      obtain ⟨size, payload, -, hmsg⟩ :=
        update_types_server_messages client resource first_id n_types types
      have hf := update_types_server_fields client resource first_id n_types types
      simp only [marshal_event]
      rw [side_effects_one _ _ _ hmsg, hf.1, hf.2.1, hf.2.2.2]
      exact ⟨rfl, rfl, hle, rfl, fun _ h => by cases h⟩
    | _ => simp [Event.is_update_types] at he
  · have he' : e.is_update_types = false := by simpa using he
    obtain ⟨size, payload, heq, hmsg⟩ := marshal_event_shape client resource e he'
    have hf := core_update_map_server_fields client
    have hn := core_update_map_server_n_types client (by omega) h32
    have e1 : (marshal_event client resource e).core = client.core := by
      rw [heq]; exact hf.1
    have e2 : (marshal_event client resource e).core_resource = client.core_resource := by
      rw [heq]; exact hf.2.2
    have e3 : (marshal_event client resource e).n_types
        = spa_type_map_get_size client.core.type_map := by
      rw [heq]; exact hn
    rw [e1, e2, e3]
    rcases Nat.lt_or_ge client.n_types (spa_type_map_get_size client.core.type_map)
      with hlt | hge
    · rw [core_update_map_server_messages client hlt h32] at hmsg
      have hse := side_effects_two client.framer (marshal_event client resource e).framer _ _
        (by simpa using hmsg)
      rw [hse]
      have hp := update_types_payload_fields client.n_types
        (spa_type_map_get_size client.core.type_map - client.n_types)
        (client.core.type_map.drop client.n_types) (by omega) (by omega)
      refine ⟨rfl, rfl, le_refl _, ⟨hp.1, ?_, ?_⟩, ?_⟩
      · show 0 < rd32 _
        rw [show missing_types_pods client.n_types client.core.type_map
          = update_types_pods client.n_types
              (spa_type_map_get_size client.core.type_map - client.n_types)
              (client.core.type_map.drop client.n_types) from rfl, hp.2]
        omega
      · show _ = _
        simp only [Contiguous, Message.first_id, Message.count]
        rw [show missing_types_pods client.n_types client.core.type_map
          = update_types_pods client.n_types
              (spa_type_map_get_size client.core.type_map - client.n_types)
              (client.core.type_map.drop client.n_types) from rfl, hp.1, hp.2]
        omega
      · intro msg hmem
        simp only [List.mem_singleton] at hmem
        subst hmem
        exact ⟨rfl, rfl⟩
    · have heq2 : spa_type_map_get_size client.core.type_map = client.n_types := by omega
      rw [core_update_map_server_up_to_date client heq2] at hmsg
      rw [side_effects_one _ _ _ hmsg]
      exact ⟨rfl, rfl, le_refl _, heq2, fun _ h => by cases h⟩

theorem marshal_event_fields (client : pw_client) (resource : pw_resource) (e : Event) :
    (marshal_event client resource e).core = client.core ∧
    (marshal_event client resource e).core_resource = client.core_resource := by
  by_cases he : e.is_update_types = true
  · cases e with
    | core_update_types first_id n_types types =>
      have hf := update_types_server_fields client resource first_id n_types types
      exact ⟨hf.2.1, hf.2.2.2⟩
    | _ => simp [Event.is_update_types] at he
  · obtain ⟨size, payload, heq, -⟩ := marshal_event_shape client resource e (by simpa using he)
    have hf := core_update_map_server_fields client
    rw [heq]
    exact ⟨hf.1, hf.2.2⟩

theorem server_step_fields (client : pw_client) (op : ServerOp) :
    spa_type_map_get_size client.core.type_map
      ≤ spa_type_map_get_size (server_step client op).core.type_map ∧
    (server_step client op).core_resource = client.core_resource := by
  cases op with
  | grow types => simp [server_step, spa_type_map_get_size]
  | call resource e =>
    have h := marshal_event_fields client resource e
    simp only [server_step]
    rw [h.1, h.2]
    exact ⟨le_refl _, rfl⟩

theorem server_run_fields (ops : List ServerOp) (client : pw_client) :
    spa_type_map_get_size client.core.type_map
      ≤ spa_type_map_get_size (server_run client ops).core.type_map ∧
    (server_run client ops).core_resource = client.core_resource := by
  induction ops generalizing client with
  | nil => exact ⟨le_refl _, rfl⟩
  | cons op ops ih =>
    have h1 := server_step_fields client op
    have h2 := ih (server_step client op)
    simp only [server_run, List.foldl_cons] at h2 ⊢
    exact ⟨le_trans h1.1 h2.1, h2.2.trans h1.2⟩

/-- The side effects of a sequence of steps on the server side are contiguous
update_types announcements on the core resource, from the initial mark to the final
one. -/
theorem server_run_contiguous (ops : List ServerOp) (client : pw_client)
    (hle : client.n_types ≤ spa_type_map_get_size client.core.type_map)
    (h32 : spa_type_map_get_size (server_run client ops).core.type_map < 4294967296) :
    Contiguous client.n_types (server_side_effects client ops)
      (server_run client ops).n_types ∧
    (∀ msg ∈ server_side_effects client ops,
      msg.dest_id = client.core_resource.id ∧ msg.opcode = PW_CORE_EVENT_UPDATE_TYPES) ∧
    (server_run client ops).n_types
      ≤ spa_type_map_get_size (server_run client ops).core.type_map := by
  induction ops generalizing client with
  | nil => exact ⟨rfl, fun _ h => (by cases h), hle⟩
  | cons op ops ih =>
    have hrun : server_run client (op :: ops) = server_run (server_step client op) ops := rfl
    rw [hrun] at h32 ⊢
    have hmono := server_run_fields ops (server_step client op)
    have hstep := server_step_fields client op
    cases op with
    | grow types =>
      have hle2 : (server_step client (.grow types)).n_types
          ≤ spa_type_map_get_size (server_step client (.grow types)).core.type_map := by
        simp only [server_step, spa_type_map_get_size, List.length_append] at *
        omega
      have h := ih (server_step client (.grow types)) hle2 h32
      simp only [server_side_effects, List.nil_append]
      exact h
    | call resource e =>
      have hs := server_call_step client resource e hle (by omega)
      have hle2 : (server_step client (.call resource e)).n_types
          ≤ spa_type_map_get_size (server_step client (.call resource e)).core.type_map := by
        simp only [server_step]
        rw [hs.1]
        exact hs.2.2.1
      have h := ih (server_step client (.call resource e)) hle2 h32
      simp only [server_side_effects]
      refine ⟨contiguous_append _ _ _ _ _ hs.2.2.2.1 h.1, ?_, h.2.2⟩
      intro msg hmem
      rcases List.mem_append.mp hmem with h1 | h1
      · exact hs.2.2.2.2 msg h1
      · have := h.2.1 msg h1
        rw [hstep.2] at this
        exact this

theorem server_run_append (client : pw_client) (ops1 ops2 : List ServerOp) :
    server_run client (ops1 ++ ops2) = server_run (server_run client ops1) ops2 := by
  simp [server_run, List.foldl_append]

/-- The sent high-water mark of a client never decreases along a sequence of steps. -/
theorem server_run_mark_mono (client : pw_client) (ops1 ops2 : List ServerOp)
    (hle : client.n_types ≤ spa_type_map_get_size client.core.type_map)
    (h32 : spa_type_map_get_size (server_run client (ops1 ++ ops2)).core.type_map
      < 4294967296) :
    (server_run client ops1).n_types ≤ (server_run client (ops1 ++ ops2)).n_types := by
  rw [server_run_append] at h32 ⊢
  have hm := server_run_fields ops2 (server_run client ops1)
  have h1 := server_run_contiguous ops1 client hle (by omega)
  have h2 := server_run_contiguous ops2 (server_run client ops1) h1.2.2 h32
  exact contiguous_le _ _ _ h2.1

/-- C27: for every sequence of marshaler calls interleaved with append-only growth of
the type map, on the client side (`ops`, from `context`) and on the server side
(`sops`, from `client`), starting with a sent high-water mark that is at most the size
of the map and ending with a map whose size is a 32-bit value: the messages emitted
as side effects are update_types messages on the core proxy (core resource) that
announce contiguous ranges, the first one's first_id being the initial mark, each
later one's first_id the previous one's first_id + count, the last range ending at
the final mark; and the mark never decreases along the sequence. -/
theorem C27_contiguous_announcements (context : pw_context) (ops : List ClientOp)
    (client : pw_client) (sops : List ServerOp)
    (hle : context.n_types ≤ spa_type_map_get_size context.type_map)
    (h32 : spa_type_map_get_size (client_run context ops).type_map < 4294967296)
    (hles : client.n_types ≤ spa_type_map_get_size client.core.type_map)
    (h32s : spa_type_map_get_size (server_run client sops).core.type_map < 4294967296) :
    (Contiguous context.n_types (client_side_effects context ops)
        (client_run context ops).n_types ∧
      (∀ msg ∈ client_side_effects context ops,
        msg.dest_id = context.core_proxy.id ∧ msg.opcode = PW_CORE_METHOD_UPDATE_TYPES) ∧
      ∀ ops1 ops2, ops = ops1 ++ ops2 →
        (client_run context ops1).n_types ≤ (client_run context ops).n_types) ∧
    (Contiguous client.n_types (server_side_effects client sops)
        (server_run client sops).n_types ∧
      (∀ msg ∈ server_side_effects client sops,
        msg.dest_id = client.core_resource.id ∧ msg.opcode = PW_CORE_EVENT_UPDATE_TYPES) ∧
      ∀ ops1 ops2, sops = ops1 ++ ops2 →
        (server_run client ops1).n_types ≤ (server_run client sops).n_types) := by
  have h1 := client_run_contiguous ops context hle h32
  have h2 := server_run_contiguous sops client hles h32s
  refine ⟨⟨h1.1, h1.2.1, ?_⟩, ⟨h2.1, h2.2.1, ?_⟩⟩
  · intro ops1 ops2 e
    subst e
    exact client_run_mark_mono context ops1 ops2 hle h32
  · intro ops1 ops2 e
    subst e
    exact server_run_mark_mono client ops1 ops2 hles h32s

/-- C27 at a client that registers "a" and "b", calls sync twice, registers "c" and
calls bind, and at a server that registers "a", sends done, registers "b" and "c" and
sends remove_id: the announcements are (0, 2), (2, 1) and (0, 1), (1, 2). -/
theorem C27_contiguous_announcements_witness :
    (context_empty.n_types ≤ spa_type_map_get_size context_empty.type_map ∧
      client_empty.n_types ≤ spa_type_map_get_size client_empty.core.type_map) ∧
    (client_side_effects context_empty
        [.grow [[97], [98]], .call ⟨1⟩ (.core_sync 7), .call ⟨1⟩ (.core_sync 8),
         .grow [[99]], .call ⟨2⟩ (.registry_bind 1 0 9)]).map
      (fun m => (m.first_id, m.count)) = [(0, 2), (2, 1)] ∧
    (server_side_effects client_empty
        [.grow [[97]], .call ⟨1⟩ (.core_done 7), .grow [[98], [99]],
         .call ⟨1⟩ (.core_remove_id 3)]).map
      (fun m => (m.first_id, m.count)) = [(0, 1), (1, 2)] ∧
    Contiguous 0
      (client_side_effects context_empty
        [.grow [[97], [98]], .call ⟨1⟩ (.core_sync 7), .call ⟨1⟩ (.core_sync 8),
         .grow [[99]], .call ⟨2⟩ (.registry_bind 1 0 9)]) 3 ∧
    Contiguous 0
      (server_side_effects client_empty
        [.grow [[97]], .call ⟨1⟩ (.core_done 7), .grow [[98], [99]],
         .call ⟨1⟩ (.core_remove_id 3)]) 3 :=
  have h := C27_contiguous_announcements context_empty
    [.grow [[97], [98]], .call ⟨1⟩ (.core_sync 7), .call ⟨1⟩ (.core_sync 8),
     .grow [[99]], .call ⟨2⟩ (.registry_bind 1 0 9)]
    client_empty
    [.grow [[97]], .call ⟨1⟩ (.core_done 7), .grow [[98], [99]],
     .call ⟨1⟩ (.core_remove_id 3)]
    (by decide) (by decide) (by decide) (by decide)
  ⟨⟨by decide, by decide⟩, by decide, by decide, h.1.1, h.2.1⟩

/-! ## The descriptors and their tables (C25) -/

/-- C31: when a marshaler other than update_types is called on any object while the
type map is ahead of the sent high-water mark (client side: on a live connection),
the call finalizes two messages: the update_types, addressed to the connection's core
object (the context's core proxy on the client side, the client's core resource on
the server side) with opcode 0, and then the triggering message, addressed to the
triggering object with the marshaler's opcode. When the triggering object is not the
core object, the update_types does not carry its id. -/
theorem C31_update_types_target (context : pw_context) (conn : pw_connection)
    (proxy : pw_proxy) (m : Method) (client : pw_client) (resource : pw_resource) (e : Event)
    (hc : context.protocol_private = some conn) (hm : m.is_update_types = false)
    (hlt : context.n_types < spa_type_map_get_size context.type_map)
    (h32 : spa_type_map_get_size context.type_map < 4294967296)
    (he : e.is_update_types = false)
    (hlt2 : client.n_types < spa_type_map_get_size client.core.type_map)
    (h322 : spa_type_map_get_size client.core.type_map < 4294967296) :
    (∃ u t, finalized (marshal_method context proxy m).framer
        = finalized context.framer ++ [u, t] ∧
      u.dest_id = context.core_proxy.id ∧ u.opcode = 0 ∧
      u.payload = encodeStruct (missing_types_pods context.n_types context.type_map) ∧
      t.dest_id = proxy.id ∧ t.opcode = m.opcode ∧
      (proxy.id ≠ context.core_proxy.id → u.dest_id ≠ proxy.id)) ∧
    (∃ u t, finalized (marshal_event client resource e).framer
        = finalized client.framer ++ [u, t] ∧
      u.dest_id = client.core_resource.id ∧ u.opcode = 0 ∧
      u.payload = encodeStruct (missing_types_pods client.n_types client.core.type_map) ∧
      t.dest_id = resource.id ∧ t.opcode = e.opcode ∧
      (resource.id ≠ client.core_resource.id → u.dest_id ≠ resource.id)) := by
  obtain ⟨size, payload, -, h1⟩ := marshal_method_shape context conn proxy m hc hm
  obtain ⟨size2, payload2, -, h2⟩ := marshal_event_shape client resource e he
  rw [core_update_map_client_messages context conn hc hlt h32] at h1
  rw [core_update_map_server_messages client hlt2 h322] at h2
  refine ⟨⟨_, _, by simpa using h1, rfl, rfl, rfl, rfl, rfl, fun h => Ne.symm h⟩,
    ⟨_, _, by simpa using h2, rfl, rfl, rfl, rfl, rfl, fun h => Ne.symm h⟩⟩

/-- C31 at registry.bind on the registry proxy 5 of a context that has announced two
of its four types, and at node.info on the node resource 7 of such a client: the
update_types goes to the core object 0, the bind to 5 and the info to 7. -/
theorem C31_update_types_target_witness :
    (context_behind.protocol_private = some ⟨3⟩ ∧
      context_behind.n_types < spa_type_map_get_size context_behind.type_map ∧
      client_behind.n_types < spa_type_map_get_size client_behind.core.type_map) ∧
    (finalized (marshal_method context_behind ⟨5⟩ (Method.registry_bind 1 0 9)).framer).map
      (fun msg => (msg.dest_id, msg.opcode)) = [(0, 0), (5, 0)] ∧
    (finalized (marshal_event client_behind ⟨7⟩ (Event.node_info node_info_example)).framer).map
      (fun msg => (msg.dest_id, msg.opcode)) = [(0, 0), (7, 0)] := by
  obtain ⟨⟨u, t, h, hu, huo, -, ht, hto, -⟩, ⟨u2, t2, h2, hu2, huo2, -, ht2, hto2, -⟩⟩ :=
    C31_update_types_target context_behind ⟨3⟩ ⟨5⟩ (Method.registry_bind 1 0 9)
      client_behind ⟨7⟩ (Event.node_info node_info_example) rfl rfl (by decide) (by decide)
      rfl (by decide) (by decide)
  refine ⟨⟨rfl, by decide, by decide⟩, ?_, ?_⟩
  · rw [h]
    simp only [context_behind, finalized, List.nil_append, List.map_cons, List.map_nil, hu,
      huo, ht, hto]
    rfl
  · rw [h2]
    simp only [client_behind, finalized, List.nil_append, List.map_cons, List.map_nil, hu2,
      huo2, ht2, hto2]
    rfl

/-! ## Removing a source output (C32) -/

theorem find_key_none (l : List (CStr × Option PvSourceOutput)) (key : CStr)
    (h : key ∉ l.map (fun e => e.1)) : l.find? (fun e => e.1 = key) = none := by
  rw [List.find?_eq_none]
  intro e he hk
  exact h (List.mem_map.mpr ⟨e, he, by simpa using hk⟩)

theorem find_key_some (l : List (CStr × Option PvSourceOutput)) (key : CStr)
    (h : key ∈ l.map (fun e => e.1)) :
    ∃ v, l.find? (fun e => e.1 = key) = some (key, v) ∧ (key, v) ∈ l := by
  induction l with
  | nil => simp at h
  | cons a l ih =>
    obtain ⟨k, v⟩ := a
    by_cases ha : k = key
    · subst ha
      exact ⟨v, List.find?_cons_of_pos _ (by simp), List.mem_cons_self _ _⟩
    · have h2 : key ∈ l.map (fun e => e.1) := by
        simp only [List.map_cons, List.mem_cons] at h
        rcases h with h | h
        · exact absurd h.symm ha
        · exact h
      obtain ⟨v2, hv, hm⟩ := ih h2
      refine ⟨v2, ?_, List.mem_cons_of_mem _ hm⟩
      rw [List.find?_cons_of_neg _ (by simpa using ha)]
      exact hv

theorem filter_key_eq (l : List (CStr × Option PvSourceOutput)) (key : CStr)
    (v : Option PvSourceOutput) (hn : (l.map (fun e => e.1)).Nodup) (hm : (key, v) ∈ l) :
    l.filter (fun e => e.1 = key) = [(key, v)] := by
  induction l with
  | nil => simp at hm
  | cons a l ih =>
    simp only [List.map_cons, List.nodup_cons] at hn
    rcases List.mem_cons.mp hm with h | h
    · subst h
      have : l.filter (fun e => e.1 = key) = [] := by
        rw [List.filter_eq_nil_iff]
        intro e he hk
        exact hn.1 (List.mem_map.mpr ⟨e, he, by simpa using hk⟩)
      simp [List.filter_cons, this]
    · have hne : a.1 ≠ key := by
        intro hk
        exact hn.1 (List.mem_map.mpr ⟨(key, v), h, hk.symm⟩)
      simp [List.filter_cons, hne, ih hn.2 h]

theorem filter_key_length (l : List (CStr × Option PvSourceOutput)) (key : CStr) :
    (l.filter (fun e => e.1 ≠ key)).length + (l.filter (fun e => e.1 = key)).length
      = l.length := by
  induction l with
  | nil => rfl
  | cons a l ih =>
    by_cases ha : a.1 = key
    · rw [List.filter_cons_of_neg (by simpa using ha), List.filter_cons_of_pos (by simpa using ha)]
      simp only [List.length_cons]
      omega
    · rw [List.filter_cons_of_pos (by simpa using ha), List.filter_cons_of_neg (by simpa using ha)]
      simp only [List.length_cons]
      omega

theorem find_filter_other (l : List (CStr × Option PvSourceOutput)) (key other : CStr)
    (h : other ≠ key) :
    (l.filter (fun e => e.1 ≠ key)).find? (fun e => e.1 = other)
      = l.find? (fun e => e.1 = other) := by
  induction l with
  | nil => rfl
  | cons a l ih =>
    by_cases ha : a.1 = key
    · have hao : ¬ a.1 = other := fun e => h (e.symm.trans ha)
      rw [List.filter_cons_of_neg (by simpa using ha), List.find?_cons_of_neg _ (by simpa using hao)]
      exact ih
    · rw [List.filter_cons_of_pos (by simpa using ha)]
      by_cases hao : a.1 = other
      · rw [List.find?_cons_of_pos _ (by simpa using hao),
          List.find?_cons_of_pos _ (by simpa using hao)]
      · rw [List.find?_cons_of_neg _ (by simpa using hao),
          List.find?_cons_of_neg _ (by simpa using hao)]
        exact ih

theorem lookup_filter_other (l : List (CStr × Option PvSourceOutput)) (key other : CStr)
    (h : other ≠ key) :
    g_hash_table_lookup ⟨l.filter (fun e => e.1 ≠ key)⟩ other = g_hash_table_lookup ⟨l⟩ other := by
  unfold g_hash_table_lookup
  rw [find_filter_other l key other h]

theorem handle_remove_absent (interface : PvCapture1) (invocation : GDBusMethodInvocation)
    (arg_output : CStr) (client : PvClient) (w : Effects)
    (h : g_hash_table_lookup client.priv.source_outputs arg_output = none) :
    handle_remove_source_output interface invocation arg_output client w
      = ((client,
          { w with completed_remove := w.completed_remove ++ [(interface, invocation)] }),
         true) := by
  simp only [handle_remove_source_output, h]

theorem handle_remove_present (interface : PvCapture1) (invocation : GDBusMethodInvocation)
    (arg_output : CStr) (client : PvClient) (w : Effects) (output : PvSourceOutput)
    (h : g_hash_table_lookup client.priv.source_outputs arg_output = some output) :
    handle_remove_source_output interface invocation arg_output client w
      = (({ client with priv := { client.priv with
              source_outputs := ⟨client.priv.source_outputs.entries.filter
                (fun e => e.1 ≠ arg_output)⟩ } },
          { w with
            released := w.released ++ [(client.priv.source, output)]
            freed := w.freed ++ ((client.priv.source_outputs.entries.filter
              (fun e => e.1 = arg_output)).map (fun e => e.1))
            unreffed := w.unreffed ++ ((client.priv.source_outputs.entries.filter
              (fun e => e.1 = arg_output)).map (fun e => e.2))
            completed_remove := w.completed_remove ++ [(interface, invocation)] }),
         true) := by
  simp only [handle_remove_source_output, h, g_hash_table_remove]

/-- In a table of objects the lookup of a key that is in the table yields its object. -/
theorem lookup_present (client : PvClient) (key : CStr) (hwf : client.wf)
    (hk : key ∈ client.priv.source_outputs.keys) :
    ∃ output, g_hash_table_lookup client.priv.source_outputs key = some output ∧
      client.priv.source_outputs.entries.filter (fun e => e.1 = key) = [(key, some output)] := by
  obtain ⟨v, hf, hm⟩ := find_key_some _ key hk
  cases v with
  | none => exact absurd rfl (hwf.1 _ hm)
  | some output =>
    exact ⟨output, by simp only [g_hash_table_lookup, hf],
      filter_key_eq _ key (some output) hwf.2 hm⟩

theorem lookup_absent (t : GHashTable) (key : CStr) (hk : key ∉ t.keys) :
    g_hash_table_lookup t key = none := by
  simp only [g_hash_table_lookup, find_key_none _ key hk]

theorem pv_client_init_wf (daemon : PvDaemon) (object_path : Option CStr) :
    (pv_client_init daemon object_path).wf :=
  ⟨fun _ h => (by cases h), List.nodup_nil⟩

/-- The handler `handle_remove_source_output` keeps the table a table of objects. -/
theorem handle_remove_wf (interface : PvCapture1) (invocation : GDBusMethodInvocation)
    (arg_output : CStr) (client : PvClient) (w : Effects) (hwf : client.wf) :
    (handle_remove_source_output interface invocation arg_output client w).1.1.wf := by
  rcases h : g_hash_table_lookup client.priv.source_outputs arg_output with _ | output
  · rw [handle_remove_absent _ _ _ _ _ h]
    exact hwf
  · rw [handle_remove_present _ _ _ _ _ output h]
    refine ⟨fun e he => hwf.1 e (List.mem_of_mem_filter he), ?_⟩
    have hs : List.Sublist
        ((client.priv.source_outputs.entries.filter (fun e => e.1 ≠ arg_output)).map
          (fun e => e.1))
        (client.priv.source_outputs.entries.map (fun e => e.1)) :=
      List.Sublist.map _ (List.filter_sublist _)
    exact List.Nodup.sublist hs hwf.2

/-- The handler `handle_create_source_output`, when it creates an output, keeps the
table a table of objects: it stores the created object. -/
theorem handle_create_wf
    (pv_daemon_get_source : PvDaemon → CStr → Option PvSource)
    (pv_source_create_source_output :
      Option PvSource → Option GVariant → Option CStr → Option PvSourceOutput)
    (pv_source_output_get_object_path : PvSourceOutput → CStr)
    (interface : PvCapture1) (invocation : GDBusMethodInvocation) (arg_source : CStr)
    (arg_properties : Option GVariant) (client : PvClient) (w : Effects)
    (r : (PvClient × Effects) × Bool) (hwf : client.wf)
    (h : handle_create_source_output pv_daemon_get_source pv_source_create_source_output
      pv_source_output_get_object_path interface invocation arg_source arg_properties client w
      = some r) : r.1.1.wf ∧ r.2 = true := by
  unfold handle_create_source_output at h
  rcases ho : pv_source_create_source_output
      (pv_daemon_get_source client.priv.daemon arg_source) none client.priv.object_path
    with _ | output
  · simp [ho] at h
  · simp only [ho, g_hash_table_insert] at h
    rcases hf : client.priv.source_outputs.entries.find?
        (fun e => e.1 = pv_source_output_get_object_path output) with _ | old
    · simp only [hf, Option.some.injEq] at h
      subst h
      refine ⟨⟨?_, ?_⟩, rfl⟩
      · intro e he
        rcases List.mem_append.mp he with h1 | h1
        · exact hwf.1 e h1
        · simp only [List.mem_singleton] at h1
          subst h1
          simp
      · have hnot : pv_source_output_get_object_path output
            ∉ client.priv.source_outputs.entries.map (fun e => e.1) := by
          intro hmem
          obtain ⟨v, hv, -⟩ := find_key_some _ _ hmem
          rw [hf] at hv
          cases hv
        have hn := hwf.2
        simp only [GHashTable.keys, List.map_append, List.map_cons, List.map_nil] at hn ⊢
        rw [List.nodup_append]
        refine ⟨hn, List.nodup_singleton _, ?_⟩
        intro a ha hb
        simp only [List.mem_singleton] at hb
        subst hb
        exact hnot ha
    · simp only [hf, Option.some.injEq] at h
      subst h
      refine ⟨⟨?_, ?_⟩, rfl⟩
      · intro e he
        obtain ⟨e0, he0, hm⟩ := List.mem_map.mp he
        by_cases hk : e0.1 = pv_source_output_get_object_path output
        · simp only [hk, if_true] at hm
          subst hm
          simp
        · simp only [hk, if_false] at hm
          subst hm
          exact hwf.1 _ he0
      · have hkeys : (client.priv.source_outputs.entries.map
            (fun e => if e.1 = pv_source_output_get_object_path output
              then (e.1, some output) else e)).map (fun e => e.1)
            = client.priv.source_outputs.entries.map (fun e => e.1) := by
          rw [List.map_map]
          apply List.map_congr_left
          intro e _
          by_cases hk : e.1 = pv_source_output_get_object_path output <;> simp [hk]
        simp only [GHashTable.keys]
        rw [hkeys]
        exact hwf.2

/-- C32: in a client whose table of source outputs holds objects (as stored by
`handle_create_source_output`), `handle_remove_source_output` completes the
invocation and returns TRUE in both cases. Called with a path that is not a key of
the table it leaves the client unchanged and releases nothing: no release of a source
output, no key freed, no object unreferenced. Called with a path that is a key it
releases that output and removes exactly that entry: the path is no longer a key,
every other entry is in the table as before, the lookup of every other path yields
what it yielded before, the table has one entry less, and the other fields of the
client are unchanged. The table stays a table of objects. -/
theorem C32_remove_source_output (interface : PvCapture1) (invocation : GDBusMethodInvocation)
    (arg_output : CStr) (client : PvClient) (w : Effects) (hwf : client.wf) :
    (handle_remove_source_output interface invocation arg_output client w).2 = true ∧
    (handle_remove_source_output interface invocation arg_output client w).1.2.completed_remove
      = w.completed_remove ++ [(interface, invocation)] ∧
    (handle_remove_source_output interface invocation arg_output client w).1.2.completed_create
      = w.completed_create ∧
    (arg_output ∉ client.priv.source_outputs.keys →
      (handle_remove_source_output interface invocation arg_output client w).1.1 = client ∧
      (handle_remove_source_output interface invocation arg_output client w).1.2.released
        = w.released ∧
      (handle_remove_source_output interface invocation arg_output client w).1.2.freed
        = w.freed ∧
      (handle_remove_source_output interface invocation arg_output client w).1.2.unreffed
        = w.unreffed) ∧
    (arg_output ∈ client.priv.source_outputs.keys →
      (handle_remove_source_output interface invocation arg_output client
          w).1.1.priv.source_outputs.entries
        = client.priv.source_outputs.entries.filter (fun e => e.1 ≠ arg_output) ∧
      arg_output ∉ (handle_remove_source_output interface invocation arg_output client
          w).1.1.priv.source_outputs.keys ∧
      (∀ e ∈ client.priv.source_outputs.entries, e.1 ≠ arg_output →
        e ∈ (handle_remove_source_output interface invocation arg_output client
          w).1.1.priv.source_outputs.entries) ∧
      (∀ key, key ≠ arg_output →
        g_hash_table_lookup (handle_remove_source_output interface invocation arg_output client
            w).1.1.priv.source_outputs key
          = g_hash_table_lookup client.priv.source_outputs key) ∧
      (handle_remove_source_output interface invocation arg_output client
          w).1.1.priv.source_outputs.entries.length + 1
        = client.priv.source_outputs.entries.length ∧
      (handle_remove_source_output interface invocation arg_output client w).1.1.priv.daemon
        = client.priv.daemon ∧
      (handle_remove_source_output interface invocation arg_output client
          w).1.1.priv.object_path = client.priv.object_path ∧
      (handle_remove_source_output interface invocation arg_output client w).1.1.priv.source
        = client.priv.source ∧
      ∃ output, g_hash_table_lookup client.priv.source_outputs arg_output = some output ∧
        (handle_remove_source_output interface invocation arg_output client w).1.2.released
          = w.released ++ [(client.priv.source, output)] ∧
        (handle_remove_source_output interface invocation arg_output client w).1.2.freed
          = w.freed ++ [arg_output] ∧
        (handle_remove_source_output interface invocation arg_output client w).1.2.unreffed
          = w.unreffed ++ [some output]) ∧
    (handle_remove_source_output interface invocation arg_output client w).1.1.wf := by
  refine ⟨rfl, ?_, ?_, ?_, ?_, handle_remove_wf interface invocation arg_output client w hwf⟩
  · rcases h : g_hash_table_lookup client.priv.source_outputs arg_output with _ | output
    · rw [handle_remove_absent _ _ _ _ _ h]
    · rw [handle_remove_present _ _ _ _ _ output h]
  · rcases h : g_hash_table_lookup client.priv.source_outputs arg_output with _ | output
    · rw [handle_remove_absent _ _ _ _ _ h]
    · rw [handle_remove_present _ _ _ _ _ output h]
  · intro hk
    rw [handle_remove_absent _ _ _ _ _ (lookup_absent _ _ hk)]
    exact ⟨rfl, rfl, rfl, rfl⟩
  · intro hk
    obtain ⟨output, hl, hf⟩ := lookup_present client arg_output hwf hk
    rw [handle_remove_present _ _ _ _ _ output hl]
    have hlen := filter_key_length client.priv.source_outputs.entries arg_output
    rw [hf] at hlen
    refine ⟨rfl, ?_, ?_, ?_, ?_, rfl, rfl, rfl, output, hl, rfl, ?_, ?_⟩
    · intro hmem
      obtain ⟨e, he, hk2⟩ := List.mem_map.mp hmem
      have hne : e.1 ≠ arg_output := by simpa using (List.mem_filter.mp he).2
      exact hne hk2
    · intro e he hne
      exact List.mem_filter.mpr ⟨he, by simpa using hne⟩
    · intro key hne
      exact lookup_filter_other _ arg_output key hne
    · simpa using hlen
    · simp only [hf, List.map_cons, List.map_nil]
    · simp only [hf, List.map_cons, List.map_nil]

/-- C32 at the client whose table holds the outputs 1 and 2 under "a" and "b": the
removal of "c" changes nothing and releases nothing, the removal of "a" releases the
output 1 and leaves the entry of "b"; both complete the invocation and return TRUE. -/
theorem C32_remove_source_output_witness :
    pv_client_example.wf ∧
    [99] ∉ pv_client_example.priv.source_outputs.keys ∧
    [97] ∈ pv_client_example.priv.source_outputs.keys ∧
    handle_remove_source_output ⟨1⟩ ⟨2⟩ [99] pv_client_example effects_none
      = ((pv_client_example, ⟨[], [], [], [], [(⟨1⟩, ⟨2⟩)]⟩), true) ∧
    (handle_remove_source_output ⟨1⟩ ⟨2⟩ [97] pv_client_example effects_none).2 = true ∧
    (handle_remove_source_output ⟨1⟩ ⟨2⟩ [97] pv_client_example
        effects_none).1.1.priv.source_outputs.entries
      = pv_client_example.priv.source_outputs.entries.filter (fun e => e.1 ≠ [97]) ∧
    (handle_remove_source_output ⟨1⟩ ⟨2⟩ [97] pv_client_example
        effects_none).1.1.priv.source_outputs.entries = [([98], some ⟨2⟩)] :=
  have hwf : pv_client_example.wf := by
    unfold PvClient.wf GHashTable.keys
    decide
  have h := C32_remove_source_output ⟨1⟩ ⟨2⟩ [97] pv_client_example effects_none hwf
  ⟨hwf, by decide, by decide, by decide, h.1, (h.2.2.2.2.1 (by decide)).1, by decide⟩

/-- A fresh client, the creation of an output with the path "o" and its removal: the
table is empty again and the output was released and unreferenced. -/
theorem create_then_remove_example :
    (handle_create_source_output (fun _ _ => some ⟨1⟩) (fun _ _ _ => some ⟨7⟩)
        (fun _ => [111]) ⟨1⟩ ⟨2⟩ [115] none (pv_client_init ⟨0⟩ (some [112])) effects_none).map
      (fun r => handle_remove_source_output ⟨1⟩ ⟨3⟩ [111] r.1.1 r.1.2)
      = some ((pv_client_init ⟨0⟩ (some [112]),
          ⟨[(none, ⟨7⟩)], [[111]], [some ⟨7⟩], [(⟨1⟩, ⟨2⟩, [111])], [(⟨1⟩, ⟨3⟩)]⟩), true) := by
  decide

end PipeWire
